import Mathlib

/-!
# KBUS Modbus slave: dispatcher, reply constructor and register banks

A shallow embedding of `modbus.c`, `modbus_reply.c`, `modbus_watchdog.c`, `kbus.c`,
`conffile_reader.c` and the configuration-register modules of the gateway, followed by
theorems about the request dispatcher, the watchdog and the cycle engine.

Conventions of the embedding.

* A `uint8_t` buffer is a `List Nat`; every byte read from a request goes through
  `reqByte`, which reduces modulo 256.  A `uint16_t` table is a `List Nat` of words.
* The static variables of the C modules are the fields of `Globals`; the register
  and coil storages (`modbus_mapping_t *`) are addressed by the constructors of
  `Mapping`, which carry the names of the C pointers.
* What is sent on the socket is appended to `Server.sent`.
* The contexts of the program are created by `modbus_new_tcp` and `modbus_new_udp`:
  the header length is 7, `filter_request` never filters and the backend is never RTU.
* An access past the end of a table is outside the embedding: such a store is
  dropped and such a load reads 0.
* The fieldbus driver is an oracle held in `Globals.bus`: it fixes what the next driver
  calls will report.  Every driver call, timer call and invocation of the watchdog's
  expiration callback is appended to `Globals.trace`, a ghost variable.
* Threads are not modelled: a function runs to its end; a cycle in progress on another
  thread is the flag `kbus_update_mutex` being set at entry.
-/

set_option maxRecDepth 100000

namespace KbusModbus

/-! ## Constants -/

/-- Function codes of `modbus-private.h`. -/
def _FC_READ_COILS : Nat := 0x01
/-- Function code 0x02. -/
def _FC_READ_DISCRETE_INPUTS : Nat := 0x02
/-- Function code 0x03. -/
def _FC_READ_HOLDING_REGISTERS : Nat := 0x03
/-- Function code 0x04. -/
def _FC_READ_INPUT_REGISTERS : Nat := 0x04
/-- Function code 0x05. -/
def _FC_WRITE_SINGLE_COIL : Nat := 0x05
/-- Function code 0x06. -/
def _FC_WRITE_SINGLE_REGISTER : Nat := 0x06
/-- Function code 0x07. -/
def _FC_READ_EXCEPTION_STATUS : Nat := 0x07
/-- Function code 0x0F. -/
def _FC_WRITE_MULTIPLE_COILS : Nat := 0x0F
/-- Function code 0x10. -/
def _FC_WRITE_MULTIPLE_REGISTERS : Nat := 0x10
/-- Function code 0x11. -/
def _FC_REPORT_SLAVE_ID : Nat := 0x11
/-- Function code 0x16. -/
def _FC_MASK_WRITE_REGISTER : Nat := 0x16
/-- Function code 0x17. -/
def _FC_WRITE_AND_READ_REGISTERS : Nat := 0x17
/-- Function code 0x42. -/
def _FC_READ_INPUT_REGISTERS_XL : Nat := 0x42
/-- Slave id byte of `modbus-private.h`. -/
def _REPORT_SLAVE_ID : Nat := 180

/-- Exception codes of the libmodbus header (Modbus Application Protocol, section 7). -/
def MODBUS_EXCEPTION_ILLEGAL_FUNCTION : Nat := 1
/-- Exception code 02. -/
def MODBUS_EXCEPTION_ILLEGAL_DATA_ADDRESS : Nat := 2
/-- Exception code 03. -/
def MODBUS_EXCEPTION_ILLEGAL_DATA_VALUE : Nat := 3
/-- Exception code 06. -/
def MODBUS_EXCEPTION_SLAVE_OR_SERVER_BUSY : Nat := 6
/-- One past the last exception code of the libmodbus header. -/
def MODBUS_EXCEPTION_MAX : Nat := 12

/-- Protocol maxima of the libmodbus header (Modbus Application Protocol v1.1b). -/
def MODBUS_MAX_READ_BITS : Nat := 2000
/-- Maximum quantity of a write-multiple-coils request. -/
def MODBUS_MAX_WRITE_BITS : Nat := 1968
/-- Maximum quantity of a register read. -/
def MODBUS_MAX_READ_REGISTERS : Nat := 125
/-- Maximum quantity of a write-multiple-registers request. -/
def MODBUS_MAX_WRITE_REGISTERS : Nat := 123
/-- Maximum write quantity of a write-and-read request. -/
def MODBUS_MAX_RW_WRITE_REGISTERS : Nat := 121

/-- Coil values of the libmodbus header. -/
def ON : Nat := 1
/-- Coil value off. -/
def OFF : Nat := 0

/-- States of `modbus_ApplicationState` (`modbus.c`). -/
def APPLICATION_STOP : Nat := 0
/-- Running state. -/
def APPLICATION_RUNNING : Nat := 1

/-- Register and coil capacities of `modbus.c`. -/
def MODBUS_INREGISTER_COUNT : Nat := 256
/-- Output registers of area 1. -/
def MODBUS_OUTREGISTER_COUNT : Nat := 256
/-- Input registers of area 2. -/
def MODBUS_INREGISTER_2_COUNT : Nat := 764
/-- Output registers of area 2. -/
def MODBUS_OUTREGISTER_2_COUNT : Nat := 764
/-- Coils of area 1. -/
def MODBUS_BIT_1_COUNT : Nat := 512
/-- Coils of area 2. -/
def MODBUS_BIT_2_COUNT : Nat := 1528

/-- Length of the MBAP header, `ctx->backend->header_length` of the TCP and UDP backends. -/
def header_length : Nat := 7

/-! ## Data model -/

/-- The libmodbus storage `modbus_mapping_t`: four capacities and four tables.  The coil
tables are packed bitmaps held as bytes, the register tables hold 16-bit words. -/
structure modbus_mapping_t where
  nb_bits : Nat
  nb_input_bits : Nat
  nb_registers : Nat
  nb_input_registers : Nat
  tab_bits : List Nat
  tab_input_bits : List Nat
  tab_registers : List Nat
  tab_input_registers : List Nat
deriving DecidableEq, Repr

/-- The storages of the program, named after the static pointers that hold them
(`modbus.c`, `modbus_watchdog.c`, `modbus_kbusInfo.c`, `modbus_mac.c`, `modbus_const.c`,
`modbus_shortDescription.c`, `modbus_config.c`). -/
inductive Mapping where
  | mb_mapping_in
  | mb_mapping_write
  | mb_mapping_2_in
  | mb_mapping_2_write
  | mb_digital_1_in
  | mb_digital_1_write
  | mb_digital_2_in
  | mb_digital_2_write
  | mb_watchdog_mapping
  | mb_mapping_kbusInfo
  | mb_config_mac_mapping
  | mb_config_const_mapping
  | mb_shortDescription_mapping
  | mb_knot_asam_1
  | mb_knot_asam_2
  | mb_knot_asam_3
  | mb_knot_asam_4
deriving DecidableEq, Repr

/-- The slave, function and transaction id of a response (`sft_t`, `modbus-private.h`). -/
structure sft_t where
  slave : Nat
  function : Nat
  t_id : Nat
deriving DecidableEq, Repr

/-- A response handed to `send_msg`: either the backend's response basis for `sft`
followed by `data`, or a byte-for-byte copy of a request. -/
inductive Reply where
  | built (sft : sft_t) (data : List Nat)
  | copy (bytes : List Nat)
deriving DecidableEq, Repr

/-- One entry of `modules` (`module_desc_t`, `kbus.h`), without the description string. -/
structure module_desc_t where
  series : Nat
  value : Nat
  spec1 : Nat
  spec2 : Nat
deriving DecidableEq, Repr

/-- The fields of the driver's status record `tldkc_KbusInfo_Status` that `kbus.c` reads. -/
structure tldkc_KbusInfo_Status where
  ErrorCode : Nat
  BitCountAnalogInput : Nat
  BitCountAnalogOutput : Nat
  BitCountDigitalInput : Nat
  BitCountDigitalOutput : Nat
deriving DecidableEq, Repr

/-- What `kbus.c` hands to `kbus_timerSetTime` as timer: the handle that `timer_create`
stored in `kbus_timerID` (`*timerID` in `kbus_timerSetup`), or the address `&kbus_timerID`
of that variable (in `kbus_update`, `kbus_forceUpdate` and the application-state
handlers).  The embedding records which one is passed and gives `timer_settime` no
meaning beyond the call. -/
inductive TimerArg where
  | handle
  | addressOfHandle
deriving DecidableEq, Repr

/-- The calls that leave the program, in the order of `Globals.trace`. -/
inductive Event where
  | timer_settime (timerID : TimerArg) (intervalMS : Int)
  | KbusInfo_GetStatus
  | libpackbus_Push
  | WatchdogTrigger
  | WriteStart
  | WriteBytes (offset size : Nat) (data : List Nat)
  | WriteEnd
  | ReadStart
  | ReadBytes (offset size : Nat)
  | ReadEnd
  | usleep (us : Nat)
  | kbus_close
  | kbus_setup
  | watchdogExpired
deriving DecidableEq, Repr

/-- What one run of `kbus_setup` will find on the bus: the value it returns (0, or the
negative code of the step that failed) and, on success, the topology. -/
structure SetupOutcome where
  ret : Int
  status : tldkc_KbusInfo_Status
  offset_input : Nat
  offset_output : Nat
  terminalCount : Nat
  modules : List module_desc_t
deriving DecidableEq, Repr

/-- The result of one call of `CallDeviceSpecificFunction("libpackbus_Push", &retval)`:
whether the call returned `DAL_SUCCESS` and whether `retval` is `DAL_SUCCESS`. -/
structure PushOutcome where
  callSuccess : Bool
  retvalSuccess : Bool
deriving DecidableEq, Repr

/-- The fieldbus as the driver will present it: the error codes of the next
`ldkc_KbusInfo_GetStatus` calls (0 once the list is used up), the results of the next
pushes (success once used up), the input bytes of the next `ReadBytes` calls (zeros once
used up) and the outcomes of the next `kbus_setup` runs. -/
structure Bus where
  errorCodes : List Nat
  pushes : List PushOutcome
  reads : List (List Nat)
  setups : List SetupOutcome
deriving DecidableEq, Repr

/-- The static variables of the modules (`modbus.c`, `modbus_watchdog.c`, `kbus.c`,
`conffile_reader.c`), the bus oracle and the ghost trace of outgoing calls. -/
structure Globals where
  maps : Mapping → modbus_mapping_t
  modbus_ApplicationState : Nat
  modbus_initialized : Bool
  modbusWatchdog_active : Bool
  watchdogTimeout : Nat
  timeout : Nat
  modbusWatchdog_stopFlag : Bool
  offset_output : Nat
  offset_input : Nat
  bytesToWrite : Nat
  bytesToRead : Nat
  conf_modbus_port : Int
  conf_max_tcp_connections : Int
  conf_operation_mode : Int
  conf_modbus_delay_ms : Int
  conf_kbus_priority : Int
  conf_kbus_cycle_ms : Int
  kbus_initialized : Bool
  kbus_update_mutex : Bool
  status : tldkc_KbusInfo_Status
  terminalCount : Nat
  modules : List module_desc_t
  pd_in : List Nat
  pd_out : List Nat
  bus : Bus
  trace : List Event

/-- A server thread: the globals and the responses sent so far, oldest first. -/
structure Server where
  g : Globals
  sent : List Reply

/-- What the dispatcher takes from outside `modbus.c` and `modbus_reply.c`: the two
callback pointers (set by `modbus_registerMsgReceivedCallback`, `none` for `NULL`), the
libmodbus version string and the quantity limit of function 0x42. -/
structure Env where
  modbus_receivedCallback : Option (Globals → Globals)
  modbus_replyCallback : Option (Globals → Globals)
  LIBMODBUS_VERSION_STRING : List Nat
  MODBUS_MAX_READ_REGISTERS_FC66 : Nat

/-- Store `m` as the content of storage `r`. -/
def Globals.setMap (g : Globals) (r : Mapping) (m : modbus_mapping_t) : Globals :=
  { g with maps := Function.update g.maps r m }

/-- Run a callback pointer when it is not `NULL`. -/
def runCallback (cb : Option (Globals → Globals)) (g : Globals) : Globals :=
  match cb with
  | some f => f g
  | none => g

/-! ## Bytes, words and bitmaps -/

/-- Byte `i` of a request buffer. -/
def reqByte (req : List Nat) (i : Nat) : Nat := req.getD i 0 % 256

/-- The big-endian 16-bit value `(req[i] << 8) + req[i + 1]`. -/
def reqWord (req : List Nat) (i : Nat) : Nat := reqByte req i * 256 + reqByte req (i + 1)

/-- The response bytes of `nb` registers from index `address`: for each word its high
byte `tab[i] >> 8` and its low byte `tab[i] & 0xFF`. -/
def registerBytes (tab : List Nat) (address nb : Nat) : List Nat :=
  (List.range nb).flatMap (fun k => [tab.getD (address + k) 0 / 256 % 256, tab.getD (address + k) 0 % 256])

/-- The loop `for (i = address, j = j0; i < address + nb; i++, j += 2)
tab[i] = (req[offset + j] << 8) + req[offset + j + 1]`. -/
def storeRegisters (tab : List Nat) (req : List Nat) (address nb j0 : Nat) : List Nat :=
  (List.range nb).foldl (fun t k => t.set (address + k) (reqWord req (header_length + j0 + 2 * k))) tab

/-- Bit `i` of a packed bitmap: bit `i % 8` of byte `i / 8`. -/
def bitmapGet (tab : List Nat) (i : Nat) : Nat := tab.getD (i / 8) 0 / 2 ^ (i % 8) % 2

/-- The bitmap with bit `i` set to `b`. -/
def bitmapSet (tab : List Nat) (i : Nat) (b : Nat) : List Nat :=
  tab.set (i / 8) (tab.getD (i / 8) 0 - (tab.getD (i / 8) 0 / 2 ^ (i % 8) % 2) * 2 ^ (i % 8) + (b % 2) * 2 ^ (i % 8))

/-- Modelled from the spec: `modbus_get_bytes_from_bitmap16` belongs to the vendor's
libmodbus and is missing from the sources; it packs the `nb` coils from `address` into
response bytes, eight per byte, lowest bit first (coil banks are bitmaps, section 3). -/
def modbus_get_bytes_from_bitmap16 (tab : List Nat) (address nb : Nat) : List Nat :=
  (List.range (nb / 8 + if nb % 8 = 0 then 0 else 1)).map (fun m =>
    ((List.range 8).map (fun j => if 8 * m + j < nb then bitmapGet tab (address + 8 * m + j) * 2 ^ j else 0)).sum)

/-- Modelled from the spec: `modbus_set_bitmap16_from_bytes` belongs to the vendor's
libmodbus and is missing from the sources; it stores the `nb` coils packed in `src`,
lowest bit first, into the bitmap from `address` on. -/
def modbus_set_bitmap16_from_bytes (tab : List Nat) (address nb : Nat) (src : List Nat) : List Nat :=
  (List.range nb).foldl (fun t k => bitmapSet t (address + k) (src.getD (k / 8) 0 % 256 / 2 ^ (k % 8) % 2)) tab

/-- Number of bytes of a coil bitmap of `nb` coils, as `modbus_clearMapping` computes it:
`((nb / 16) + ((nb % 16) ? 1 : 0)) * sizeof(uint16_t)`. -/
def bitmapSize (nb : Nat) : Nat := (nb / 16 + if nb % 16 = 0 then 0 else 1) * 2

/-- Modelled from the spec: `modbus_mapping_new` belongs to libmodbus and is missing from
the sources; it allocates the four tables of a storage, zeroed ("capacity in words,
capacity in coil bits, the backing word array, the backing bit array"). -/
def modbus_mapping_new (nb_bits nb_input_bits nb_registers nb_input_registers : Nat) : modbus_mapping_t :=
  { nb_bits := nb_bits
    nb_input_bits := nb_input_bits
    nb_registers := nb_registers
    nb_input_registers := nb_input_registers
    tab_bits := List.replicate (bitmapSize nb_bits) 0
    tab_input_bits := List.replicate (bitmapSize nb_input_bits) 0
    tab_registers := List.replicate nb_registers 0
    tab_input_registers := List.replicate nb_input_registers 0 }

/-- The byte view `(uint8_t *) tab_registers` on the little-endian target: byte `2 k` is
the low byte of word `k`, byte `2 k + 1` its high byte. -/
def regByteGet (tab : List Nat) (i : Nat) : Nat :=
  if i % 2 = 0 then tab.getD (i / 2) 0 % 256 else tab.getD (i / 2) 0 / 256 % 256

/-- Store byte `v` at position `i` of the byte view of a register table. -/
def regByteSet (tab : List Nat) (i : Nat) (v : Nat) : List Nat :=
  if i % 2 = 0 then tab.set (i / 2) (tab.getD (i / 2) 0 / 256 % 256 * 256 + v % 256)
  else tab.set (i / 2) (v % 256 * 256 + tab.getD (i / 2) 0 % 256)

/-! ## The reply constructor (`modbus_reply.c`) -/

/-- The transaction id `prepare_response_tid` of the TCP and UDP backends takes from the
MBAP header: `(req[0] << 8) + req[1]`. -/
def prepare_response_tid (req : List Nat) : Nat := reqWord req 0

/-- Hand a response to the socket (`send_msg`). -/
def send_msg (s : Server) (rsp : Reply) : Server :=
  { s with sent := s.sent ++ [rsp] }

/-- Build the exception response (`response_exception`): the function code is raised by
0x80 and the exception code follows the response basis. -/
def response_exception (sft : sft_t) (exception_code : Nat) : Reply :=
  Reply.built { sft with function := sft.function + 0x80 } [exception_code % 256]

/-- Modelled from the spec: `modbus_reply_exception` belongs to libmodbus and is missing
from the sources; it answers the request with an exception PDU carrying the given code
("respond with an exception PDU, keep connection"). -/
def modbus_reply_exception (s : Server) (req : List Nat) (exception_code : Nat) : Server :=
  let slave := reqByte req (header_length - 1)
  let function := reqByte req header_length
  let sft : sft_t := { slave := slave, function := function + 0x80, t_id := prepare_response_tid req }
  if exception_code < MODBUS_EXCEPTION_MAX then send_msg s (Reply.built sft [exception_code])
  else s

/-- The write address of a write-and-read request routed to its output bank
(`modbus_getWriteMapping`, `modbus.c`): the bank, `none` for `NULL`, and the address as
the function leaves it. -/
def modbus_getWriteMapping (write_address : Nat) : Option Mapping × Nat :=
  let address := write_address
  if address ≤ 255 then (some Mapping.mb_mapping_write, write_address)
  else if address ≥ 512 ∧ address ≤ 767 then (some Mapping.mb_mapping_write, write_address - 512)
  else if address ≥ 0x6000 ∧ address ≤ 0x62FB then (some Mapping.mb_mapping_2_write, write_address - 0x6000)
  else if address ≥ 0x7000 ∧ address ≤ 0x72FB then (some Mapping.mb_mapping_2_write, write_address - 0x7000)
  else (none, write_address)

/-- The read address of a write-and-read request routed to its bank
(`modbus_getReadMapping`, `modbus.c`). -/
def modbus_getReadMapping (read_address : Nat) : Option Mapping × Nat :=
  let address := read_address
  if address ≤ 255 then (some Mapping.mb_mapping_in, read_address)
  else if address ≥ 512 ∧ address ≤ 767 then (some Mapping.mb_mapping_write, read_address - 512)
  else if address ≥ 0x6000 ∧ address ≤ 0x62FB then (some Mapping.mb_mapping_2_in, read_address - 0x6000)
  else if address ≥ 0x7000 ∧ address ≤ 0x72FB then (some Mapping.mb_mapping_2_write, read_address - 0x7000)
  else (none, read_address)

/-- Replace the holding-register table of storage `r`. -/
def setRegisters (g : Globals) (r : Mapping) (tab : List Nat) : Globals :=
  g.setMap r { g.maps r with tab_registers := tab }

/-- Replace the coil bitmap of storage `r`. -/
def setBits (g : Globals) (r : Mapping) (tab : List Nat) : Globals :=
  g.setMap r { g.maps r with tab_bits := tab }

/-- The reply constructor with a base offset (`modbus_reply_offset`): analyse the request,
act on storage `mb_mapping` at the address lowered by `address_offset`, and send the
response.  A return of -1 before any response is built leaves `sent` as it is. -/
def modbus_reply_offset (env : Env) (s : Server) (req : List Nat) (req_length : Nat)
    (mb_mapping : Mapping) (address_offset : Nat) : Server :=
  let offset := header_length
  let slave := reqByte req (offset - 1)
  let function := reqByte req offset
  let address0 := reqWord req (offset + 1)
  if address0 < address_offset then s
  else
    let mapping_address := address0 - address_offset
    let address := if function ≠ _FC_WRITE_AND_READ_REGISTERS then mapping_address else address0
    let sft : sft_t := { slave := slave, function := function, t_id := prepare_response_tid req }
    let m := s.g.maps mb_mapping
    if function = _FC_READ_COILS then
      let nb := reqWord req (offset + 3)
      if nb < 1 ∨ MODBUS_MAX_READ_BITS < nb then
        send_msg s (response_exception sft MODBUS_EXCEPTION_ILLEGAL_DATA_VALUE)
      else if address + nb > m.nb_bits then
        send_msg s (response_exception sft MODBUS_EXCEPTION_ILLEGAL_DATA_ADDRESS)
      else
        send_msg s (Reply.built sft
          ((nb / 8 + (if nb % 8 ≠ 0 then 1 else 0)) % 256 ::
            modbus_get_bytes_from_bitmap16 m.tab_bits address nb))
    else if function = _FC_READ_DISCRETE_INPUTS then
      let nb := reqWord req (offset + 3)
      if nb < 1 ∨ MODBUS_MAX_READ_BITS < nb then
        send_msg s (response_exception sft MODBUS_EXCEPTION_ILLEGAL_DATA_VALUE)
      else if address + nb > m.nb_input_bits then
        send_msg s (response_exception sft MODBUS_EXCEPTION_ILLEGAL_DATA_ADDRESS)
      else
        send_msg s (Reply.built sft
          ((nb / 8 + (if nb % 8 ≠ 0 then 1 else 0)) % 256 ::
            modbus_get_bytes_from_bitmap16 m.tab_input_bits address nb))
    else if function = _FC_READ_HOLDING_REGISTERS then
      let nb := reqWord req (offset + 3)
      if nb < 1 ∨ MODBUS_MAX_READ_REGISTERS < nb then
        send_msg s (response_exception sft MODBUS_EXCEPTION_ILLEGAL_DATA_VALUE)
      else if address + nb > m.nb_registers then
        send_msg s (response_exception sft MODBUS_EXCEPTION_ILLEGAL_DATA_ADDRESS)
      else
        send_msg s (Reply.built sft (nb * 2 % 256 :: registerBytes m.tab_registers address nb))
    else if function = _FC_READ_INPUT_REGISTERS then
      let nb := reqWord req (offset + 3)
      if nb < 1 ∨ MODBUS_MAX_READ_REGISTERS < nb then
        send_msg s (response_exception sft MODBUS_EXCEPTION_ILLEGAL_DATA_VALUE)
      else if address + nb > m.nb_input_registers then
        send_msg s (response_exception sft MODBUS_EXCEPTION_ILLEGAL_DATA_ADDRESS)
      else
        send_msg s (Reply.built sft (nb * 2 % 256 :: registerBytes m.tab_input_registers address nb))
    else if function = _FC_WRITE_SINGLE_COIL then
      if address ≥ m.nb_bits then
        send_msg s (response_exception sft MODBUS_EXCEPTION_ILLEGAL_DATA_ADDRESS)
      else
        let data := reqWord req (offset + 3)
        if data = 0xFF00 ∨ data = 0x0 then
          let status := if data ≠ 0 then ON else OFF
          let g1 := setBits s.g mb_mapping (modbus_set_bitmap16_from_bytes m.tab_bits address 1 [status])
          send_msg { s with g := g1 } (Reply.copy (req.take req_length))
        else
          send_msg s (response_exception sft MODBUS_EXCEPTION_ILLEGAL_DATA_VALUE)
    else if function = _FC_WRITE_SINGLE_REGISTER then
      if address ≥ m.nb_registers then
        send_msg s (response_exception sft MODBUS_EXCEPTION_ILLEGAL_DATA_ADDRESS)
      else
        let data := reqWord req (offset + 3)
        let g1 := setRegisters s.g mb_mapping (m.tab_registers.set address data)
        send_msg { s with g := g1 } (Reply.copy (req.take req_length))
    else if function = _FC_WRITE_MULTIPLE_COILS then
      let nb := reqWord req (offset + 3)
      if address + nb > m.nb_bits then
        send_msg s (response_exception sft MODBUS_EXCEPTION_ILLEGAL_DATA_ADDRESS)
      else
        let g1 := setBits s.g mb_mapping
          (modbus_set_bitmap16_from_bytes m.tab_bits address nb (req.drop (offset + 6)))
        send_msg { s with g := g1 }
          (Reply.built sft ((List.range 4).map (fun i => reqByte req (offset + 1 + i))))
    else if function = _FC_WRITE_MULTIPLE_REGISTERS then
      let nb := reqWord req (offset + 3)
      if address + nb > m.nb_registers then
        send_msg s (response_exception sft MODBUS_EXCEPTION_ILLEGAL_DATA_ADDRESS)
      else
        let g1 := setRegisters s.g mb_mapping (storeRegisters m.tab_registers req address nb 6)
        send_msg { s with g := g1 }
          (Reply.built sft ((List.range 4).map (fun i => reqByte req (offset + 1 + i))))
    else if function = _FC_REPORT_SLAVE_ID then
      let str := [76, 77, 66] ++ env.LIBMODBUS_VERSION_STRING
      send_msg s (Reply.built sft ((2 + str.length) % 256 :: _REPORT_SLAVE_ID :: 0xFF :: str))
    else if function = _FC_READ_EXCEPTION_STATUS then s
    else if function = _FC_MASK_WRITE_REGISTER then
      if address > m.nb_registers then
        send_msg s (response_exception sft MODBUS_EXCEPTION_ILLEGAL_DATA_ADDRESS)
      else
        let and_mask := reqWord req (offset + 3)
        let or_mask := reqWord req (offset + 5)
        let old := m.tab_registers.getD address 0
        let g1 := setRegisters s.g mb_mapping
          (m.tab_registers.set address ((old &&& and_mask) ||| (or_mask &&& (0xFFFF - and_mask))))
        send_msg { s with g := g1 } (Reply.copy (req.take req_length))
    else if function = _FC_WRITE_AND_READ_REGISTERS then
      let nb := reqWord req (offset + 3)
      let address_write := reqWord req (offset + 5)
      let nb_write := reqWord req (offset + 7)
      let nb_write_bytes := reqByte req (offset + 9)
      if nb_write < 1 ∨ MODBUS_MAX_RW_WRITE_REGISTERS < nb_write ∨
          nb < 1 ∨ MODBUS_MAX_READ_REGISTERS < nb ∨ nb_write_bytes ≠ nb_write * 2 then
        send_msg s (response_exception sft MODBUS_EXCEPTION_ILLEGAL_DATA_VALUE)
      else
        match modbus_getWriteMapping address_write with
        | (none, _) => send_msg s (response_exception sft MODBUS_EXCEPTION_ILLEGAL_DATA_ADDRESS)
        | (some write_mapping, address_write1) =>
          let g1 := setRegisters s.g write_mapping
            (storeRegisters (s.g.maps write_mapping).tab_registers req address_write1 nb_write 10)
          let g2 := runCallback env.modbus_replyCallback g1
          match modbus_getReadMapping address with
          | (none, _) =>
            send_msg { s with g := g2 } (response_exception sft MODBUS_EXCEPTION_ILLEGAL_DATA_ADDRESS)
          | (some read_mapping, address1) =>
            send_msg { s with g := g2 }
              (Reply.built sft (nb * 2 % 256 :: registerBytes (g2.maps read_mapping).tab_registers address1 nb))
    else if function = _FC_READ_INPUT_REGISTERS_XL then
      let nb := reqWord req (offset + 3)
      if nb < 1 ∨ env.MODBUS_MAX_READ_REGISTERS_FC66 < nb then
        send_msg s (response_exception sft MODBUS_EXCEPTION_ILLEGAL_DATA_VALUE)
      else if address + nb > m.nb_input_registers then
        send_msg s (response_exception sft MODBUS_EXCEPTION_ILLEGAL_DATA_ADDRESS)
      else
        send_msg s (Reply.built sft
          (nb * 2 / 256 % 256 :: nb * 2 % 256 :: registerBytes m.tab_input_registers address nb))
    else
      send_msg s (response_exception sft MODBUS_EXCEPTION_ILLEGAL_FUNCTION)

/-- Modelled from the spec: `modbus_reply` belongs to libmodbus and is missing from the
sources; `modbus_reply_offset` is that constructor with "one local extension: the reply
constructor accepts a base-offset", so the original is the case of base offset 0. -/
def modbus_reply (env : Env) (s : Server) (req : List Nat) (req_length : Nat)
    (mb_mapping : Mapping) : Server :=
  modbus_reply_offset env s req req_length mb_mapping 0

/-! ## The safety watchdog (`modbus_watchdog.c`) -/

/-- Start address of the watchdog registers. -/
def MODBUSWATCHDOG_REGISTER_START_ADDRESS : Nat := 0x1000

/-- Word `i` of the watchdog storage. -/
def watchdogReg (g : Globals) (i : Nat) : Nat :=
  (g.maps Mapping.mb_watchdog_mapping).tab_registers.getD i 0

/-- Store `v` in word `i` of the watchdog storage. -/
def setWatchdogReg (g : Globals) (i v : Nat) : Globals :=
  setRegisters g Mapping.mb_watchdog_mapping ((g.maps Mapping.mb_watchdog_mapping).tab_registers.set i v)

/-- Reset the minimal watchdog time, word 4 (`modbusWatchdog_resetMinimalTime`). -/
def modbusWatchdog_resetMinimalTime (g : Globals) (time : Nat) : Globals :=
  setWatchdogReg g 4 time

/-- Lower the minimal watchdog time when `time` is below it (`modbusWatchdog_setMinimalTime`). -/
def modbusWatchdog_setMinimalTime (g : Globals) (time : Nat) : Globals :=
  let reg_time := watchdogReg g 4
  if time < reg_time then setWatchdogReg g 4 time else g

/-- Take the timeout of word 0 and reset the minimal time to it (`modbusWatchdog_setTimeout`). -/
def modbusWatchdog_setTimeout (g : Globals) : Globals :=
  let g1 := { g with watchdogTimeout := watchdogReg g 0 }
  modbusWatchdog_resetMinimalTime g1 g1.watchdogTimeout

/-- The timeout value of word 0 (`modbusWatchdog_getTimeout`). -/
def modbusWatchdog_getTimeout (g : Globals) : Nat := watchdogReg g 0

/-- Reload the countdown from word 0 (`modbusWatchdog_trigger`). -/
def modbusWatchdog_trigger (g : Globals) : Globals :=
  { g with timeout := modbusWatchdog_getTimeout g }

/-- Activate the watchdog (`modbusWatchdog_start`). -/
def modbusWatchdog_start (g : Globals) : Globals :=
  { g with modbusWatchdog_active := true }

/-- Deactivate the watchdog (`modbusWatchdog_stop`). -/
def modbusWatchdog_stop (g : Globals) : Globals :=
  { g with modbusWatchdog_active := false }

/-- Publish the active flag in word 6 (`modbusWatchdog_setStatus`). -/
def modbusWatchdog_setStatus (g : Globals) : Globals :=
  setWatchdogReg g 6 (if g.modbusWatchdog_active then 1 else 0)

/-- Lift a change of the globals to the server. -/
def Server.onGlobals (s : Server) (f : Globals → Globals) : Server :=
  { s with g := f s.g }

/-- The handler of the watchdog registers (`modbusWatchdog_parseModbusCommand`). -/
def modbusWatchdog_parseModbusCommand (env : Env) (s : Server) (command : List Nat)
    (command_len : Nat) : Server :=
  let offset := header_length
  let function := reqByte command offset
  let address := reqWord command (offset + 1)
  let fakeAddress := (address + 65536 - MODBUSWATCHDOG_REGISTER_START_ADDRESS) % 65536
  let start := MODBUSWATCHDOG_REGISTER_START_ADDRESS
  if function = _FC_READ_HOLDING_REGISTERS then
    modbus_reply_offset env (s.onGlobals modbusWatchdog_setStatus) command command_len
      Mapping.mb_watchdog_mapping start
  else if function = _FC_WRITE_SINGLE_REGISTER then
    if fakeAddress = 0 then
      if s.g.modbusWatchdog_active = false then
        (modbus_reply_offset env s command command_len Mapping.mb_watchdog_mapping start).onGlobals
          modbusWatchdog_setTimeout
      else
        modbus_reply_exception s command MODBUS_EXCEPTION_ILLEGAL_DATA_VALUE
    else if fakeAddress = 3 then
      let s1 := modbus_reply_offset env s command command_len Mapping.mb_watchdog_mapping start
      let g2 :=
        if watchdogReg s1.g fakeAddress > 0 then
          if s1.g.modbusWatchdog_active = false then
            let g := { s1.g with timeout := modbusWatchdog_getTimeout s1.g }
            modbusWatchdog_start (modbusWatchdog_resetMinimalTime g g.timeout)
          else
            modbusWatchdog_trigger s1.g
        else s1.g
      { s1 with g := setWatchdogReg g2 fakeAddress 0 }
    else if fakeAddress = 4 then
      modbus_reply_exception s command MODBUS_EXCEPTION_ILLEGAL_FUNCTION
    else if fakeAddress = 8 then
      let s1 := modbus_reply_offset env s command command_len Mapping.mb_watchdog_mapping start
      if watchdogReg s1.g fakeAddress = 0x55AA then
        { s1 with g := { s1.g with modbusWatchdog_stopFlag := true } }
      else if s1.g.modbusWatchdog_stopFlag = true ∧ watchdogReg s1.g fakeAddress = 0xAA55 then
        { s1 with g := { modbusWatchdog_stop s1.g with modbusWatchdog_stopFlag := false } }
      else
        { s1 with g := { s1.g with modbusWatchdog_stopFlag := false } }
    else
      modbus_reply_offset env s command command_len Mapping.mb_watchdog_mapping start
  else
    modbus_reply_exception s command MODBUS_EXCEPTION_ILLEGAL_FUNCTION

/-! ## The configuration registers -/

/-- The handler of the KBUS information registers (`modbusKBUSInfo_parseModbusCommand`). -/
def modbusKBUSInfo_parseModbusCommand (env : Env) (s : Server) (command : List Nat)
    (command_len : Nat) : Server :=
  let function := reqByte command header_length
  if function = _FC_READ_INPUT_REGISTERS ∨ function = _FC_READ_HOLDING_REGISTERS then
    modbus_reply_offset env s command command_len Mapping.mb_mapping_kbusInfo 0x1022
  else
    modbus_reply_exception s command MODBUS_EXCEPTION_ILLEGAL_FUNCTION

/-- The handler of the MAC address registers (`modbusConfigMac_parseModbusCommand`). -/
def modbusConfigMac_parseModbusCommand (env : Env) (s : Server) (command : List Nat)
    (command_len : Nat) : Server :=
  let function := reqByte command header_length
  if function = _FC_READ_INPUT_REGISTERS ∨ function = _FC_READ_HOLDING_REGISTERS then
    modbus_reply_offset env s command command_len Mapping.mb_config_mac_mapping 0x1031
  else
    modbus_reply_exception s command MODBUS_EXCEPTION_ILLEGAL_FUNCTION

/-- The handler of the constant registers (`modbusConfigConst_parseModbusCommand`). -/
def modbusConfigConst_parseModbusCommand (env : Env) (s : Server) (command : List Nat)
    (command_len : Nat) : Server :=
  let function := reqByte command header_length
  if function = _FC_READ_INPUT_REGISTERS ∨ function = _FC_READ_HOLDING_REGISTERS then
    modbus_reply_offset env s command command_len Mapping.mb_config_const_mapping 0x2000
  else
    modbus_reply_exception s command MODBUS_EXCEPTION_ILLEGAL_FUNCTION

/-- The handler of the short description (`modbusShortDescription_parseModbusCommand`). -/
def modbusShortDescription_parseModbusCommand (env : Env) (s : Server) (command : List Nat)
    (command_len : Nat) : Server :=
  let function := reqByte command header_length
  if function = _FC_READ_HOLDING_REGISTERS then
    modbus_reply_offset env s command command_len Mapping.mb_shortDescription_mapping 0x2020
  else
    modbus_reply_exception s command MODBUS_EXCEPTION_ILLEGAL_FUNCTION

/-- The handler of the four terminal-assembly slabs (`modbusConfig_parseModbusCommand`). -/
def modbusConfig_parseModbusCommand (env : Env) (s : Server) (command : List Nat)
    (command_len : Nat) : Server :=
  let function := reqByte command header_length
  let address := reqWord command (header_length + 1)
  if function = _FC_READ_INPUT_REGISTERS ∨ function = _FC_READ_HOLDING_REGISTERS then
    if address = 0x2030 then
      modbus_reply_offset env s command command_len Mapping.mb_knot_asam_1 0x2030
    else if address = 0x2031 then
      modbus_reply_offset env s command command_len Mapping.mb_knot_asam_2 0x2031
    else if address = 0x2032 then
      modbus_reply_offset env s command command_len Mapping.mb_knot_asam_3 0x2032
    else if address = 0x2033 then
      modbus_reply_offset env s command command_len Mapping.mb_knot_asam_4 0x2033
    else s
  else
    modbus_reply_exception s command MODBUS_EXCEPTION_ILLEGAL_FUNCTION

/-! ## The dispatcher (`modbus.c`) -/

/-- Map the write coils of area 1 into the output registers
(`modbus_mapWriteCoilsToRegister`): bytes `0 .. max_bytes - offset` of the coil bitmap go
to the byte view of `mb_mapping_write` from `offset` on.  The bound is an `unsigned int`
difference.  The loop has no bound on the bitmap: for `i` at or past its length the source
loads `tab_bits[i]` from beyond the allocation, which is outside the embedding (the load
reads 0, see the conventions). -/
def modbus_mapWriteCoilsToRegister (g : Globals) : Globals :=
  let offset := g.offset_output
  let max_bytes := g.bytesToWrite
  let bits := (g.maps Mapping.mb_digital_1_write).tab_bits
  setRegisters g Mapping.mb_mapping_write
    ((List.range ((max_bytes + 4294967296 - offset) % 4294967296)).foldl
      (fun reg i => regByteSet reg (offset + i) (bits.getD i 0))
      (g.maps Mapping.mb_mapping_write).tab_registers)

/-- Map the input registers into the read coils of area 1 (`modbus_mapReadCoils`). -/
def modbus_mapReadCoils (g : Globals) : Globals :=
  let offset := g.offset_input
  let max_bytes := g.bytesToRead
  let reg := (g.maps Mapping.mb_mapping_in).tab_registers
  setBits g Mapping.mb_digital_1_in
    ((List.range ((max_bytes + 4294967296 - offset) % 4294967296)).foldl
      (fun bits i => bits.set i (regByteGet reg (offset + i)))
      (g.maps Mapping.mb_digital_1_in).tab_bits)

/-- Zero the first `n` cells of a table (`memset`). -/
def memset0 (tab : List Nat) (n : Nat) : List Nat :=
  List.replicate (min n tab.length) 0 ++ tab.drop n

/-- Clear the register and coil tables of one storage (`modbus_clearMapping`). -/
def modbus_clearMapping (mapping : modbus_mapping_t) : modbus_mapping_t :=
  { mapping with
    tab_bits := memset0 mapping.tab_bits (bitmapSize mapping.nb_bits)
    tab_input_bits := memset0 mapping.tab_input_bits (bitmapSize mapping.nb_input_bits)
    tab_registers := memset0 mapping.tab_registers mapping.nb_registers
    tab_input_registers := memset0 mapping.tab_input_registers mapping.nb_input_registers }

/-- Clear all process-data storages (`modbus_clearAllMappings`). -/
def modbus_clearAllMappings (g : Globals) : Globals :=
  [Mapping.mb_mapping_write, Mapping.mb_mapping_2_write, Mapping.mb_digital_1_write,
    Mapping.mb_digital_2_write, Mapping.mb_mapping_in, Mapping.mb_mapping_2_in,
    Mapping.mb_digital_1_in, Mapping.mb_digital_2_in].foldl
    (fun g r => g.setMap r (modbus_clearMapping (g.maps r))) g

/-- The read path of the dispatcher (`modbus_worker_read`). -/
def modbus_worker_read (env : Env) (s : Server) (query : List Nat) (rc : Nat) : Server :=
  let offset := header_length
  let function := reqByte query offset
  let address := reqWord query (offset + 1)
  if function = _FC_READ_COILS then
    let s1 := s.onGlobals modbus_mapReadCoils
    if address ≤ 511 then
      modbus_reply env s1 query rc Mapping.mb_digital_1_in
    else if address ≥ 512 ∧ address ≤ 1023 then
      modbus_reply_offset env s1 query rc Mapping.mb_digital_1_write 512
    else if address ≥ 0x8000 ∧ address ≤ 0x85F7 then
      modbus_reply_offset env s1 query rc Mapping.mb_digital_2_in 0x8000
    else if address ≥ 0x9000 ∧ address ≤ 0x95F7 then
      modbus_reply_offset env s1 query rc Mapping.mb_digital_2_write 0x9000
    else
      modbus_reply_exception s1 query MODBUS_EXCEPTION_ILLEGAL_DATA_ADDRESS
  else if function = _FC_READ_DISCRETE_INPUTS ∨ function = _FC_READ_HOLDING_REGISTERS ∨
      function = _FC_READ_INPUT_REGISTERS ∨ function = _FC_WRITE_AND_READ_REGISTERS then
    if address ≤ 255 then
      modbus_reply env s query rc Mapping.mb_mapping_in
    else if address ≥ 512 ∧ address ≤ 767 then
      modbus_reply_offset env s query rc Mapping.mb_mapping_write 512
    else if address ≥ 0x1000 ∧ address ≤ 0x2043 then
      if address ≥ 0x1000 ∧ address ≤ 0x100B then
        modbusWatchdog_parseModbusCommand env s query rc
      else if address ≥ 0x1022 ∧ address ≤ 0x1025 then
        modbusKBUSInfo_parseModbusCommand env s query rc
      else if address ≥ 0x1031 ∧ address ≤ 0x1033 then
        modbusConfigMac_parseModbusCommand env s query rc
      else if address ≥ 0x2000 ∧ address ≤ 0x2008 then
        modbusConfigConst_parseModbusCommand env s query rc
      else if address = 0x2020 then
        modbusShortDescription_parseModbusCommand env s query rc
      else if address ≥ 0x2030 ∧ address ≤ 0x2033 then
        modbusConfig_parseModbusCommand env s query rc
      else
        modbus_reply_exception s query MODBUS_EXCEPTION_ILLEGAL_DATA_ADDRESS
    else if address ≥ 0x6000 ∧ address ≤ 0x62FB then
      modbus_reply_offset env s query rc Mapping.mb_mapping_2_in 0x6000
    else if address ≥ 0x7000 ∧ address ≤ 0x72FB then
      modbus_reply_offset env s query rc Mapping.mb_mapping_2_write 0x7000
    else
      modbus_reply_exception s query MODBUS_EXCEPTION_ILLEGAL_DATA_ADDRESS
  else s

/-- The write path of the dispatcher (`modbus_worker_write`). -/
def modbus_worker_write (env : Env) (s : Server) (query : List Nat) (rc : Nat) : Server :=
  let offset := header_length
  let function := reqByte query offset
  let address := reqWord query (offset + 1)
  if function = _FC_WRITE_SINGLE_COIL ∨ function = _FC_WRITE_MULTIPLE_COILS then
    let s1 := s.onGlobals modbus_mapReadCoils
    let s2 :=
      if address ≤ 511 then
        modbus_reply env s1 query rc Mapping.mb_digital_1_write
      else if address ≥ 512 ∧ address ≤ 1023 then
        modbus_reply_offset env s1 query rc Mapping.mb_digital_1_write 512
      else if address ≥ 0x8000 ∧ address ≤ 0x85F7 then
        modbus_reply_offset env s1 query rc Mapping.mb_digital_2_write 0x8000
      else if address ≥ 0x9000 ∧ address ≤ 0x95F7 then
        modbus_reply_offset env s1 query rc Mapping.mb_digital_2_write 0x9000
      else
        modbus_reply_exception s1 query MODBUS_EXCEPTION_ILLEGAL_DATA_ADDRESS
    s2.onGlobals modbus_mapWriteCoilsToRegister
  else if function = _FC_WRITE_SINGLE_REGISTER ∨ function = _FC_WRITE_MULTIPLE_REGISTERS ∨
      function = _FC_WRITE_AND_READ_REGISTERS then
    if address ≤ 255 then
      modbus_reply_offset env s query rc Mapping.mb_mapping_write 0
    else if address ≥ 512 ∧ address ≤ 767 then
      modbus_reply_offset env s query rc Mapping.mb_mapping_write 512
    else if address ≥ 0x1000 ∧ address ≤ 0x2043 then
      if address ≥ 0x1000 ∧ address ≤ 0x100B then
        modbusWatchdog_parseModbusCommand env s query rc
      else s
    else if address ≥ 0x6000 ∧ address ≤ 0x62FB then
      modbus_reply_offset env s query rc Mapping.mb_mapping_2_write 0x6000
    else if address ≥ 0x7000 ∧ address ≤ 0x72FB then
      modbus_reply_offset env s query rc Mapping.mb_mapping_2_write 0x7000
    else
      modbus_reply_exception s query MODBUS_EXCEPTION_ILLEGAL_DATA_ADDRESS
  else s

/-- The worker for every incoming Modbus message (`modbus_worker`). -/
def modbus_worker (env : Env) (s : Server) (query : List Nat) (rc : Nat) : Server :=
  let function := reqByte query header_length
  if s.g.modbus_ApplicationState = APPLICATION_STOP then
    modbus_reply_exception s query MODBUS_EXCEPTION_SLAVE_OR_SERVER_BUSY
  else
    let s0 := s.onGlobals modbusWatchdog_trigger
    if function = _FC_WRITE_AND_READ_REGISTERS then
      modbus_worker_write env s0 query rc
    else
      let isWrite : Bool := function = _FC_WRITE_SINGLE_COIL ∨ function = _FC_WRITE_MULTIPLE_COILS ∨
        function = _FC_WRITE_SINGLE_REGISTER ∨ function = _FC_WRITE_MULTIPLE_REGISTERS
      let s1 := if isWrite then modbus_worker_write env s0 query rc else s0
      let s2 := s1.onGlobals (runCallback env.modbus_receivedCallback)
      let isRead : Bool := function = _FC_READ_COILS ∨ function = _FC_READ_DISCRETE_INPUTS ∨
        function = _FC_READ_HOLDING_REGISTERS ∨ function = _FC_READ_INPUT_REGISTERS
      let s3 := if isRead then modbus_worker_read env s2 query rc else s2
      let function_found : Bool := isWrite || isRead
      if function_found = false then
        modbus_reply_exception s3 query MODBUS_EXCEPTION_ILLEGAL_FUNCTION
      else s3

/-- The loop of `memcpy` over words: `dest[i] = source[start + i]` for `i < n`. -/
def copyWords (dest source : List Nat) (start n : Nat) : List Nat :=
  (List.range n).foldl (fun t i => t.set i (source.getD (start + i) 0)) dest

/-- Copy the input process image into the input storages (`modbus_copy_register_in`),
with the value returned.  `source` is a `uint16_t *`, so `source += 256 * sizeof(uint16_t)`
advances it by 512 words. -/
def modbus_copy_register_in (g : Globals) (source : List Nat) (n : Nat) : Globals × Int :=
  if n > MODBUS_OUTREGISTER_COUNT + MODBUS_OUTREGISTER_2_COUNT then (g, -2)
  else if g.modbus_initialized = false then (g, 0)
  else
    let secondRegisterBytes := if n > MODBUS_OUTREGISTER_COUNT then n - MODBUS_OUTREGISTER_COUNT else 0
    let n1 := if n > MODBUS_OUTREGISTER_COUNT then MODBUS_OUTREGISTER_COUNT else n
    let g1 := setRegisters g Mapping.mb_mapping_in
      (copyWords (g.maps Mapping.mb_mapping_in).tab_registers source 0 n1)
    let g2 :=
      if secondRegisterBytes > 0 then
        setRegisters g1 Mapping.mb_mapping_2_in
          (copyWords (g1.maps Mapping.mb_mapping_2_in).tab_registers source
            (MODBUS_OUTREGISTER_COUNT * 2) secondRegisterBytes)
      else g1
    (g2, n1)

/-- Switch the dispatcher to stop (`modbus_ApplicationStateStop`). -/
def modbus_ApplicationStateStop (g : Globals) : Globals :=
  { g with modbus_ApplicationState := APPLICATION_STOP }

/-- Switch the dispatcher to run (`modbus_ApplicationStateRun`). -/
def modbus_ApplicationStateRun (g : Globals) : Globals :=
  { g with modbus_ApplicationState := APPLICATION_RUNNING }

/-- Copy the output storages into the process image (`modbus_copy_register_out`): the
new content of `dest` and the value returned.  The first `n` bytes (at most 512) come from
the byte view of PD-OUT-1, the `n - 512` bytes after them from the byte view of PD-OUT-2. -/
def modbus_copy_register_out (g : Globals) (dest : List Nat) (n : Nat) : List Nat × Int :=
  let totalModbusBytes := (MODBUS_OUTREGISTER_COUNT + MODBUS_OUTREGISTER_2_COUNT) * 2
  if n < totalModbusBytes then (dest, -2)
  else if g.modbus_initialized = false then (dest, 0)
  else
    let secondRegisterBytes :=
      if n > MODBUS_OUTREGISTER_COUNT * 2 then n - MODBUS_OUTREGISTER_COUNT * 2 else 0
    let n1 := if n > MODBUS_OUTREGISTER_COUNT * 2 then MODBUS_OUTREGISTER_COUNT * 2 else n
    let first := (List.range n1).map
      (fun i => regByteGet (g.maps Mapping.mb_mapping_write).tab_registers i)
    let second := (List.range secondRegisterBytes).map
      (fun i => regByteGet (g.maps Mapping.mb_mapping_2_write).tab_registers i)
    (first ++ second ++ dest.drop (n1 + secondRegisterBytes), n1)

/-- The callback `modbus_task` registers with the watchdog (`modbusWatchdog_expiredTask`):
set every process-data storage to 0.  The storages exist once the watchdog runs, so
`mb_mapping_write` is not `NULL`. -/
def modbusWatchdog_expiredTask (g : Globals) : Globals :=
  modbus_clearAllMappings g

/-! ## The watchdog thread (`modbus_watchdog.c`) -/

/-- One pass of the loop of `modbusWatchdog_task`, one every 100 ms: while active, count
the timeout down and lower the minimal time, or at 0 call the expiration callback and stop
the watchdog.  The invocation of the callback is recorded in the trace. -/
def modbusWatchdog_task_tick (watchdogExpiredFkt : Option (Globals → Globals)) (g : Globals) :
    Globals :=
  if g.modbusWatchdog_active then
    if g.timeout > 0 then
      let g1 := { g with timeout := g.timeout - 1 }
      modbusWatchdog_setMinimalTime g1 g1.timeout
    else
      let g1 :=
        match watchdogExpiredFkt with
        | some function => function { g with trace := g.trace ++ [Event.watchdogExpired] }
        | none => g
      modbusWatchdog_stop g1
  else g

/-! ## Configuration defaults (`conffile_reader.c`, `conffile_reader.h`) -/

/-- Default port. -/
def DEFAULT_CONFIG_PORT : Int := 502
/-- Default listen backlog. -/
def DEFAULT_CONFIG_MAX_TCP_CONNECTIONS : Int := 5
/-- Default operation mode. -/
def DEFAULT_CONFIG_COUPLER_MODE : Int := 0
/-- Default response delay. -/
def DEFAULT_CONFIG_MODBUS_DELAY_MS : Int := 0
/-- Default priority of the cycle. -/
def DEFAULT_CONFIG_KBUS_PRIORITY : Int := 60
/-- Default cycle period. -/
def DEFAULT_CONFIG_KBUS_CYCLE_MS : Int := 50

/-- The parameter variables as their initialisers leave them at program start
(`int conf_modbus_port = 0;` and the five beside it). -/
def conf_initializers (g : Globals) : Globals :=
  { g with
    conf_modbus_port := 0
    conf_max_tcp_connections := 0
    conf_operation_mode := 0
    conf_modbus_delay_ms := 0
    conf_kbus_priority := 0
    conf_kbus_cycle_ms := 0 }

/-- Set the configuration defaults (`conf_init`), with the value returned. -/
def conf_init (g : Globals) : Globals × Int :=
  ({ g with
    conf_modbus_port := DEFAULT_CONFIG_PORT
    conf_max_tcp_connections := DEFAULT_CONFIG_MAX_TCP_CONNECTIONS
    conf_operation_mode := DEFAULT_CONFIG_COUPLER_MODE
    conf_modbus_delay_ms := DEFAULT_CONFIG_MODBUS_DELAY_MS
    conf_kbus_priority := DEFAULT_CONFIG_KBUS_PRIORITY }, 0)

/-! ## The cycle engine (`kbus.c`) -/

/-- Append a call to the trace. -/
def Globals.emit (g : Globals) (es : List Event) : Globals :=
  { g with trace := g.trace ++ es }

/-- Set the interval of a timer (`kbus_timerSetTime`): one call of `timer_settime` with
value and interval `intervalMS` milliseconds on the timer argument given. -/
def kbus_timerSetTime (g : Globals) (timerID : TimerArg) (intervalMS : Int) : Globals :=
  g.emit [Event.timer_settime timerID intervalMS]

/-- Poll the bus error code (`kbus_getError`): `ldkc_KbusInfo_GetStatus` refreshes
`status.ErrorCode` from the bus, and that code is returned. -/
def kbus_getError (g : Globals) : Globals × Nat :=
  let code := g.bus.errorCodes.headD 0
  ({ g.emit [Event.KbusInfo_GetStatus] with
      status := { g.status with ErrorCode := code }
      bus := { g.bus with errorCodes := g.bus.errorCodes.tail } }, code)

/-- One call `adi->CallDeviceSpecificFunction("libpackbus_Push", &retval)`. -/
def libpackbus_Push (g : Globals) : Globals × PushOutcome :=
  ({ g.emit [Event.libpackbus_Push] with bus := { g.bus with pushes := g.bus.pushes.tail } },
    g.bus.pushes.headD ⟨true, true⟩)

/-- The loop of `kbus_loopTilErrorGone` with a bound on its passes: push, trigger the
driver watchdog, read the error code, return when it is 0, else sleep 50 ms and repeat.
A failed push is ignored. -/
def kbus_loopTilErrorGone_passes : Nat → Globals → Globals
  | 0, g =>
    (kbus_getError (((libpackbus_Push g).1).emit [Event.WatchdogTrigger])).1
  | n + 1, g =>
    let r := kbus_getError (((libpackbus_Push g).1).emit [Event.WatchdogTrigger])
    if r.2 = 0 then r.1 else kbus_loopTilErrorGone_passes n (r.1.emit [Event.usleep (50 * 1000)])

/-- Wait until the bus error is gone (`kbus_loopTilErrorGone`).  Each pass uses up one
error code of the oracle and the code read after the last one is 0, so one pass more
than there are codes left always ends the loop. -/
def kbus_loopTilErrorGone (g : Globals) : Globals :=
  kbus_loopTilErrorGone_passes g.bus.errorCodes.length g

/-- Modelled from the spec: `utils_bitCountToByte` belongs to `utils.c`, which is missing
from the sources; "N = ceil(total_bits / 8)". -/
def utils_bitCountToByte (bits : Nat) : Nat := bits / 8 + if bits % 8 = 0 then 0 else 1

/-- The process data length of the outputs in bits (`kbus_getBitCount_Output`). -/
def kbus_getBitCount_Output (g : Globals) : Nat :=
  (g.status.BitCountAnalogOutput + g.status.BitCountDigitalOutput) % 65536

/-- The process data length of the inputs in bits (`kbus_getBitCount_Input`). -/
def kbus_getBitCount_Input (g : Globals) : Nat :=
  (g.status.BitCountAnalogInput + g.status.BitCountDigitalInput) % 65536

/-- Map a bit count to a count of 16-bit registers (`kbus_mapBitCountToWordRegister`). -/
def kbus_mapBitCountToWordRegister (count : Nat) : Nat :=
  (count / 16 + if count % 16 > 0 then 1 else 0) % 65536

/-- Close the device (`kbus_close`), as one event of the trace. -/
def kbus_close (g : Globals) : Globals × Int :=
  (g.emit [Event.kbus_close], 0)

/-- Open the device and read the topology (`kbus_setup`), as one event of the trace: the
oracle gives the outcome; without one the run succeeds on the topology known so far. -/
def kbus_setup (g : Globals) : Globals × Int :=
  let o : SetupOutcome := g.bus.setups.headD
    ⟨0, g.status, g.offset_input, g.offset_output, g.terminalCount, g.modules⟩
  let g1 := { g.emit [Event.kbus_setup] with bus := { g.bus with setups := g.bus.setups.tail } }
  if o.ret < 0 then (g1, o.ret)
  else
    let g2 := { g1 with
      status := o.status
      offset_input := o.offset_input
      offset_output := o.offset_output
      terminalCount := o.terminalCount
      modules := o.modules
      kbus_initialized := true }
    ({ g2 with
      bytesToRead := utils_bitCountToByte (kbus_getBitCount_Input g2) % 65536
      bytesToWrite := utils_bitCountToByte (kbus_getBitCount_Output g2) % 65536 }, 0)

/-- Reset the bus (`kbus_reset`): clear `kbus_initialized`, close, set up again. -/
def kbus_reset (g : Globals) : Globals × Int :=
  let r1 := kbus_close { g with kbus_initialized := false }
  if r1.2 < 0 then (r1.1, -1)
  else
    let r2 := kbus_setup r1.1
    if r2.2 < 0 then (r2.1, -2) else (r2.1, 0)

/-- The process image `pd_in` seen as `uint16_t *` on the little-endian target. -/
def wordsOfBytes (bytes : List Nat) : List Nat :=
  (List.range (bytes.length / 2)).map
    (fun i => bytes.getD (2 * i) 0 % 256 + 256 * (bytes.getD (2 * i + 1) 0 % 256))

/-- One cycle (`kbus_update`).  With the mutex held the call returns at once.  With a bus
error: timer off, wait for the error to go, clear all storages, reset the bus, timer on.
Otherwise: push, and if the push succeeded trigger the driver watchdog, copy the output
storages to `pd_out`, write `pd_out`, read `pd_in`, copy `pd_in` to the input storages.
The mutex is released at the end. -/
def kbus_update (g : Globals) : Globals :=
  if g.kbus_update_mutex then g
  else
    let r := kbus_getError { g with kbus_update_mutex := true }
    let g9 :=
      if r.2 ≠ 0 then
        let g1 := kbus_timerSetTime r.1 TimerArg.addressOfHandle 0
        let g2 := kbus_loopTilErrorGone g1
        let g3 := modbus_clearAllMappings g2
        let g4 := (kbus_reset g3).1
        kbus_timerSetTime g4 TimerArg.addressOfHandle g4.conf_kbus_cycle_ms
      else
        let p := libpackbus_Push r.1
        if p.2.callSuccess = false then p.1
        else if p.2.retvalSuccess then
          let g1 := p.1.emit [Event.WatchdogTrigger]
          let g2 := { g1 with pd_out := (modbus_copy_register_out g1 g1.pd_out 4096).1 }
          let g3 := g2.emit [Event.WriteStart,
            Event.WriteBytes 0 g2.bytesToWrite (g2.pd_out.take g2.bytesToWrite), Event.WriteEnd,
            Event.ReadStart, Event.ReadBytes 0 g2.bytesToRead, Event.ReadEnd]
          let data := g3.bus.reads.headD []
          let g4 := { g3 with
            pd_in := (List.range g3.bytesToRead).map (fun i => data.getD i 0 % 256) ++
              g3.pd_in.drop g3.bytesToRead
            bus := { g3.bus with reads := g3.bus.reads.tail } }
          (modbus_copy_register_in g4 (wordsOfBytes g4.pd_in)
            (kbus_mapBitCountToWordRegister (kbus_getBitCount_Input g4))).1
        else p.1
    { g9 with kbus_update_mutex := false }

/-- Force a cycle, only in coupler mode (`kbus_forceUpdate`): timer off, one
`kbus_update`, timer on at the configured period. -/
def kbus_forceUpdate (g : Globals) : Globals :=
  if g.conf_operation_mode ≠ 0 then
    let g1 := kbus_timerSetTime g TimerArg.addressOfHandle 0
    let g2 := kbus_update g1
    kbus_timerSetTime g2 TimerArg.addressOfHandle g2.conf_kbus_cycle_ms
  else g

/-- The terminal identifiers as `kbus_getTerminals` copies them into the caller's table
`terminalInfo` (a `uint16_t *`): the value returned, the count and the table.
`memset(terminalInfo, 0, sizeTerminalInfo)` clears `sizeTerminalInfo` bytes, that is the
first `sizeTerminalInfo / 2` entries (and the low byte of the next one when the size is
odd); the entries after them keep what the table held.  Then entry `i` takes
`modules[i].value` for every `i` below the terminal count. -/
def kbus_getTerminals (g : Globals) (terminalInfo : List Nat) (sizeTerminalInfo : Nat) :
    Int × Nat × List Nat :=
  if sizeTerminalInfo < g.terminalCount then (-1, 0, terminalInfo)
  else
    (0, g.terminalCount, (List.range terminalInfo.length).map
      (fun i =>
        if i < g.terminalCount then (g.modules.getD i ⟨0, 0, 0, 0⟩).value % 65536
        else if 2 * i + 1 < sizeTerminalInfo then 0
        else if 2 * i < sizeTerminalInfo then terminalInfo.getD i 0 / 256 % 256 * 256
        else terminalInfo.getD i 0))

/-! ## The terminal-assembly slabs (`modbus_config.c`) -/

/-- Write the terminal identifiers into the four slabs (`modbusConfig_writeTerminalInfo`),
with the value returned.  The local table `termInfo` has 256 entries and is not
initialised; the loop reads only entries below `termCnt`, which `kbus_getTerminals` has
stored, so its start content, taken as 0 here, is never read. -/
def modbusConfig_writeTerminalInfo (g : Globals) : Globals × Int :=
  let r := kbus_getTerminals g (List.replicate (65 + 64 + 64 + 63) 0) (65 + 64 + 64 + 63)
  if r.1 ≠ 0 then (g, -1)
  else
    let termCnt := r.2.1
    let termInfo := r.2.2
    let g1 := setRegisters g Mapping.mb_knot_asam_1
      ((g.maps Mapping.mb_knot_asam_1).tab_registers.set 0 352)
    ((List.range termCnt).foldl
      (fun g k =>
        let i := k + 1
        if i ≥ 1 ∧ i ≤ 64 then
          setRegisters g Mapping.mb_knot_asam_1
            ((g.maps Mapping.mb_knot_asam_1).tab_registers.set i (termInfo.getD (i - 1) 0))
        else if i ≥ 65 ∧ i ≤ 128 then
          setRegisters g Mapping.mb_knot_asam_2
            ((g.maps Mapping.mb_knot_asam_2).tab_registers.set (i - 65) (termInfo.getD (i - 1) 0))
        else if i ≥ 129 ∧ i ≤ 192 then
          setRegisters g Mapping.mb_knot_asam_3
            ((g.maps Mapping.mb_knot_asam_3).tab_registers.set (i - 129) (termInfo.getD (i - 1) 0))
        else if i ≥ 193 ∧ i ≤ 255 then
          setRegisters g Mapping.mb_knot_asam_3
            ((g.maps Mapping.mb_knot_asam_3).tab_registers.set (i - 193) (termInfo.getD (i - 1) 0))
        else g)
      g1, 0)

/-- The environment once `kbus_start` has registered `kbus_forceUpdate` with
`modbus_registerMsgReceivedCallback`, which sets both callback pointers. -/
def registeredEnv : Env :=
  { modbus_receivedCallback := some kbus_forceUpdate
    modbus_replyCallback := some kbus_forceUpdate
    LIBMODBUS_VERSION_STRING := [51, 46, 48, 46, 53]
    MODBUS_MAX_READ_REGISTERS_FC66 := 125 }

/-! ## Start-up state -/

/-- The storages as `modbus_task` and the init functions allocate them, with the
watchdog defaults (`modbusWatchdog_settingDefaults`), the constants of
`modbusConfigConst_setValues`, the 352 that `modbusConfig_writeTerminalInfo` puts in word 0
of slab 1, and the text "MODBUSPFCSLAVE-" that `modbusShortDescription_init` copies into
the byte view of the description (the build's `VERSION` text, which follows it, is not in
the sources and is left out).  The values taken from the bus and the network interface
(bit counts, MAC address, terminals) are left at zero. -/
def modbus_task_maps : Mapping → modbus_mapping_t
  | Mapping.mb_mapping_in => modbus_mapping_new 0 0 MODBUS_OUTREGISTER_COUNT MODBUS_INREGISTER_COUNT
  | Mapping.mb_mapping_write => modbus_mapping_new 0 0 MODBUS_OUTREGISTER_COUNT MODBUS_INREGISTER_COUNT
  | Mapping.mb_mapping_2_in => modbus_mapping_new 0 0 MODBUS_OUTREGISTER_2_COUNT MODBUS_INREGISTER_2_COUNT
  | Mapping.mb_mapping_2_write => modbus_mapping_new 0 0 MODBUS_OUTREGISTER_2_COUNT MODBUS_INREGISTER_2_COUNT
  | Mapping.mb_digital_1_in => modbus_mapping_new MODBUS_BIT_1_COUNT MODBUS_BIT_1_COUNT 0 0
  | Mapping.mb_digital_1_write => modbus_mapping_new MODBUS_BIT_1_COUNT MODBUS_BIT_1_COUNT 0 0
  | Mapping.mb_digital_2_in => modbus_mapping_new MODBUS_BIT_2_COUNT MODBUS_BIT_2_COUNT 0 0
  | Mapping.mb_digital_2_write => modbus_mapping_new MODBUS_BIT_2_COUNT MODBUS_BIT_2_COUNT 0 0
  | Mapping.mb_watchdog_mapping =>
    { modbus_mapping_new 0 0 12 0 with
      tab_registers := ((List.replicate 12 0).set 0 0x0064).set 4 0x0064 }
  | Mapping.mb_mapping_kbusInfo => modbus_mapping_new 0 0 4 0
  | Mapping.mb_config_mac_mapping => modbus_mapping_new 0 0 3 0
  | Mapping.mb_config_const_mapping =>
    { modbus_mapping_new 0 0 9 0 with
      tab_registers := [0x0000, 0xFFFF, 0x1234, 0xAAAA, 0x5555, 0x7FFF, 0x8000, 0x3FFF, 0x4000] }
  | Mapping.mb_shortDescription_mapping =>
    { modbus_mapping_new 0 0 16 0 with
      tab_registers := [0x4F4D, 0x4244, 0x5355, 0x4650, 0x5343, 0x414C, 0x4556, 0x002D,
        0, 0, 0, 0, 0, 0, 0, 0] }
  | Mapping.mb_knot_asam_1 =>
    { modbus_mapping_new 0 0 65 0 with tab_registers := (List.replicate 65 0).set 0 352 }
  | Mapping.mb_knot_asam_2 => modbus_mapping_new 0 0 64 0
  | Mapping.mb_knot_asam_3 => modbus_mapping_new 0 0 64 0
  | Mapping.mb_knot_asam_4 => modbus_mapping_new 0 0 63 0

/-- The globals once `modbus_task` has finished its initialisation, in application state
run, with an empty process image (no terminal on the bus), the configuration at its
documented defaults, a quiet bus and an empty trace. -/
def modbus_task_globals : Globals :=
  { maps := modbus_task_maps
    modbus_ApplicationState := APPLICATION_RUNNING
    modbus_initialized := true
    modbusWatchdog_active := false
    watchdogTimeout := 0x0064
    timeout := 0
    modbusWatchdog_stopFlag := false
    offset_output := 0
    offset_input := 0
    bytesToWrite := 0
    bytesToRead := 0
    conf_modbus_port := 502
    conf_max_tcp_connections := 5
    conf_operation_mode := 0
    conf_modbus_delay_ms := 0
    conf_kbus_priority := 60
    conf_kbus_cycle_ms := 50
    kbus_initialized := true
    kbus_update_mutex := false
    status := ⟨0, 0, 0, 0, 0⟩
    terminalCount := 0
    modules := []
    pd_in := List.replicate 4096 0
    pd_out := List.replicate 4096 0
    bus := ⟨[], [], [], []⟩
    trace := [] }

/-- The capacities and table sizes of every storage are those of the allocation. -/
def Allocated (g : Globals) : Prop :=
  ∀ r : Mapping,
    (g.maps r).nb_bits = (modbus_task_maps r).nb_bits ∧
    (g.maps r).nb_input_bits = (modbus_task_maps r).nb_input_bits ∧
    (g.maps r).nb_registers = (modbus_task_maps r).nb_registers ∧
    (g.maps r).nb_input_registers = (modbus_task_maps r).nb_input_registers ∧
    (g.maps r).tab_bits.length = (modbus_task_maps r).tab_bits.length ∧
    (g.maps r).tab_input_bits.length = (modbus_task_maps r).tab_input_bits.length ∧
    (g.maps r).tab_registers.length = (modbus_task_maps r).tab_registers.length ∧
    (g.maps r).tab_input_registers.length = (modbus_task_maps r).tab_input_registers.length

/-- An example environment: no callback registered, version string "3.0.5". -/
def exampleEnv : Env :=
  { modbus_receivedCallback := none
    modbus_replyCallback := none
    LIBMODBUS_VERSION_STRING := [51, 46, 48, 46, 53]
    MODBUS_MAX_READ_REGISTERS_FC66 := 125 }

/-! ## Vocabulary of the theorems -/

/-- The exception response to request `req` with code `code`: the request's slave and
transaction id, its function code raised by 0x80, and the code as only data byte. -/
def exceptionReply (req : List Nat) (code : Nat) : Reply :=
  Reply.built { slave := reqByte req 6, function := reqByte req 7 + 0x80, t_id := prepare_response_tid req } [code]

/-- The normal response to request `req` carrying `data` after the function code. -/
def normalReply (req : List Nat) (data : List Nat) : Reply :=
  Reply.built { slave := reqByte req 6, function := reqByte req 7, t_id := prepare_response_tid req } data

/-- The register windows the dispatcher serves on a register read. -/
def inRegisterWindow (a : Nat) : Prop :=
  a ≤ 255 ∨ (512 ≤ a ∧ a ≤ 767) ∨ (0x1000 ≤ a ∧ a ≤ 0x100B) ∨ (0x1022 ≤ a ∧ a ≤ 0x1025) ∨
  (0x1031 ≤ a ∧ a ≤ 0x1033) ∨ (0x2000 ≤ a ∧ a ≤ 0x2008) ∨ a = 0x2020 ∨
  (0x2030 ≤ a ∧ a ≤ 0x2033) ∨ (0x6000 ≤ a ∧ a ≤ 0x62FB) ∨ (0x7000 ≤ a ∧ a ≤ 0x72FB)

instance (a : Nat) : Decidable (inRegisterWindow a) := by
  unfold inRegisterWindow
  infer_instance

/-- The register windows in which the dispatcher accepts a register write. -/
def inWritableWindow (a : Nat) : Prop :=
  a ≤ 255 ∨ (512 ≤ a ∧ a ≤ 767) ∨ (0x1000 ≤ a ∧ a ≤ 0x100B) ∨
  (0x6000 ≤ a ∧ a ≤ 0x62FB) ∨ (0x7000 ≤ a ∧ a ≤ 0x72FB)

instance (a : Nat) : Decidable (inWritableWindow a) := by
  unfold inWritableWindow
  infer_instance

/-- The quantities of a write-and-read request are in range and its byte count fits
(`nb_write`, `nb` and `nb_write_bytes` of `modbus_reply_offset`). -/
def rwQuantitiesInRange (query : List Nat) : Prop :=
  1 ≤ reqWord query 14 ∧ reqWord query 14 ≤ MODBUS_MAX_RW_WRITE_REGISTERS ∧
  1 ≤ reqWord query 10 ∧ reqWord query 10 ≤ MODBUS_MAX_READ_REGISTERS ∧
  reqByte query 16 = reqWord query 14 * 2

instance (query : List Nat) : Decidable (rwQuantitiesInRange query) := by
  unfold rwQuantitiesInRange
  infer_instance

/-- A register write of `w` to address `a`: function 0x06, or function 0x10 with
quantity 1. -/
def isRegisterWrite (q : List Nat) (a w : Nat) : Prop :=
  (reqByte q 7 = _FC_WRITE_SINGLE_REGISTER ∧ reqWord q 8 = a ∧ reqWord q 10 = w) ∨
  (reqByte q 7 = _FC_WRITE_MULTIPLE_REGISTERS ∧ reqWord q 8 = a ∧ reqWord q 10 = 1 ∧
    reqWord q 13 = w)

instance (q : List Nat) (a w : Nat) : Decidable (isRegisterWrite q a w) := by
  unfold isRegisterWrite
  infer_instance

/-- The globals after word `k` of PD-OUT-1 has taken the value `w` and the watchdog
countdown has been reloaded, before the received callback runs. -/
def storeOutputWord (g : Globals) (k w : Nat) : Globals :=
  setRegisters (modbusWatchdog_trigger g) Mapping.mb_mapping_write
    ((g.maps Mapping.mb_mapping_write).tab_registers.set k w)

/-- An input process image in which word `i` holds `i + 1`, as long as `pd_in`. -/
def exampleInputImage : List Nat := (List.range 2048).map (fun i => i + 1)

/-- A bus with 193 terminals whose identifiers are 1, 2, ..., 193 in install order. -/
def exampleTerminals : Globals :=
  { modbus_task_globals with
    terminalCount := 193
    modules := (List.range 193).map (fun i => ⟨750, i + 1, 0, 0⟩) }

/-- The control variables of `g'` are those of `g`: the application state, the watchdog
flags and counters, the watchdog storage, the operation mode and the cycle period. -/
def SameControl (g g' : Globals) : Prop :=
  g'.modbus_ApplicationState = g.modbus_ApplicationState ∧
  g'.modbusWatchdog_active = g.modbusWatchdog_active ∧
  g'.modbusWatchdog_stopFlag = g.modbusWatchdog_stopFlag ∧
  g'.timeout = g.timeout ∧
  g'.watchdogTimeout = g.watchdogTimeout ∧
  g'.maps Mapping.mb_watchdog_mapping = g.maps Mapping.mb_watchdog_mapping ∧
  g'.conf_operation_mode = g.conf_operation_mode ∧
  g'.conf_kbus_cycle_ms = g.conf_kbus_cycle_ms

/-- The callback leaves the control variables as they are (a `NULL` callback does, and so
does `kbus_forceUpdate`). -/
def KeepsControl (cb : Option (Globals → Globals)) : Prop :=
  ∀ g : Globals, SameControl g (runCallback cb g)

/-- The cycle can run at once: the mutex of `kbus_update` is free, the bus reports error
code 0 and the next push succeeds. -/
def busReady (g : Globals) : Prop :=
  g.kbus_update_mutex = false ∧ g.bus.errorCodes.headD 0 = 0 ∧
  (g.bus.pushes.headD ⟨true, true⟩).callSuccess = true ∧
  (g.bus.pushes.headD ⟨true, true⟩).retvalSuccess = true

instance (g : Globals) : Decidable (busReady g) := by
  unfold busReady
  infer_instance

/-- The driver calls of one complete cycle body of `kbus_update` started in state `g`: the
status poll, the push, the driver-watchdog trigger, the write of the first `bytesToWrite`
bytes of the output storages and the read of `bytesToRead` bytes. -/
def cycleEvents (g : Globals) : List Event :=
  [Event.KbusInfo_GetStatus, Event.libpackbus_Push, Event.WatchdogTrigger, Event.WriteStart,
    Event.WriteBytes 0 g.bytesToWrite
      ((modbus_copy_register_out g g.pd_out 4096).1.take g.bytesToWrite),
    Event.WriteEnd, Event.ReadStart, Event.ReadBytes 0 g.bytesToRead, Event.ReadEnd]

/-- A coupler in operation mode 1 with one 16-bit output and one 16-bit input terminal;
the next read of the input image delivers the word 0x1234. -/
def exampleCoupler : Globals :=
  { modbus_task_globals with
    conf_operation_mode := 1
    bytesToRead := 2
    bytesToWrite := 2
    status := ⟨0, 16, 16, 0, 0⟩
    bus := ⟨[], [], [[0x34, 0x12]], []⟩ }

/-- The calls recorded in `g'` are those of `g` followed by further ones. -/
def TraceExtends (g g' : Globals) : Prop :=
  ∃ es : List Event, g'.trace = g.trace ++ es

/-- The example fieldbus in operation mode 0, the default. -/
def exampleCouplerOff : Globals :=
  { exampleCoupler with conf_operation_mode := 0 }

/-- The globals once a write-and-read request `q` has reloaded the watchdog countdown and
its write half is stored in bank `wm` from index `wi` on, before the reply callback runs. -/
def storeWriteHalf (g : Globals) (q : List Nat) (wm : Mapping) (wi : Nat) : Globals :=
  setRegisters (modbusWatchdog_trigger g) wm
    (storeRegisters ((modbusWatchdog_trigger g).maps wm).tab_registers q wi (reqWord q 14) 10)

/-- The watchdog storage has the twelve registers of its allocation. -/
def WatchdogAllocated (g : Globals) : Prop :=
  (g.maps Mapping.mb_watchdog_mapping).nb_registers = 12 ∧
  (g.maps Mapping.mb_watchdog_mapping).tab_registers.length = 12

instance (g : Globals) : Decidable (WatchdogAllocated g) := by
  unfold WatchdogAllocated
  infer_instance

/-- The example coupler with the watchdog active, a countdown of 100 ticks and the word
0xBEEF in word 0 of PD-OUT-1. -/
def exampleActive : Globals :=
  { exampleCoupler with
    modbusWatchdog_active := true
    timeout := 100
    maps := Function.update modbus_task_maps Mapping.mb_mapping_write
      { modbus_task_maps Mapping.mb_mapping_write with
        tab_registers := (List.replicate 256 0).set 0 0xBEEF } }

/-- A write-single-register request to the stop word 8 of the watchdog (0x1008). -/
def isStopWrite (q : List Nat) : Prop :=
  reqByte q 7 = _FC_WRITE_SINGLE_REGISTER ∧ reqWord q 8 = 0x1008

instance (q : List Nat) : Decidable (isStopWrite q) := by
  unfold isStopWrite
  infer_instance

/-- Hand the requests of `qs` to the dispatcher one after the other, each with its own
length as `rc`. -/
def serveAll (env : Env) (s : Server) (qs : List (List Nat)) : Server :=
  qs.foldl (fun s q => modbus_worker env s q q.length) s

/-- The four output banks: PD-OUT-1, PD-OUT-2, COIL-OUT-1, COIL-OUT-2. -/
def outputBanks : List Mapping :=
  [Mapping.mb_mapping_write, Mapping.mb_mapping_2_write, Mapping.mb_digital_1_write,
    Mapping.mb_digital_2_write]

/-- The first `passes` passes of the loop of `modbusWatchdog_task`, one every 100 ms, with
no request and no cycle in between. -/
def modbusWatchdog_task (watchdogExpiredFkt : Option (Globals → Globals)) (passes : Nat)
    (g : Globals) : Globals :=
  Nat.iterate (modbusWatchdog_task_tick watchdogExpiredFkt) passes g

/-- Every register and every byte of the coil bitmap of the storage is 0. -/
def bankCleared (m : modbus_mapping_t) : Prop :=
  (∀ x ∈ m.tab_registers, x = 0) ∧ (∀ x ∈ m.tab_bits, x = 0)

/-- The example coupler with the watchdog active, a countdown of 2 ticks and 7 in every
word of PD-OUT-1. -/
def exampleCountdown : Globals :=
  { exampleCoupler with
    modbusWatchdog_active := true
    timeout := 2
    maps := Function.update modbus_task_maps Mapping.mb_mapping_write
      { modbus_task_maps Mapping.mb_mapping_write with
        tab_registers := List.replicate 256 7 } }

/-- The example coupler while a cycle is in progress on another thread: the mutex of
`kbus_update` is held. -/
def exampleBusy : Globals :=
  { exampleCoupler with kbus_update_mutex := true }

/-- The start-up state with 0xFFFF in every word of PD-OUT-2. -/
def exampleOutputs : Globals :=
  { modbus_task_globals with
    maps := Function.update modbus_task_maps Mapping.mb_mapping_2_write
      { modbus_task_maps Mapping.mb_mapping_2_write with
        tab_registers := List.replicate 764 0xFFFF } }

/-- The content of `pd_in` after the `ReadBytes` call of a cycle started in state `g`:
the first `bytesToRead` bytes are those the bus delivers, the rest is as before. -/
def readInputImage (g : Globals) : List Nat :=
  (List.range g.bytesToRead).map (fun i => (g.bus.reads.headD []).getD i 0 % 256) ++
    g.pd_in.drop g.bytesToRead

/-- The calls of the recovery loop when the error codes still to come are `codes`: each
pass pushes, triggers the driver watchdog and polls the status; a pass that reads a code
other than 0 sleeps 50 ms and is followed by another pass; the pass that reads 0 (also
when no code is left) is the last. -/
def recoveryEvents : List Nat → List Event
  | [] => [Event.libpackbus_Push, Event.WatchdogTrigger, Event.KbusInfo_GetStatus]
  | c :: cs =>
    if c = 0 then [Event.libpackbus_Push, Event.WatchdogTrigger, Event.KbusInfo_GetStatus]
    else
      [Event.libpackbus_Push, Event.WatchdogTrigger, Event.KbusInfo_GetStatus,
        Event.usleep (50 * 1000)] ++ recoveryEvents cs

/-- The call writes or reads process data on the bus. -/
def Event.isProcessData : Event → Bool
  | Event.WriteBytes _ _ _ => true
  | Event.ReadBytes _ _ => true
  | _ => false

/-- The example with an active watchdog and 0xBEEF in PD-OUT-1 on a bus that reports the
error codes 3, 3 and then 0. -/
def exampleBusError : Globals :=
  { exampleActive with bus := ⟨[3, 3, 0], [], [], []⟩ }

/-- The bounds of the watchdog registers: the minimal time (word 4) is at most the timeout
(word 0), and while the watchdog is active the countdown lies between the two. -/
def watchdogInvariant (g : Globals) : Prop :=
  watchdogReg g 4 ≤ watchdogReg g 0 ∧
  (g.modbusWatchdog_active = true →
    watchdogReg g 4 ≤ g.timeout ∧ g.timeout ≤ watchdogReg g 0)

instance (g : Globals) : Decidable (watchdogInvariant g) := by
  unfold watchdogInvariant
  infer_instance

/-- What the slave does next: it dispatches a request of `rc` bytes, or the watchdog
thread makes one pass of its loop (one every 100 ms). -/
inductive WatchdogStep where
  | request (q : List Nat) (rc : Nat)
  | tick

/-- One step of the slave; the watchdog thread runs with the expiration callback that
`modbus_task` registers. -/
def WatchdogStep.run (env : Env) (s : Server) : WatchdogStep → Server
  | WatchdogStep.request q rc => modbus_worker env s q rc
  | WatchdogStep.tick =>
    s.onGlobals (modbusWatchdog_task_tick (some modbusWatchdog_expiredTask))

/-- The slave after the steps of `steps`, in order. -/
def runSteps (env : Env) (s : Server) (steps : List WatchdogStep) : Server :=
  steps.foldl (WatchdogStep.run env) s

/-- A coupler whose output image is one analog word followed by two bytes of digital
outputs (digital-output byte offset 2, four bytes to write), with 0xBEEF in word 0 and
0xAAAA in word 1 of PD-OUT-1. -/
def exampleDigital : Globals :=
  { modbus_task_globals with
    offset_output := 2
    bytesToWrite := 4
    maps := Function.update modbus_task_maps Mapping.mb_mapping_write
      { modbus_task_maps Mapping.mb_mapping_write with
        tab_registers := ((List.replicate 256 0).set 0 0xBEEF).set 1 0xAAAA } }

/-- No forced cycle can meet a bus error: the forced update is switched off (operation
mode 0), or every error code the bus still has to report is 0. -/
def noForcedRecovery (g : Globals) : Prop :=
  g.conf_operation_mode = 0 ∨ ∀ c ∈ g.bus.errorCodes, c = 0

instance (g : Globals) : Decidable (noForcedRecovery g) := by
  unfold noForcedRecovery
  infer_instance

/-- The callback pointer is one the program can hold: `NULL`, or `kbus_forceUpdate` once
`kbus_start` has registered it with `modbus_registerMsgReceivedCallback`. -/
def programCallback (cb : Option (Globals → Globals)) : Prop :=
  cb = none ∨ cb = some kbus_forceUpdate

/-- The example coupler (operation mode 1) on a bus that reports the error code 3 at the
next poll and no error after it. -/
def exampleBusFault : Globals :=
  { exampleCoupler with bus := ⟨[3], [], [], []⟩ }

/-- Byte `k` of `pd_in` after the `ReadBytes` call of a cycle started in state `g`: a byte
the bus delivers for `k < bytesToRead`, the old byte of `pd_in` from there on. -/
def inputImageByte (g : Globals) (k : Nat) : Nat :=
  if k < g.bytesToRead then (g.bus.reads.headD []).getD k 0 % 256 else g.pd_in.getD k 0

/-- Word `i` of `pd_in` seen as `uint16_t *` after the `ReadBytes` call of a cycle started
in state `g`, low byte first. -/
def inputImageWord (g : Globals) (i : Nat) : Nat :=
  inputImageByte g (2 * i) % 256 + 256 * (inputImageByte g (2 * i + 1) % 256)

/-- The example with digital-output byte offset 2 and four bytes to write, in operation
mode 1. -/
def exampleDigitalCoupler : Globals :=
  { exampleDigital with conf_operation_mode := 1 }

/-- An example with 200 digital output bytes (1600 digital output bits) from byte 0 of the
output image, in operation mode 1. -/
def exampleManyOutputs : Globals :=
  { modbus_task_globals with
    conf_operation_mode := 1
    offset_output := 0
    bytesToWrite := 200 }

/-- The example with an active watchdog and 0xBEEF in word 0 of PD-OUT-1, on a bus that
reports the error code 3 at the next poll and no error after it. -/
def exampleActiveFault : Globals :=
  { exampleActive with bus := ⟨[3], [], [], []⟩ }

/-- The call names the timer that `timer_create` made: it is a `timer_settime` on the
handle stored in `kbus_timerID`.  A `timer_settime` on `&kbus_timerID` does not. -/
def Event.namesTimerHandle : Event → Bool
  | Event.timer_settime TimerArg.handle _ => true
  | _ => false

/-! ## Basic facts -/

@[simp] theorem send_msg_g (s : Server) (r : Reply) : (send_msg s r).g = s.g := rfl

@[simp] theorem send_msg_sent (s : Server) (r : Reply) : (send_msg s r).sent = s.sent ++ [r] := rfl

@[simp] theorem onGlobals_g (s : Server) (f : Globals → Globals) : (s.onGlobals f).g = f s.g := rfl

@[simp] theorem onGlobals_sent (s : Server) (f : Globals → Globals) : (s.onGlobals f).sent = s.sent := rfl

@[simp] theorem runCallback_none (g : Globals) : runCallback none g = g := rfl

theorem modbus_reply_exception_eq (s : Server) (req : List Nat) (code : Nat)
    (h : code < MODBUS_EXCEPTION_MAX) :
    modbus_reply_exception s req code = send_msg s (exceptionReply req code) := by
  simp [modbus_reply_exception, exceptionReply, h, header_length]

@[simp] theorem trigger_maps (g : Globals) : (modbusWatchdog_trigger g).maps = g.maps := rfl

@[simp] theorem setMap_maps_same (g : Globals) (r : Mapping) (m : modbus_mapping_t) :
    (g.setMap r m).maps r = m := by
  simp [Globals.setMap]

theorem setMap_maps_other (g : Globals) (r r' : Mapping) (m : modbus_mapping_t) (h : r' ≠ r) :
    (g.setMap r m).maps r' = g.maps r' := by
  simp [Globals.setMap, Function.update, h]

@[simp] theorem setMap_state (g : Globals) (r : Mapping) (m : modbus_mapping_t) :
    (g.setMap r m).modbus_ApplicationState = g.modbus_ApplicationState := rfl

/-! ## How `modbus_worker` routes a request -/

theorem modbus_worker_of_read (env : Env) (s : Server) (query : List Nat) (rc : Nat)
    (hrun : s.g.modbus_ApplicationState ≠ APPLICATION_STOP)
    (hf : reqByte query 7 = _FC_READ_COILS ∨ reqByte query 7 = _FC_READ_DISCRETE_INPUTS ∨
      reqByte query 7 = _FC_READ_HOLDING_REGISTERS ∨ reqByte query 7 = _FC_READ_INPUT_REGISTERS) :
    modbus_worker env s query rc =
      modbus_worker_read env
        ((s.onGlobals modbusWatchdog_trigger).onGlobals (runCallback env.modbus_receivedCallback))
        query rc := by
  unfold modbus_worker
  simp only [header_length, if_neg hrun]
  rcases hf with hf | hf | hf | hf <;>
    simp [hf, _FC_READ_HOLDING_REGISTERS, _FC_READ_INPUT_REGISTERS, _FC_WRITE_AND_READ_REGISTERS,
      _FC_WRITE_SINGLE_COIL, _FC_WRITE_MULTIPLE_COILS, _FC_WRITE_SINGLE_REGISTER,
      _FC_WRITE_MULTIPLE_REGISTERS, _FC_READ_COILS, _FC_READ_DISCRETE_INPUTS]

theorem modbus_worker_of_write (env : Env) (s : Server) (query : List Nat) (rc : Nat)
    (hrun : s.g.modbus_ApplicationState ≠ APPLICATION_STOP)
    (hf : reqByte query 7 = _FC_WRITE_SINGLE_COIL ∨ reqByte query 7 = _FC_WRITE_MULTIPLE_COILS ∨
      reqByte query 7 = _FC_WRITE_SINGLE_REGISTER ∨ reqByte query 7 = _FC_WRITE_MULTIPLE_REGISTERS) :
    modbus_worker env s query rc =
      (modbus_worker_write env (s.onGlobals modbusWatchdog_trigger) query rc).onGlobals
        (runCallback env.modbus_receivedCallback) := by
  unfold modbus_worker
  simp only [header_length, if_neg hrun]
  rcases hf with hf | hf | hf | hf <;>
    simp [hf, _FC_READ_HOLDING_REGISTERS, _FC_READ_INPUT_REGISTERS, _FC_WRITE_AND_READ_REGISTERS,
      _FC_WRITE_SINGLE_COIL, _FC_WRITE_MULTIPLE_COILS, _FC_WRITE_SINGLE_REGISTER,
      _FC_WRITE_MULTIPLE_REGISTERS, _FC_READ_COILS, _FC_READ_DISCRETE_INPUTS]

theorem modbus_worker_of_write_and_read (env : Env) (s : Server) (query : List Nat) (rc : Nat)
    (hrun : s.g.modbus_ApplicationState ≠ APPLICATION_STOP)
    (hf : reqByte query 7 = _FC_WRITE_AND_READ_REGISTERS) :
    modbus_worker env s query rc =
      modbus_worker_write env (s.onGlobals modbusWatchdog_trigger) query rc := by
  unfold modbus_worker
  simp only [header_length, if_neg hrun, hf, if_true]

theorem modbus_worker_of_other (env : Env) (s : Server) (query : List Nat) (rc : Nat)
    (hrun : s.g.modbus_ApplicationState ≠ APPLICATION_STOP)
    (hf : reqByte query 7 ∉ [_FC_READ_COILS, _FC_READ_DISCRETE_INPUTS, _FC_READ_HOLDING_REGISTERS,
      _FC_READ_INPUT_REGISTERS, _FC_WRITE_SINGLE_COIL, _FC_WRITE_MULTIPLE_COILS,
      _FC_WRITE_SINGLE_REGISTER, _FC_WRITE_MULTIPLE_REGISTERS, _FC_WRITE_AND_READ_REGISTERS]) :
    modbus_worker env s query rc =
      modbus_reply_exception
        ((s.onGlobals modbusWatchdog_trigger).onGlobals (runCallback env.modbus_receivedCallback))
        query MODBUS_EXCEPTION_ILLEGAL_FUNCTION := by
  unfold modbus_worker
  simp only [List.mem_cons, List.mem_singleton, not_or, List.not_mem_nil, or_false] at hf
  obtain ⟨h1, h2, h3, h4, h5, h6, h7, h8, h9⟩ := hf
  simp only [header_length, if_neg hrun, if_neg h9]
  simp [h1, h2, h3, h4, h5, h6, h7, h8]

theorem running_ne_stop {g : Globals} (h : g.modbus_ApplicationState = APPLICATION_RUNNING) :
    g.modbus_ApplicationState ≠ APPLICATION_STOP := by
  rw [h]; decide

/-! ## The dispatcher in application state STOP -/

/-- C1: for every request, when the application state is STOP, `modbus_worker` sends
exactly one response, the exception SLAVE_OR_SERVER_BUSY, and leaves the globals (every
register bank, every coil bank and the watchdog countdown) unchanged. -/
theorem modbus_worker_stop_busy (env : Env) (s : Server) (query : List Nat) (rc : Nat)
    (hstop : s.g.modbus_ApplicationState = APPLICATION_STOP) :
    (modbus_worker env s query rc).sent =
        s.sent ++ [exceptionReply query MODBUS_EXCEPTION_SLAVE_OR_SERVER_BUSY] ∧
      (modbus_worker env s query rc).g = s.g ∧
      (modbus_worker env s query rc).g.maps = s.g.maps ∧
      (modbus_worker env s query rc).g.timeout = s.g.timeout := by
  have h : modbus_worker env s query rc =
      send_msg s (exceptionReply query MODBUS_EXCEPTION_SLAVE_OR_SERVER_BUSY) := by
    simp only [modbus_worker, hstop, if_true]
    exact modbus_reply_exception_eq s query _ (by decide)
  rw [h]
  simp

/-- Witness of C1: a write-single-register request at 0x0200 in state STOP. -/
theorem modbus_worker_stop_busy_witness :
    (modbus_ApplicationStateStop modbus_task_globals).modbus_ApplicationState = APPLICATION_STOP ∧
      (modbus_worker exampleEnv ⟨modbus_ApplicationStateStop modbus_task_globals, []⟩
          [0, 1, 0, 0, 0, 6, 1, 6, 2, 0, 0xBE, 0xEF] 12).sent =
        [Reply.built ⟨1, 0x86, 1⟩ [6]] :=
  ⟨rfl, (modbus_worker_stop_busy exampleEnv ⟨modbus_ApplicationStateStop modbus_task_globals, []⟩
    [0, 1, 0, 0, 0, 6, 1, 6, 2, 0, 0xBE, 0xEF] 12 rfl).1⟩

/-! ## Window misses on the read path -/

/-- C2: while RUNNING, a read-holding (0x03) or read-input (0x04) request whose start
address lies in none of the register windows is answered with exactly one response, the
exception ILLEGAL_DATA_ADDRESS. -/
theorem modbus_worker_read_window_miss (env : Env) (s : Server) (query : List Nat) (rc : Nat)
    (hrun : s.g.modbus_ApplicationState = APPLICATION_RUNNING)
    (hf : reqByte query 7 = _FC_READ_HOLDING_REGISTERS ∨ reqByte query 7 = _FC_READ_INPUT_REGISTERS)
    (haddr : ¬ inRegisterWindow (reqWord query 8)) :
    (modbus_worker env s query rc).sent =
      s.sent ++ [exceptionReply query MODBUS_EXCEPTION_ILLEGAL_DATA_ADDRESS] := by
  rw [modbus_worker_of_read env s query rc (running_ne_stop hrun) (by tauto)]
  simp only [inRegisterWindow] at haddr
  have hx := fun s => modbus_reply_exception_eq s query MODBUS_EXCEPTION_ILLEGAL_DATA_ADDRESS (by decide)
  unfold modbus_worker_read
  simp only [header_length, Nat.reduceAdd]
  have h1 : reqByte query 7 ≠ _FC_READ_COILS := by
    rcases hf with hf | hf <;> rw [hf] <;> decide
  rw [if_neg h1, if_pos (by tauto)]
  split_ifs <;> first | (rw [hx]; rfl) | omega

/-- Witness of C2: read-holding at 0x0500, count 1. -/
theorem modbus_worker_read_window_miss_witness :
    modbus_task_globals.modbus_ApplicationState = APPLICATION_RUNNING ∧
      reqByte [0, 1, 0, 0, 0, 6, 1, 3, 5, 0, 0, 1] 7 = _FC_READ_HOLDING_REGISTERS ∧
      ¬ inRegisterWindow (reqWord [0, 1, 0, 0, 0, 6, 1, 3, 5, 0, 0, 1] 8) ∧
      (modbus_worker exampleEnv ⟨modbus_task_globals, []⟩ [0, 1, 0, 0, 0, 6, 1, 3, 5, 0, 0, 1] 12).sent =
        [Reply.built ⟨1, 0x83, 1⟩ [2]] :=
  ⟨rfl, rfl, by decide,
    modbus_worker_read_window_miss exampleEnv ⟨modbus_task_globals, []⟩
      [0, 1, 0, 0, 0, 6, 1, 3, 5, 0, 0, 1] 12 rfl (Or.inl rfl) (by decide)⟩

/-! ## Window misses on the write path -/

/-- A register write whose address lies in the configuration range 0x1000-0x2043 but
outside the watchdog window falls through `modbus_worker_write` without a response. -/
theorem modbus_worker_write_config_gap (env : Env) (s : Server) (query : List Nat) (rc : Nat)
    (hf : reqByte query 7 = _FC_WRITE_SINGLE_REGISTER ∨ reqByte query 7 = _FC_WRITE_MULTIPLE_REGISTERS ∨
      reqByte query 7 = _FC_WRITE_AND_READ_REGISTERS)
    (ha : 0x100C ≤ reqWord query 8 ∧ reqWord query 8 ≤ 0x2043) :
    modbus_worker_write env s query rc = s := by
  unfold modbus_worker_write
  simp only [header_length, Nat.reduceAdd]
  have h1 : ¬ (reqByte query 7 = _FC_WRITE_SINGLE_COIL ∨ reqByte query 7 = _FC_WRITE_MULTIPLE_COILS) := by
    rcases hf with hf | hf | hf <;> rw [hf] <;> decide
  rw [if_neg h1, if_pos hf]
  split_ifs <;> first | rfl | omega

/-- C3, evaluated on the code: while RUNNING, the write-single-register request
`00 01 00 00 00 06 01 06 20 00 12 34` (address 0x2000, in no writable window) gets no
response at all from `modbus_worker`, so in particular not the exception
ILLEGAL_DATA_ADDRESS; the read-holding request at the same kind of address (0x1020, in no
register window) does get it. -/
theorem write_register_config_range_unanswered :
    modbus_task_globals.modbus_ApplicationState = APPLICATION_RUNNING ∧
      reqByte [0, 1, 0, 0, 0, 6, 1, 6, 0x20, 0, 0x12, 0x34] 7 = _FC_WRITE_SINGLE_REGISTER ∧
      ¬ inWritableWindow (reqWord [0, 1, 0, 0, 0, 6, 1, 6, 0x20, 0, 0x12, 0x34] 8) ∧
      (modbus_worker exampleEnv ⟨modbus_task_globals, []⟩
        [0, 1, 0, 0, 0, 6, 1, 6, 0x20, 0, 0x12, 0x34] 12).sent = [] ∧
      (modbus_worker exampleEnv ⟨modbus_task_globals, []⟩
        [0, 1, 0, 0, 0, 6, 1, 3, 0x10, 0x20, 0, 1] 12).sent =
        [exceptionReply [0, 1, 0, 0, 0, 6, 1, 3, 0x10, 0x20, 0, 1] MODBUS_EXCEPTION_ILLEGAL_DATA_ADDRESS] := by
  decide

/-! ## Write-and-read requests that select no bank -/

/-- With quantities in range, `modbus_reply_offset` answers a write-and-read request whose
write address selects no bank with ILLEGAL_DATA_ADDRESS and stores nothing. -/
theorem reply_offset_rw_no_write_bank (env : Env) (s : Server) (query : List Nat) (rc : Nat)
    (m : Mapping) (off : Nat)
    (hf : reqByte query 7 = _FC_WRITE_AND_READ_REGISTERS)
    (hoff : off ≤ reqWord query 8)
    (hq : rwQuantitiesInRange query)
    (hw : (modbus_getWriteMapping (reqWord query 12)).1 = none) :
    modbus_reply_offset env s query rc m off =
      send_msg s (exceptionReply query MODBUS_EXCEPTION_ILLEGAL_DATA_ADDRESS) := by
  obtain ⟨h1, h2, h3, h4, h5⟩ := hq
  rcases hgw : modbus_getWriteMapping (reqWord query 12) with ⟨o, a⟩
  rw [hgw] at hw
  simp only at hw
  subst hw
  unfold modbus_reply_offset
  simp only [header_length, Nat.reduceAdd, Nat.reduceSub, hf, if_neg (Nat.not_lt.mpr hoff)]
  simp [_FC_READ_HOLDING_REGISTERS, _FC_READ_INPUT_REGISTERS, _FC_WRITE_AND_READ_REGISTERS,
      _FC_WRITE_SINGLE_COIL, _FC_WRITE_MULTIPLE_COILS, _FC_WRITE_SINGLE_REGISTER,
      _FC_WRITE_MULTIPLE_REGISTERS, _FC_READ_COILS, _FC_READ_DISCRETE_INPUTS,
      _FC_REPORT_SLAVE_ID, _FC_READ_EXCEPTION_STATUS, _FC_MASK_WRITE_REGISTER, hgw,
      response_exception, exceptionReply, MODBUS_EXCEPTION_ILLEGAL_DATA_ADDRESS]
  rw [if_neg (by omega), hf]
  rfl

/-- The watchdog handler rejects a write-and-read request with ILLEGAL_FUNCTION. -/
theorem watchdog_parse_rw (env : Env) (s : Server) (query : List Nat) (rc : Nat)
    (hf : reqByte query 7 = _FC_WRITE_AND_READ_REGISTERS) :
    modbusWatchdog_parseModbusCommand env s query rc =
      send_msg s (exceptionReply query MODBUS_EXCEPTION_ILLEGAL_FUNCTION) := by
  unfold modbusWatchdog_parseModbusCommand
  simp only [header_length, hf]
  rw [if_neg (by decide), if_neg (by decide)]
  exact modbus_reply_exception_eq s query _ (by decide)

/-- C4, as amended: while RUNNING, for a write-and-read (0x17) request with quantities in
range, the response is the exception ILLEGAL_DATA_ADDRESS and no storage is modified when
the read address selects a process-data bank and the write address selects none, and when
the read address selects none and lies outside the configuration range 0x1000-0x2043; a
read address in the watchdog window 0x1000-0x100B is answered with ILLEGAL_FUNCTION, again
without a change to any storage. -/
theorem write_and_read_no_bank (env : Env) (s : Server) (query : List Nat) (rc : Nat)
    (hrun : s.g.modbus_ApplicationState = APPLICATION_RUNNING)
    (hf : reqByte query 7 = _FC_WRITE_AND_READ_REGISTERS)
    (hq : rwQuantitiesInRange query) :
    ((modbus_getReadMapping (reqWord query 8)).1 ≠ none →
      (modbus_getWriteMapping (reqWord query 12)).1 = none →
        (modbus_worker env s query rc).sent =
            s.sent ++ [exceptionReply query MODBUS_EXCEPTION_ILLEGAL_DATA_ADDRESS] ∧
          (modbus_worker env s query rc).g.maps = s.g.maps) ∧
    ((modbus_getReadMapping (reqWord query 8)).1 = none →
      ¬ (0x1000 ≤ reqWord query 8 ∧ reqWord query 8 ≤ 0x2043) →
        (modbus_worker env s query rc).sent =
            s.sent ++ [exceptionReply query MODBUS_EXCEPTION_ILLEGAL_DATA_ADDRESS] ∧
          (modbus_worker env s query rc).g.maps = s.g.maps) ∧
    (0x1000 ≤ reqWord query 8 ∧ reqWord query 8 ≤ 0x100B →
        (modbus_worker env s query rc).sent =
            s.sent ++ [exceptionReply query MODBUS_EXCEPTION_ILLEGAL_FUNCTION] ∧
          (modbus_worker env s query rc).g.maps = s.g.maps) := by
  rw [modbus_worker_of_write_and_read env s query rc (running_ne_stop hrun) hf]
  have hc : ¬ (reqByte query 7 = _FC_WRITE_SINGLE_COIL ∨ reqByte query 7 = _FC_WRITE_MULTIPLE_COILS) := by
    rw [hf]; decide
  have hx := fun s => modbus_reply_exception_eq s query MODBUS_EXCEPTION_ILLEGAL_DATA_ADDRESS (by decide)
  have hw := fun s m off h1 h2 => reply_offset_rw_no_write_bank env s query rc m off hf h1 hq h2
  have hd := fun s => watchdog_parse_rw env s query rc hf
  unfold modbus_worker_write
  simp only [header_length, Nat.reduceAdd]
  rw [if_neg hc, if_pos (Or.inr (Or.inr hf))]
  refine ⟨?_, ?_, ?_⟩
  · intro hr hwn
    unfold modbus_getReadMapping at hr
    simp only at hr
    split_ifs at hr with a1 a2 a3 a4
    · rw [if_pos a1, hw _ _ _ (Nat.zero_le _) hwn]
      exact ⟨rfl, rfl⟩
    · rw [if_neg a1, if_pos a2, hw _ _ _ a2.1 hwn]
      exact ⟨rfl, rfl⟩
    · rw [if_neg a1, if_neg a2, if_neg (by omega), if_pos a3, hw _ _ _ a3.1 hwn]
      exact ⟨rfl, rfl⟩
    · rw [if_neg a1, if_neg a2, if_neg (by omega), if_neg a3, if_pos a4, hw _ _ _ a4.1 hwn]
      exact ⟨rfl, rfl⟩
    · exact absurd rfl hr
  · intro hr hn
    unfold modbus_getReadMapping at hr
    simp only at hr
    split_ifs at hr with a1 a2 a3 a4
    rw [if_neg a1, if_neg a2, if_neg hn, if_neg a3, if_neg a4, hx]
    exact ⟨rfl, rfl⟩
  · intro ha
    rw [if_neg (by omega), if_neg (by omega), if_pos (by omega), if_pos ha, hd]
    exact ⟨rfl, rfl⟩

/-- Witness of C4 as amended: read address 0x0000 (PD-IN-1), write address 0x0500 (no
bank), one register each. -/
theorem write_and_read_no_bank_witness :
    modbus_task_globals.modbus_ApplicationState = APPLICATION_RUNNING ∧
      reqByte [0, 1, 0, 0, 0, 13, 1, 0x17, 0, 0, 0, 1, 5, 0, 0, 1, 2, 0x12, 0x34] 7 =
        _FC_WRITE_AND_READ_REGISTERS ∧
      rwQuantitiesInRange [0, 1, 0, 0, 0, 13, 1, 0x17, 0, 0, 0, 1, 5, 0, 0, 1, 2, 0x12, 0x34] ∧
      (modbus_worker exampleEnv ⟨modbus_task_globals, []⟩
        [0, 1, 0, 0, 0, 13, 1, 0x17, 0, 0, 0, 1, 5, 0, 0, 1, 2, 0x12, 0x34] 19).sent =
        [Reply.built ⟨1, 0x97, 1⟩ [2]] :=
  ⟨rfl, rfl, by decide,
    ((write_and_read_no_bank exampleEnv ⟨modbus_task_globals, []⟩
      [0, 1, 0, 0, 0, 13, 1, 0x17, 0, 0, 0, 1, 5, 0, 0, 1, 2, 0x12, 0x34] 19 rfl rfl (by decide)).1
      (by decide) (by decide)).1⟩

/-- Counterexample to C4 as stated: while RUNNING, the write-and-read request with read
address 0x1000 (no process-data bank), write address 0x0200 and one register each, all
quantities in range, is answered with ILLEGAL_FUNCTION, not ILLEGAL_DATA_ADDRESS. -/
theorem write_and_read_watchdog_window_counterexample :
    modbus_task_globals.modbus_ApplicationState = APPLICATION_RUNNING ∧
      rwQuantitiesInRange [0, 1, 0, 0, 0, 13, 1, 0x17, 0x10, 0, 0, 1, 2, 0, 0, 1, 2, 0x12, 0x34] ∧
      (modbus_getReadMapping (reqWord [0, 1, 0, 0, 0, 13, 1, 0x17, 0x10, 0, 0, 1, 2, 0, 0, 1, 2, 0x12, 0x34] 8)).1 = none ∧
      (modbus_worker exampleEnv ⟨modbus_task_globals, []⟩
        [0, 1, 0, 0, 0, 13, 1, 0x17, 0x10, 0, 0, 1, 2, 0, 0, 1, 2, 0x12, 0x34] 19).sent =
        [exceptionReply [0, 1, 0, 0, 0, 13, 1, 0x17, 0x10, 0, 0, 1, 2, 0, 0, 1, 2, 0x12, 0x34]
          MODBUS_EXCEPTION_ILLEGAL_FUNCTION] ∧
      (modbus_worker exampleEnv ⟨modbus_task_globals, []⟩
        [0, 1, 0, 0, 0, 13, 1, 0x17, 0x10, 0, 0, 1, 2, 0, 0, 1, 2, 0x12, 0x34] 19).sent ≠
        [exceptionReply [0, 1, 0, 0, 0, 13, 1, 0x17, 0x10, 0, 0, 1, 2, 0, 0, 1, 2, 0x12, 0x34]
          MODBUS_EXCEPTION_ILLEGAL_DATA_ADDRESS] := by
  decide

/-! ## Quantity checks of the reply constructor -/

/-- C5, evaluated on the code: `modbus_reply_offset` has no quantity check for functions
0x0F and 0x10.  A write-multiple-registers request with quantity 0 and a
write-multiple-coils request with quantity 0 get the normal response, not
ILLEGAL_DATA_VALUE; a write-multiple-registers request of 260 bytes with quantity 124
(above the maximum 123) is carried out, answered normally, and overwrites the registers of
the bank from index 0 on.  The read function 0x03 beside them does reject quantity 0 with
ILLEGAL_DATA_VALUE. -/
theorem write_multiple_quantity_unchecked :
    (modbus_reply_offset exampleEnv ⟨modbus_task_globals, []⟩
        [0, 1, 0, 0, 0, 7, 1, 0x10, 0, 0, 0, 0, 0] 13 Mapping.mb_mapping_write 0).sent =
        [normalReply [0, 1, 0, 0, 0, 7, 1, 0x10, 0, 0, 0, 0, 0] [0, 0, 0, 0]] ∧
      (modbus_reply_offset exampleEnv ⟨modbus_task_globals, []⟩
        [0, 1, 0, 0, 0, 7, 1, 0x0F, 0, 0, 0, 0, 0] 13 Mapping.mb_digital_1_write 0).sent =
        [normalReply [0, 1, 0, 0, 0, 7, 1, 0x0F, 0, 0, 0, 0, 0] [0, 0, 0, 0]] ∧
      MODBUS_MAX_WRITE_REGISTERS <
        reqWord ([0, 1, 0, 0, 0, 254, 1, 0x10, 0, 0, 0, 124, 247] ++ List.replicate 247 0xAB) 10 ∧
      (modbus_reply_offset exampleEnv ⟨modbus_task_globals, []⟩
        ([0, 1, 0, 0, 0, 254, 1, 0x10, 0, 0, 0, 124, 247] ++ List.replicate 247 0xAB) 260
        Mapping.mb_mapping_write 0).sent =
        [normalReply ([0, 1, 0, 0, 0, 254, 1, 0x10, 0, 0, 0, 124, 247] ++ List.replicate 247 0xAB)
          [0, 0, 0, 124]] ∧
      ((modbus_reply_offset exampleEnv ⟨modbus_task_globals, []⟩
        ([0, 1, 0, 0, 0, 254, 1, 0x10, 0, 0, 0, 124, 247] ++ List.replicate 247 0xAB) 260
        Mapping.mb_mapping_write 0).g.maps Mapping.mb_mapping_write).tab_registers.take 123 =
        List.replicate 123 0xABAB ∧
      (modbus_reply_offset exampleEnv ⟨modbus_task_globals, []⟩
        [0, 1, 0, 0, 0, 6, 1, 3, 0, 0, 0, 0] 12 Mapping.mb_mapping_write 0).sent =
        [exceptionReply [0, 1, 0, 0, 0, 6, 1, 3, 0, 0, 0, 0] MODBUS_EXCEPTION_ILLEGAL_DATA_VALUE] := by
  decide

/-! ## Report slave id -/

/-- C6, as amended: while RUNNING, every request with function code 0x11 handed to the
dispatcher is answered with exactly one response, the exception ILLEGAL_FUNCTION; the
normal response carrying the byte count, the slave-id byte 180, the run indicator 0xFF and
the text "LMB" followed by the library version string is what `modbus_reply_offset` builds
when it is handed such a request itself. -/
theorem report_slave_id_illegal_function (env : Env) (s : Server) (query : List Nat) (rc : Nat)
    (hrun : s.g.modbus_ApplicationState = APPLICATION_RUNNING)
    (hf : reqByte query 7 = _FC_REPORT_SLAVE_ID) :
    (modbus_worker env s query rc).sent =
        s.sent ++ [exceptionReply query MODBUS_EXCEPTION_ILLEGAL_FUNCTION] ∧
      ∀ m : Mapping, (modbus_reply_offset env s query rc m 0).sent =
        s.sent ++ [normalReply query
          ((2 + (3 + env.LIBMODBUS_VERSION_STRING.length)) % 256 :: _REPORT_SLAVE_ID :: 0xFF ::
            76 :: 77 :: 66 :: env.LIBMODBUS_VERSION_STRING)] := by
  constructor
  · rw [modbus_worker_of_other env s query rc (running_ne_stop hrun) (by rw [hf]; decide),
      modbus_reply_exception_eq _ _ _ (by decide)]
    rfl
  · intro m
    unfold modbus_reply_offset
    simp only [header_length, Nat.reduceAdd, Nat.reduceSub, hf, if_neg (Nat.not_lt_zero _)]
    simp [_FC_READ_HOLDING_REGISTERS, _FC_READ_INPUT_REGISTERS, _FC_WRITE_AND_READ_REGISTERS,
      _FC_WRITE_SINGLE_COIL, _FC_WRITE_MULTIPLE_COILS, _FC_WRITE_SINGLE_REGISTER,
      _FC_WRITE_MULTIPLE_REGISTERS, _FC_READ_COILS, _FC_READ_DISCRETE_INPUTS,
      _FC_REPORT_SLAVE_ID, normalReply, hf]
    omega

/-- Witness of C6 as amended: the report-slave-id request `00 01 00 00 00 02 01 11`. -/
theorem report_slave_id_illegal_function_witness :
    modbus_task_globals.modbus_ApplicationState = APPLICATION_RUNNING ∧
      reqByte [0, 1, 0, 0, 0, 2, 1, 0x11] 7 = _FC_REPORT_SLAVE_ID ∧
      (modbus_worker exampleEnv ⟨modbus_task_globals, []⟩ [0, 1, 0, 0, 0, 2, 1, 0x11] 8).sent =
        [Reply.built ⟨1, 0x91, 1⟩ [1]] :=
  ⟨rfl, rfl,
    (report_slave_id_illegal_function exampleEnv ⟨modbus_task_globals, []⟩
      [0, 1, 0, 0, 0, 2, 1, 0x11] 8 rfl rfl).1⟩

/-- Counterexample to C6 as stated: while RUNNING, the dispatcher answers the
report-slave-id request `00 01 00 00 00 02 01 11` with the exception ILLEGAL_FUNCTION and
not with the normal response that carries the slave id, 0xFF and "LMB" with the version. -/
theorem report_slave_id_counterexample :
    modbus_task_globals.modbus_ApplicationState = APPLICATION_RUNNING ∧
      (modbus_worker exampleEnv ⟨modbus_task_globals, []⟩ [0, 1, 0, 0, 0, 2, 1, 0x11] 8).sent =
        [exceptionReply [0, 1, 0, 0, 0, 2, 1, 0x11] MODBUS_EXCEPTION_ILLEGAL_FUNCTION] ∧
      (modbus_worker exampleEnv ⟨modbus_task_globals, []⟩ [0, 1, 0, 0, 0, 2, 1, 0x11] 8).sent ≠
        [normalReply [0, 1, 0, 0, 0, 2, 1, 0x11]
          (10 :: _REPORT_SLAVE_ID :: 0xFF :: 76 :: 77 :: 66 :: exampleEnv.LIBMODBUS_VERSION_STRING)] := by
  decide

/-! ## Register writes and reads through the dispatcher -/

/-- On a register write the dispatcher hands the request to `modbus_reply_offset` with the
bank and the base offset that `modbus_getWriteMapping` computes for the address. -/
theorem modbus_worker_write_route (env : Env) (s : Server) (query : List Nat) (rc : Nat)
    (m : Mapping) (i : Nat)
    (hf : reqByte query 7 = _FC_WRITE_SINGLE_REGISTER ∨ reqByte query 7 = _FC_WRITE_MULTIPLE_REGISTERS ∨
      reqByte query 7 = _FC_WRITE_AND_READ_REGISTERS)
    (hroute : modbus_getWriteMapping (reqWord query 8) = (some m, i)) :
    modbus_worker_write env s query rc =
      modbus_reply_offset env s query rc m (reqWord query 8 - i) := by
  have h1 : ¬ (reqByte query 7 = _FC_WRITE_SINGLE_COIL ∨ reqByte query 7 = _FC_WRITE_MULTIPLE_COILS) := by
    rcases hf with hf | hf | hf <;> rw [hf] <;> decide
  unfold modbus_worker_write
  simp only [header_length, Nat.reduceAdd]
  rw [if_neg h1, if_pos hf]
  unfold modbus_getWriteMapping at hroute
  simp only at hroute
  split_ifs at hroute with a1 a2 a3 a4
  all_goals simp only [Prod.mk.injEq, Option.some.injEq, reduceCtorEq, false_and] at hroute
  all_goals obtain ⟨hm, hi⟩ := hroute
  all_goals subst hm
  all_goals subst hi
  · rw [if_pos a1, Nat.sub_self]
  · rw [if_neg a1, if_pos a2, show reqWord query 8 - (reqWord query 8 - 512) = 512 by omega]
  · rw [if_neg a1, if_neg a2, if_neg (by omega), if_pos a3,
      show reqWord query 8 - (reqWord query 8 - 0x6000) = 0x6000 by omega]
  · rw [if_neg a1, if_neg a2, if_neg (by omega), if_neg a3, if_pos a4,
      show reqWord query 8 - (reqWord query 8 - 0x7000) = 0x7000 by omega]

/-- On a register read the dispatcher hands the request to the reply constructor with the
bank and the base offset that `modbus_getReadMapping` computes for the address. -/
theorem modbus_worker_read_route (env : Env) (s : Server) (query : List Nat) (rc : Nat)
    (m : Mapping) (i : Nat)
    (hf : reqByte query 7 = _FC_READ_HOLDING_REGISTERS ∨ reqByte query 7 = _FC_READ_INPUT_REGISTERS)
    (hroute : modbus_getReadMapping (reqWord query 8) = (some m, i)) :
    modbus_worker_read env s query rc =
      modbus_reply_offset env s query rc m (reqWord query 8 - i) := by
  have h1 : reqByte query 7 ≠ _FC_READ_COILS := by
    rcases hf with hf | hf <;> rw [hf] <;> decide
  unfold modbus_worker_read
  simp only [header_length, Nat.reduceAdd]
  rw [if_neg h1, if_pos (by tauto)]
  unfold modbus_getReadMapping at hroute
  simp only at hroute
  split_ifs at hroute with a1 a2 a3 a4
  all_goals simp only [Prod.mk.injEq, Option.some.injEq, reduceCtorEq, false_and] at hroute
  all_goals obtain ⟨hm, hi⟩ := hroute
  all_goals subst hm
  all_goals subst hi
  · rw [if_pos a1, Nat.sub_self]
    rfl
  · rw [if_neg a1, if_pos a2, show reqWord query 8 - (reqWord query 8 - 512) = 512 by omega]
  · rw [if_neg a1, if_neg a2, if_neg (by omega), if_pos a3,
      show reqWord query 8 - (reqWord query 8 - 0x6000) = 0x6000 by omega]
  · rw [if_neg a1, if_neg a2, if_neg (by omega), if_neg a3, if_pos a4,
      show reqWord query 8 - (reqWord query 8 - 0x7000) = 0x7000 by omega]

/-- The write-single-register case of `modbus_reply_offset` inside the bank: the word is
stored at the lowered address and the request is echoed. -/
theorem reply_offset_write_single_register (env : Env) (s : Server) (query : List Nat) (rc : Nat)
    (m : Mapping) (off : Nat)
    (hf : reqByte query 7 = _FC_WRITE_SINGLE_REGISTER)
    (hoff : off ≤ reqWord query 8)
    (hin : reqWord query 8 - off < (s.g.maps m).nb_registers) :
    modbus_reply_offset env s query rc m off =
      send_msg ⟨setRegisters s.g m
          ((s.g.maps m).tab_registers.set (reqWord query 8 - off) (reqWord query 10)), s.sent⟩
        (Reply.copy (query.take rc)) := by
  unfold modbus_reply_offset
  simp only [header_length, Nat.reduceAdd, Nat.reduceSub, hf, if_neg (Nat.not_lt.mpr hoff)]
  simp [_FC_READ_HOLDING_REGISTERS, _FC_READ_INPUT_REGISTERS, _FC_WRITE_AND_READ_REGISTERS,
      _FC_WRITE_SINGLE_COIL, _FC_WRITE_SINGLE_REGISTER, _FC_READ_COILS, _FC_READ_DISCRETE_INPUTS]
  intro h
  omega

/-- The write-multiple-registers case of `modbus_reply_offset` for one register inside
the bank: the word is stored and the address and quantity are echoed. -/
theorem reply_offset_write_one_register (env : Env) (s : Server) (query : List Nat) (rc : Nat)
    (m : Mapping) (off : Nat)
    (hf : reqByte query 7 = _FC_WRITE_MULTIPLE_REGISTERS)
    (hnb : reqWord query 10 = 1)
    (hoff : off ≤ reqWord query 8)
    (hin : reqWord query 8 - off < (s.g.maps m).nb_registers) :
    modbus_reply_offset env s query rc m off =
      send_msg ⟨setRegisters s.g m
          ((s.g.maps m).tab_registers.set (reqWord query 8 - off) (reqWord query 13)), s.sent⟩
        (normalReply query [reqByte query 8, reqByte query 9, reqByte query 10, reqByte query 11]) := by
  unfold modbus_reply_offset
  simp only [header_length, Nat.reduceAdd, Nat.reduceSub, hf, hnb, if_neg (Nat.not_lt.mpr hoff)]
  simp [_FC_READ_HOLDING_REGISTERS, _FC_READ_INPUT_REGISTERS, _FC_WRITE_AND_READ_REGISTERS,
      _FC_WRITE_SINGLE_COIL, _FC_WRITE_SINGLE_REGISTER, _FC_READ_COILS, _FC_READ_DISCRETE_INPUTS,
      _FC_WRITE_MULTIPLE_COILS, _FC_WRITE_MULTIPLE_REGISTERS, storeRegisters, normalReply,
      header_length, List.range_succ, hf]
  intro h
  omega

/-- The read-holding case of `modbus_reply_offset` for one register inside the bank: the
response carries the byte count 2 and the word, high byte first. -/
theorem reply_offset_read_one_holding (env : Env) (s : Server) (query : List Nat) (rc : Nat)
    (m : Mapping) (off : Nat)
    (hf : reqByte query 7 = _FC_READ_HOLDING_REGISTERS)
    (hnb : reqWord query 10 = 1)
    (hoff : off ≤ reqWord query 8)
    (hin : reqWord query 8 - off < (s.g.maps m).nb_registers) :
    modbus_reply_offset env s query rc m off =
      send_msg s (normalReply query
        [2, (s.g.maps m).tab_registers.getD (reqWord query 8 - off) 0 / 256 % 256,
          (s.g.maps m).tab_registers.getD (reqWord query 8 - off) 0 % 256]) := by
  unfold modbus_reply_offset
  simp only [header_length, Nat.reduceAdd, Nat.reduceSub, hf, hnb, if_neg (Nat.not_lt.mpr hoff)]
  simp [_FC_READ_HOLDING_REGISTERS, _FC_READ_INPUT_REGISTERS, _FC_WRITE_AND_READ_REGISTERS,
      _FC_READ_COILS, _FC_READ_DISCRETE_INPUTS, MODBUS_MAX_READ_REGISTERS, registerBytes,
      normalReply, hf, List.range_succ]
  intro h
  omega

@[simp] theorem setRegisters_maps_same (g : Globals) (m : Mapping) (t : List Nat) :
    (setRegisters g m t).maps m = { g.maps m with tab_registers := t } := by
  simp [setRegisters]

theorem setRegisters_maps_other (g : Globals) (m r : Mapping) (t : List Nat) (h : r ≠ m) :
    (setRegisters g m t).maps r = g.maps r := by
  simp [setRegisters, setMap_maps_other, h]

@[simp] theorem setRegisters_state (g : Globals) (m : Mapping) (t : List Nat) :
    (setRegisters g m t).modbus_ApplicationState = g.modbus_ApplicationState := rfl

theorem allocated_write (g : Globals) (h : Allocated g) :
    (g.maps Mapping.mb_mapping_write).nb_registers = 256 ∧
      (g.maps Mapping.mb_mapping_write).tab_registers.length = 256 :=
  ⟨(h Mapping.mb_mapping_write).2.2.1, (h Mapping.mb_mapping_write).2.2.2.2.2.2.1.trans (by decide)⟩

theorem allocated_2_write (g : Globals) (h : Allocated g) :
    (g.maps Mapping.mb_mapping_2_write).nb_registers = 764 ∧
      (g.maps Mapping.mb_mapping_2_write).tab_registers.length = 764 :=
  ⟨(h Mapping.mb_mapping_2_write).2.2.1, (h Mapping.mb_mapping_2_write).2.2.2.2.2.2.1.trans (by decide)⟩

theorem allocated_in (g : Globals) (h : Allocated g) :
    (g.maps Mapping.mb_mapping_in).nb_registers = 256 ∧
      (g.maps Mapping.mb_mapping_in).tab_registers.length = 256 :=
  ⟨(h Mapping.mb_mapping_in).2.2.1, (h Mapping.mb_mapping_in).2.2.2.2.2.2.1.trans (by decide)⟩

/-- The state the dispatcher leaves after an accepted write-single-register request: the
countdown is reloaded, the word is stored at index `i` of bank `m`, the received callback
runs, and the request is echoed. -/
theorem modbus_worker_write_single (env : Env) (s : Server) (q : List Nat) (rc : Nat)
    (m : Mapping) (i : Nat)
    (hrun : s.g.modbus_ApplicationState = APPLICATION_RUNNING)
    (hf : reqByte q 7 = _FC_WRITE_SINGLE_REGISTER)
    (hW : modbus_getWriteMapping (reqWord q 8) = (some m, i))
    (hiA : i ≤ reqWord q 8)
    (hin : i < (s.g.maps m).nb_registers) :
    modbus_worker env s q rc =
      ⟨runCallback env.modbus_receivedCallback (setRegisters (modbusWatchdog_trigger s.g) m
        ((s.g.maps m).tab_registers.set i (reqWord q 10))), s.sent ++ [Reply.copy (q.take rc)]⟩ := by
  have hsub : reqWord q 8 - (reqWord q 8 - i) = i := by omega
  rw [modbus_worker_of_write env s q rc (running_ne_stop hrun) (by tauto),
    modbus_worker_write_route env _ q rc m i (Or.inl hf) hW,
    reply_offset_write_single_register env _ q rc m _ hf (Nat.sub_le _ _) (by rw [hsub]; exact hin),
    hsub]
  rfl

/-- The state the dispatcher leaves after an accepted write-multiple-registers request of
one register. -/
theorem modbus_worker_write_one (env : Env) (s : Server) (q : List Nat) (rc : Nat)
    (m : Mapping) (i : Nat)
    (hrun : s.g.modbus_ApplicationState = APPLICATION_RUNNING)
    (hf : reqByte q 7 = _FC_WRITE_MULTIPLE_REGISTERS)
    (hnb : reqWord q 10 = 1)
    (hW : modbus_getWriteMapping (reqWord q 8) = (some m, i))
    (hiA : i ≤ reqWord q 8)
    (hin : i < (s.g.maps m).nb_registers) :
    modbus_worker env s q rc =
      ⟨runCallback env.modbus_receivedCallback (setRegisters (modbusWatchdog_trigger s.g) m
        ((s.g.maps m).tab_registers.set i (reqWord q 13))),
        s.sent ++ [normalReply q [reqByte q 8, reqByte q 9, reqByte q 10, reqByte q 11]]⟩ := by
  have hsub : reqWord q 8 - (reqWord q 8 - i) = i := by omega
  rw [modbus_worker_of_write env s q rc (running_ne_stop hrun) (by tauto),
    modbus_worker_write_route env _ q rc m i (Or.inr (Or.inl hf)) hW,
    reply_offset_write_one_register env _ q rc m _ hf hnb (Nat.sub_le _ _)
      (by rw [hsub]; exact hin),
    hsub]
  rfl

/-! ## The mirror window of PD-OUT-1 -/

/-- The globals after a register write of `w` that is routed to index `k` of PD-OUT-1. -/
theorem modbus_worker_register_write_g (env : Env) (s : Server) (q : List Nat) (rc : Nat)
    (a k w : Nat)
    (hrun : s.g.modbus_ApplicationState = APPLICATION_RUNNING)
    (halloc : Allocated s.g)
    (hq : isRegisterWrite q a w)
    (hW : modbus_getWriteMapping a = (some Mapping.mb_mapping_write, k))
    (hka : k ≤ a) (hk : k ≤ 255) :
    (modbus_worker env s q rc).g =
      runCallback env.modbus_receivedCallback (storeOutputWord s.g k w) := by
  have ha := allocated_write s.g halloc
  rcases hq with ⟨hf, h8, h10⟩ | ⟨hf, h8, h10, h13⟩
  · rw [modbus_worker_write_single env s q rc _ k hrun hf (by rw [h8]; exact hW)
      (by rw [h8]; exact hka) (by omega), h10]
    rfl
  · rw [modbus_worker_write_one env s q rc _ k hrun hf h10 (by rw [h8]; exact hW)
      (by rw [h8]; exact hka) (by omega), h13]
    rfl

/-! ## Coil writes and reads through the dispatcher -/

@[simp] theorem setBits_maps_same (g : Globals) (m : Mapping) (t : List Nat) :
    (setBits g m t).maps m = { g.maps m with tab_bits := t } := by
  simp [setBits]

theorem setBits_maps_other (g : Globals) (m r : Mapping) (t : List Nat) (h : r ≠ m) :
    (setBits g m t).maps r = g.maps r := by
  simp [setBits, setMap_maps_other, h]

theorem mapReadCoils_maps (g : Globals) (r : Mapping) (h : r ≠ Mapping.mb_digital_1_in) :
    (modbus_mapReadCoils g).maps r = g.maps r := by
  unfold modbus_mapReadCoils
  exact setBits_maps_other _ _ _ _ h

theorem mapWriteCoils_maps (g : Globals) (r : Mapping) (h : r ≠ Mapping.mb_mapping_write) :
    (modbus_mapWriteCoilsToRegister g).maps r = g.maps r := by
  unfold modbus_mapWriteCoilsToRegister
  exact setRegisters_maps_other _ _ _ _ h

/-- C10, evaluated on the code: after `modbus_copy_register_in` has stored 258 words of the
input image, the holding-register tables of PD-IN-1 and PD-IN-2 hold the stored words,
but a read-input-registers (0x04) request for two registers at 0x6000, and likewise at
address 0, replies with the words of the input-register tables, which the copy never
writes: `00 00 00 00`.  The read-holding (0x03) request at the same addresses does return
the stored words. -/
theorem read_input_registers_miss_copy :
    (modbus_copy_register_in modbus_task_globals exampleInputImage 258).2 = 256 ∧
      (((modbus_copy_register_in modbus_task_globals exampleInputImage 258).1.maps
        Mapping.mb_mapping_2_in).tab_registers.take 2 = [0x0201, 0x0202]) ∧
      (((modbus_copy_register_in modbus_task_globals exampleInputImage 258).1.maps
        Mapping.mb_mapping_in).tab_registers.take 2 = [0x0001, 0x0002]) ∧
      (modbus_worker exampleEnv ⟨(modbus_copy_register_in modbus_task_globals exampleInputImage 258).1, []⟩
        [0, 2, 0, 0, 0, 6, 1, 4, 0x60, 0, 0, 2] 12).sent =
        [normalReply [0, 2, 0, 0, 0, 6, 1, 4, 0x60, 0, 0, 2] [4, 0, 0, 0, 0]] ∧
      (modbus_worker exampleEnv ⟨(modbus_copy_register_in modbus_task_globals exampleInputImage 258).1, []⟩
        [0, 2, 0, 0, 0, 6, 1, 4, 0, 0, 0, 2] 12).sent =
        [normalReply [0, 2, 0, 0, 0, 6, 1, 4, 0, 0, 0, 2] [4, 0, 0, 0, 0]] ∧
      (modbus_worker exampleEnv ⟨(modbus_copy_register_in modbus_task_globals exampleInputImage 258).1, []⟩
        [0, 2, 0, 0, 0, 6, 1, 3, 0x60, 0, 0, 2] 12).sent =
        [normalReply [0, 2, 0, 0, 0, 6, 1, 3, 0x60, 0, 0, 2] [4, 2, 1, 2, 2]] ∧
      (modbus_worker exampleEnv ⟨(modbus_copy_register_in modbus_task_globals exampleInputImage 258).1, []⟩
        [0, 2, 0, 0, 0, 6, 1, 3, 0, 0, 0, 2] 12).sent =
        [normalReply [0, 2, 0, 0, 0, 6, 1, 3, 0, 0, 0, 2] [4, 0, 1, 0, 2]] := by
  decide

/-! ## Routing of register addresses -/

/-- C11, as amended: for every address a, `modbus_getReadMapping` returns a bank exactly
when `modbus_getWriteMapping` does, and then with the same local index; the two banks are
the same in the output windows 512-767 (PD-OUT-1) and 0x7000-0x72FB (PD-OUT-2), and they
differ in the windows 0-255 (PD-IN-1 read, PD-OUT-1 written) and 0x6000-0x62FB (PD-IN-2
read, PD-OUT-2 written). -/
theorem read_write_mapping_agreement (a : Nat) :
    ((modbus_getReadMapping a).1 = none ↔ (modbus_getWriteMapping a).1 = none) ∧
      (modbus_getReadMapping a).2 = (modbus_getWriteMapping a).2 ∧
      ((512 ≤ a ∧ a ≤ 767) ∨ (0x7000 ≤ a ∧ a ≤ 0x72FB) →
        (modbus_getReadMapping a).1 = (modbus_getWriteMapping a).1 ∧
          (modbus_getReadMapping a).1 ≠ none) ∧
      (a ≤ 255 →
        modbus_getReadMapping a = (some Mapping.mb_mapping_in, a) ∧
          modbus_getWriteMapping a = (some Mapping.mb_mapping_write, a)) ∧
      (0x6000 ≤ a ∧ a ≤ 0x62FB →
        modbus_getReadMapping a = (some Mapping.mb_mapping_2_in, a - 0x6000) ∧
          modbus_getWriteMapping a = (some Mapping.mb_mapping_2_write, a - 0x6000)) := by
  unfold modbus_getReadMapping modbus_getWriteMapping
  simp only
  refine ⟨?_, ?_, ?_, ?_, ?_⟩
  · split_ifs <;> simp
  · split_ifs <;> rfl
  · intro h
    split_ifs <;> first | omega | simp
  · intro h
    rw [if_pos h, if_pos h]
    exact ⟨rfl, rfl⟩
  · intro h
    rw [if_neg (by omega), if_neg (by omega), if_pos (by omega), if_neg (by omega),
      if_neg (by omega), if_pos (by omega)]
    exact ⟨rfl, rfl⟩

/-- Counterexample to C11 as stated: at address 0 both functions return a bank, with the
same local index 0, but `modbus_getReadMapping` returns PD-IN-1 and
`modbus_getWriteMapping` returns PD-OUT-1; likewise at 0x6000 with PD-IN-2 and PD-OUT-2. -/
theorem read_write_mapping_counterexample :
    modbus_getReadMapping 0 = (some Mapping.mb_mapping_in, 0) ∧
      modbus_getWriteMapping 0 = (some Mapping.mb_mapping_write, 0) ∧
      (modbus_getReadMapping 0).1 ≠ (modbus_getWriteMapping 0).1 ∧
      modbus_getReadMapping 0x6000 = (some Mapping.mb_mapping_2_in, 0) ∧
      modbus_getWriteMapping 0x6000 = (some Mapping.mb_mapping_2_write, 0) := by
  decide

/-! ## Configuration defaults -/

/-- The cycle period is not among the parameters `conf_init` sets. -/
theorem conf_init_cycle_unchanged (g : Globals) :
    (conf_init g).1.conf_kbus_cycle_ms = g.conf_kbus_cycle_ms := rfl

/-- C19, evaluated on the code: after `conf_init` at program start the port is 502, the
backlog 5, the operation mode 0, the response delay 0 and the priority 60, but
`conf_kbus_cycle_ms` is still the 0 of its initialiser and not the documented default 50
(`DEFAULT_CONFIG_KBUS_CYCLE_MS`), which `conf_init` never assigns. -/
theorem conf_init_misses_cycle_default :
    (conf_init (conf_initializers modbus_task_globals)).2 = 0 ∧
      (conf_init (conf_initializers modbus_task_globals)).1.conf_modbus_port = 502 ∧
      (conf_init (conf_initializers modbus_task_globals)).1.conf_max_tcp_connections = 5 ∧
      (conf_init (conf_initializers modbus_task_globals)).1.conf_operation_mode = 0 ∧
      (conf_init (conf_initializers modbus_task_globals)).1.conf_modbus_delay_ms = 0 ∧
      (conf_init (conf_initializers modbus_task_globals)).1.conf_kbus_priority = 60 ∧
      (conf_init (conf_initializers modbus_task_globals)).1.conf_kbus_cycle_ms = 0 ∧
      (conf_init (conf_initializers modbus_task_globals)).1.conf_kbus_cycle_ms ≠
        DEFAULT_CONFIG_KBUS_CYCLE_MS ∧
      DEFAULT_CONFIG_KBUS_CYCLE_MS = 50 := by
  decide

/-! ## The terminal-assembly slabs -/

/-- C18, evaluated on the code: with 193 terminals whose identifiers are 1 to 193,
`modbusConfig_writeTerminalInfo` puts 352 in word 0 of slab 1 and the identifiers 1 to 64
and 65 to 128 in slabs 1 and 2, but it stores identifier 193 in word 0 of slab 3, where
identifier 129 was: slab 3 starts 193, 130, 131, slab 4 stays empty, and identifier 129
is in no slab. -/
theorem terminal_193_overwrites_slab_3 :
    (modbusConfig_writeTerminalInfo exampleTerminals).2 = 0 ∧
      ((modbusConfig_writeTerminalInfo exampleTerminals).1.maps Mapping.mb_knot_asam_1).tab_registers =
        352 :: (List.range 64).map (fun i => i + 1) ∧
      ((modbusConfig_writeTerminalInfo exampleTerminals).1.maps Mapping.mb_knot_asam_2).tab_registers =
        (List.range 64).map (fun i => i + 65) ∧
      ((modbusConfig_writeTerminalInfo exampleTerminals).1.maps Mapping.mb_knot_asam_3).tab_registers =
        193 :: (List.range 63).map (fun i => i + 130) ∧
      ((modbusConfig_writeTerminalInfo exampleTerminals).1.maps Mapping.mb_knot_asam_4).tab_registers =
        List.replicate 63 0 ∧
      129 ∉ ((modbusConfig_writeTerminalInfo exampleTerminals).1.maps Mapping.mb_knot_asam_1).tab_registers ++
        ((modbusConfig_writeTerminalInfo exampleTerminals).1.maps Mapping.mb_knot_asam_2).tab_registers ++
        ((modbusConfig_writeTerminalInfo exampleTerminals).1.maps Mapping.mb_knot_asam_3).tab_registers ++
        ((modbusConfig_writeTerminalInfo exampleTerminals).1.maps Mapping.mb_knot_asam_4).tab_registers := by
  decide

/-! ## The cycle engine -/

theorem sameControl_refl (g : Globals) : SameControl g g :=
  ⟨rfl, rfl, rfl, rfl, rfl, rfl, rfl, rfl⟩

theorem sameControl_trans {a b c : Globals} (h1 : SameControl a b) (h2 : SameControl b c) :
    SameControl a c := by
  obtain ⟨a1, a2, a3, a4, a5, a6, a7, a8⟩ := h1
  obtain ⟨b1, b2, b3, b4, b5, b6, b7, b8⟩ := h2
  exact ⟨b1.trans a1, b2.trans a2, b3.trans a3, b4.trans a4, b5.trans a5, b6.trans a6,
    b7.trans a7, b8.trans a8⟩

theorem keepsControl_none : KeepsControl none := fun g => sameControl_refl g

theorem emit_sameControl (g : Globals) (es : List Event) : SameControl g (g.emit es) :=
  ⟨rfl, rfl, rfl, rfl, rfl, rfl, rfl, rfl⟩

theorem timerSetTime_sameControl (g : Globals) (t : TimerArg) (ms : Int) :
    SameControl g (kbus_timerSetTime g t ms) :=
  ⟨rfl, rfl, rfl, rfl, rfl, rfl, rfl, rfl⟩

theorem getError_sameControl (g : Globals) : SameControl g (kbus_getError g).1 :=
  ⟨rfl, rfl, rfl, rfl, rfl, rfl, rfl, rfl⟩

theorem push_sameControl (g : Globals) : SameControl g (libpackbus_Push g).1 :=
  ⟨rfl, rfl, rfl, rfl, rfl, rfl, rfl, rfl⟩

theorem loop_body_sameControl (g : Globals) :
    SameControl g (kbus_getError (((libpackbus_Push g).1).emit [Event.WatchdogTrigger])).1 :=
  sameControl_trans (push_sameControl g)
    (sameControl_trans (emit_sameControl _ _) (getError_sameControl _))

theorem loop_passes_sameControl (n : Nat) :
    ∀ g : Globals, SameControl g (kbus_loopTilErrorGone_passes n g) := by
  induction n with
  | zero =>
    intro g
    simp only [kbus_loopTilErrorGone_passes]
    exact loop_body_sameControl g
  | succ n ih =>
    intro g
    simp only [kbus_loopTilErrorGone_passes]
    split_ifs
    · exact loop_body_sameControl g
    · exact sameControl_trans (loop_body_sameControl g)
        (sameControl_trans (emit_sameControl _ _) (ih _))

theorem loop_sameControl (g : Globals) : SameControl g (kbus_loopTilErrorGone g) :=
  loop_passes_sameControl _ g

theorem clearAll_sameControl (g : Globals) : SameControl g (modbus_clearAllMappings g) := by
  simp [modbus_clearAllMappings, Globals.setMap, SameControl, Function.update]

theorem kbus_setup_sameControl (g : Globals) : SameControl g (kbus_setup g).1 := by
  unfold kbus_setup
  simp only
  split_ifs <;> exact ⟨rfl, rfl, rfl, rfl, rfl, rfl, rfl, rfl⟩

theorem kbus_reset_sameControl (g : Globals) : SameControl g (kbus_reset g).1 := by
  unfold kbus_reset
  simp only
  split_ifs
  · exact ⟨rfl, rfl, rfl, rfl, rfl, rfl, rfl, rfl⟩
  · exact sameControl_trans ⟨rfl, rfl, rfl, rfl, rfl, rfl, rfl, rfl⟩ (kbus_setup_sameControl _)
  · exact sameControl_trans ⟨rfl, rfl, rfl, rfl, rfl, rfl, rfl, rfl⟩ (kbus_setup_sameControl _)

theorem copy_register_in_sameControl (g : Globals) (src : List Nat) (n : Nat) :
    SameControl g (modbus_copy_register_in g src n).1 := by
  unfold modbus_copy_register_in
  simp only
  split_ifs <;> exact ⟨rfl, rfl, rfl, rfl, rfl, rfl, rfl, rfl⟩

theorem mutex_sameControl (g : Globals) (b : Bool) :
    SameControl g { g with kbus_update_mutex := b } :=
  ⟨rfl, rfl, rfl, rfl, rfl, rfl, rfl, rfl⟩

theorem pd_out_sameControl (g : Globals) (v : List Nat) :
    SameControl g { g with pd_out := v } :=
  ⟨rfl, rfl, rfl, rfl, rfl, rfl, rfl, rfl⟩

theorem pd_in_sameControl (g : Globals) (v : List Nat) (b : Bus) :
    SameControl g { g with pd_in := v, bus := b } :=
  ⟨rfl, rfl, rfl, rfl, rfl, rfl, rfl, rfl⟩

/-- A cycle leaves the control variables as they are, whichever way it takes. -/
theorem kbus_update_sameControl (g : Globals) : SameControl g (kbus_update g) := by
  unfold kbus_update
  by_cases hm : g.kbus_update_mutex = true
  · rw [if_pos hm]
    exact sameControl_refl g
  · rw [if_neg hm]
    refine sameControl_trans ?_ (mutex_sameControl _ false)
    have h0 : SameControl g (kbus_getError { g with kbus_update_mutex := true }).1 :=
      sameControl_trans (mutex_sameControl g true) (getError_sameControl _)
    refine sameControl_trans h0 ?_
    split_ifs
    · refine sameControl_trans ?_ (timerSetTime_sameControl _ TimerArg.addressOfHandle _)
      refine sameControl_trans ?_ (kbus_reset_sameControl _)
      refine sameControl_trans ?_ (clearAll_sameControl _)
      refine sameControl_trans ?_ (loop_sameControl _)
      exact timerSetTime_sameControl _ TimerArg.addressOfHandle 0
    · dsimp only
      split_ifs
      · exact push_sameControl _
      · refine sameControl_trans ?_ (copy_register_in_sameControl _ _ _)
        refine sameControl_trans ?_ (pd_in_sameControl _ _ _)
        refine sameControl_trans ?_ (emit_sameControl _ _)
        refine sameControl_trans ?_ (pd_out_sameControl _ _)
        refine sameControl_trans ?_ (emit_sameControl _ _)
        exact push_sameControl _
      · exact push_sameControl _

/-- A forced cycle leaves the control variables as they are. -/
theorem kbus_forceUpdate_sameControl (g : Globals) : SameControl g (kbus_forceUpdate g) := by
  unfold kbus_forceUpdate
  simp only
  split_ifs
  · exact sameControl_trans (timerSetTime_sameControl _ _ _)
      (sameControl_trans (kbus_update_sameControl _) (timerSetTime_sameControl _ _ _))
  · exact sameControl_refl g

theorem keepsControl_forceUpdate : KeepsControl (some kbus_forceUpdate) :=
  fun g => kbus_forceUpdate_sameControl g

theorem traceExtends_refl (g : Globals) : TraceExtends g g := ⟨[], by simp⟩

theorem traceExtends_trans {a b c : Globals} (h1 : TraceExtends a b) (h2 : TraceExtends b c) :
    TraceExtends a c := by
  obtain ⟨e1, h1⟩ := h1
  obtain ⟨e2, h2⟩ := h2
  exact ⟨e1 ++ e2, by rw [h2, h1, List.append_assoc]⟩

theorem traceExtends_of_eq {g g' : Globals} (h : g'.trace = g.trace) : TraceExtends g g' :=
  ⟨[], by simp [h]⟩

theorem emit_traceExtends (g : Globals) (es : List Event) : TraceExtends g (g.emit es) :=
  ⟨es, rfl⟩

theorem timerSetTime_traceExtends (g : Globals) (t : TimerArg) (ms : Int) :
    TraceExtends g (kbus_timerSetTime g t ms) :=
  ⟨_, rfl⟩

theorem getError_traceExtends (g : Globals) : TraceExtends g (kbus_getError g).1 :=
  ⟨_, rfl⟩

theorem push_traceExtends (g : Globals) : TraceExtends g (libpackbus_Push g).1 :=
  ⟨_, rfl⟩

theorem loop_body_traceExtends (g : Globals) :
    TraceExtends g (kbus_getError (((libpackbus_Push g).1).emit [Event.WatchdogTrigger])).1 :=
  traceExtends_trans (push_traceExtends g)
    (traceExtends_trans (emit_traceExtends _ _) (getError_traceExtends _))

theorem loop_passes_traceExtends (n : Nat) :
    ∀ g : Globals, TraceExtends g (kbus_loopTilErrorGone_passes n g) := by
  induction n with
  | zero =>
    intro g
    simp only [kbus_loopTilErrorGone_passes]
    exact loop_body_traceExtends g
  | succ n ih =>
    intro g
    simp only [kbus_loopTilErrorGone_passes]
    split_ifs
    · exact loop_body_traceExtends g
    · exact traceExtends_trans (loop_body_traceExtends g)
        (traceExtends_trans (emit_traceExtends _ _) (ih _))

theorem loop_traceExtends (g : Globals) : TraceExtends g (kbus_loopTilErrorGone g) :=
  loop_passes_traceExtends _ g

theorem clearAll_trace (g : Globals) : (modbus_clearAllMappings g).trace = g.trace := by
  simp [modbus_clearAllMappings, Globals.setMap]

theorem kbus_setup_traceExtends (g : Globals) : TraceExtends g (kbus_setup g).1 := by
  unfold kbus_setup
  simp only
  split_ifs <;> exact ⟨_, rfl⟩

theorem kbus_reset_traceExtends (g : Globals) : TraceExtends g (kbus_reset g).1 := by
  unfold kbus_reset
  simp only
  split_ifs
  · exact ⟨_, rfl⟩
  · exact traceExtends_trans ⟨_, rfl⟩ (kbus_setup_traceExtends _)
  · exact traceExtends_trans ⟨_, rfl⟩ (kbus_setup_traceExtends _)

theorem copy_register_in_trace (g : Globals) (src : List Nat) (n : Nat) :
    (modbus_copy_register_in g src n).1.trace = g.trace := by
  unfold modbus_copy_register_in
  simp only
  split_ifs <;> rfl

theorem mutex_traceExtends (g : Globals) (b : Bool) :
    TraceExtends g { g with kbus_update_mutex := b } :=
  ⟨[], by simp⟩

theorem pd_out_traceExtends (g : Globals) (v : List Nat) :
    TraceExtends g { g with pd_out := v } :=
  ⟨[], by simp⟩

theorem pd_in_traceExtends (g : Globals) (v : List Nat) (b : Bus) :
    TraceExtends g { g with pd_in := v, bus := b } :=
  ⟨[], by simp⟩

/-- A cycle only appends to the record of calls. -/
theorem kbus_update_traceExtends (g : Globals) : TraceExtends g (kbus_update g) := by
  unfold kbus_update
  by_cases hm : g.kbus_update_mutex = true
  · rw [if_pos hm]
    exact traceExtends_refl g
  · rw [if_neg hm]
    refine traceExtends_trans ?_ (mutex_traceExtends _ false)
    have h0 : TraceExtends g (kbus_getError { g with kbus_update_mutex := true }).1 :=
      traceExtends_trans (mutex_traceExtends g true) (getError_traceExtends _)
    refine traceExtends_trans h0 ?_
    split_ifs
    · refine traceExtends_trans ?_ (timerSetTime_traceExtends _ TimerArg.addressOfHandle _)
      refine traceExtends_trans ?_ (kbus_reset_traceExtends _)
      refine traceExtends_trans ?_ (traceExtends_of_eq (clearAll_trace _))
      refine traceExtends_trans ?_ (loop_traceExtends _)
      exact timerSetTime_traceExtends _ TimerArg.addressOfHandle 0
    · dsimp only
      split_ifs
      · exact push_traceExtends _
      · refine traceExtends_trans ?_ (traceExtends_of_eq (copy_register_in_trace _ _ _))
        refine traceExtends_trans ?_ (pd_in_traceExtends _ _ _)
        refine traceExtends_trans ?_ (emit_traceExtends _ _)
        refine traceExtends_trans ?_ (pd_out_traceExtends _ _)
        refine traceExtends_trans ?_ (emit_traceExtends _ _)
        exact push_traceExtends _
      · exact push_traceExtends _

/-- With the mutex free, error code 0 and a successful push, a cycle makes exactly the
calls of one cycle body, on the output storages as they are at its start. -/
theorem kbus_update_trace_ready (g : Globals) (h : busReady g) :
    (kbus_update g).trace = g.trace ++ cycleEvents g := by
  obtain ⟨hm, he, hc, hr⟩ := h
  have e1 : (kbus_getError { g with kbus_update_mutex := true }).2 = 0 := he
  unfold kbus_update
  rw [if_neg (by rw [hm]; decide)]
  dsimp only
  rw [if_neg (by rw [e1]; decide)]
  have e2 : (libpackbus_Push (kbus_getError { g with kbus_update_mutex := true }).1).2 =
      g.bus.pushes.headD ⟨true, true⟩ := rfl
  rw [e2, if_neg (by rw [hc]; decide), if_pos hr]
  show ((modbus_copy_register_in _ _ _).1).trace = _
  rw [copy_register_in_trace]
  simp [Globals.emit, kbus_getError, libpackbus_Push, cycleEvents, modbus_copy_register_out]

theorem busReady_timerSetTime (g : Globals) (t : TimerArg) (ms : Int) (h : busReady g) :
    busReady (kbus_timerSetTime g t ms) := h

theorem cycleEvents_timerSetTime (g : Globals) (t : TimerArg) (ms : Int) :
    cycleEvents (kbus_timerSetTime g t ms) = cycleEvents g := by
  simp [cycleEvents, kbus_timerSetTime, Globals.emit, modbus_copy_register_out]

/-! ## Write-and-read requests and the forced cycle -/

/-- An address with a bank for reading has a bank for writing, at the same index. -/
theorem read_bank_has_write_bank (a : Nat) (rm : Mapping) (ri : Nat)
    (h : modbus_getReadMapping a = (some rm, ri)) :
    ∃ m, modbus_getWriteMapping a = (some m, ri) := by
  unfold modbus_getReadMapping at h
  unfold modbus_getWriteMapping
  simp only at h ⊢
  split_ifs at h ⊢
  all_goals simp only [Prod.mk.injEq, Option.some.injEq, reduceCtorEq, false_and] at h
  all_goals obtain ⟨-, hi⟩ := h
  all_goals exact ⟨_, by rw [hi]⟩

/-- The reply constructor on a write-and-read request with quantities in range and a bank
for either half: store the write half, run the reply callback, answer with the words the
read bank holds after the callback. -/
theorem reply_offset_write_and_read (env : Env) (s : Server) (query : List Nat) (rc : Nat)
    (m : Mapping) (off : Nat) (wm rm : Mapping) (wi ri : Nat)
    (hf : reqByte query 7 = _FC_WRITE_AND_READ_REGISTERS)
    (hoff : off ≤ reqWord query 8)
    (hq : rwQuantitiesInRange query)
    (hw : modbus_getWriteMapping (reqWord query 12) = (some wm, wi))
    (hr : modbus_getReadMapping (reqWord query 8) = (some rm, ri)) :
    modbus_reply_offset env s query rc m off =
      send_msg
        ⟨runCallback env.modbus_replyCallback
          (setRegisters s.g wm
            (storeRegisters (s.g.maps wm).tab_registers query wi (reqWord query 14) 10)), s.sent⟩
        (normalReply query (reqWord query 10 * 2 % 256 ::
          registerBytes
            ((runCallback env.modbus_replyCallback
              (setRegisters s.g wm
                (storeRegisters (s.g.maps wm).tab_registers query wi (reqWord query 14) 10))).maps
              rm).tab_registers ri (reqWord query 10))) := by
  obtain ⟨h1, h2, h3, h4, h5⟩ := hq
  unfold modbus_reply_offset
  simp only [header_length, Nat.reduceAdd, Nat.reduceSub, hf, if_neg (Nat.not_lt.mpr hoff)]
  simp [_FC_READ_HOLDING_REGISTERS, _FC_READ_INPUT_REGISTERS, _FC_WRITE_AND_READ_REGISTERS,
      _FC_WRITE_SINGLE_COIL, _FC_WRITE_MULTIPLE_COILS, _FC_WRITE_SINGLE_REGISTER,
      _FC_WRITE_MULTIPLE_REGISTERS, _FC_READ_COILS, _FC_READ_DISCRETE_INPUTS,
      _FC_REPORT_SLAVE_ID, _FC_READ_EXCEPTION_STATUS, _FC_MASK_WRITE_REGISTER, hw, hr,
      normalReply]
  rw [if_neg (by omega), hf]
  rfl

/-- C17, as amended: while RUNNING, with `kbus_forceUpdate` registered as reply callback,
a write-and-read (0x17) request with quantities in range and a bank for either half stores
its write half, calls `kbus_forceUpdate` once on that state, and assembles the reply from
the read bank as that call leaves it.  In operation mode 0 the call does nothing: no cycle
runs between the halves.  In operation mode 1, when the cycle can run at once, exactly one
cycle body runs between the halves, and it writes the output storages that already hold
the write half. -/
theorem write_and_read_forced_cycle (env : Env) (s : Server) (query : List Nat) (rc : Nat)
    (wm rm : Mapping) (wi ri : Nat)
    (hrun : s.g.modbus_ApplicationState = APPLICATION_RUNNING)
    (hcb : env.modbus_replyCallback = some kbus_forceUpdate)
    (hf : reqByte query 7 = _FC_WRITE_AND_READ_REGISTERS)
    (hq : rwQuantitiesInRange query)
    (hw : modbus_getWriteMapping (reqWord query 12) = (some wm, wi))
    (hr : modbus_getReadMapping (reqWord query 8) = (some rm, ri)) :
    (modbus_worker env s query rc).g = kbus_forceUpdate (storeWriteHalf s.g query wm wi) ∧
      (modbus_worker env s query rc).sent =
        s.sent ++ [normalReply query (reqWord query 10 * 2 % 256 ::
          registerBytes ((kbus_forceUpdate (storeWriteHalf s.g query wm wi)).maps rm).tab_registers
            ri (reqWord query 10))] ∧
      (s.g.conf_operation_mode = 0 →
        (modbus_worker env s query rc).g = storeWriteHalf s.g query wm wi ∧
          (modbus_worker env s query rc).g.trace = s.g.trace) ∧
      (s.g.conf_operation_mode ≠ 0 → busReady s.g →
        (modbus_worker env s query rc).g.trace =
          s.g.trace ++ [Event.timer_settime TimerArg.addressOfHandle 0] ++
            cycleEvents (storeWriteHalf s.g query wm wi) ++
            [Event.timer_settime TimerArg.addressOfHandle s.g.conf_kbus_cycle_ms]) := by
  obtain ⟨m, hm⟩ := read_bank_has_write_bank _ rm ri hr
  have hoff : reqWord query 8 - ri ≤ reqWord query 8 := Nat.sub_le _ _
  have hg : (modbus_worker env s query rc).g = kbus_forceUpdate (storeWriteHalf s.g query wm wi) := by
    rw [modbus_worker_of_write_and_read env s query rc (running_ne_stop hrun) hf,
      modbus_worker_write_route env _ query rc m ri (Or.inr (Or.inr hf)) hm,
      reply_offset_write_and_read env _ query rc m _ wm rm wi ri hf hoff hq hw hr, hcb]
    rfl
  have hs : (modbus_worker env s query rc).sent =
      s.sent ++ [normalReply query (reqWord query 10 * 2 % 256 ::
        registerBytes ((kbus_forceUpdate (storeWriteHalf s.g query wm wi)).maps rm).tab_registers
          ri (reqWord query 10))] := by
    rw [modbus_worker_of_write_and_read env s query rc (running_ne_stop hrun) hf,
      modbus_worker_write_route env _ query rc m ri (Or.inr (Or.inr hf)) hm,
      reply_offset_write_and_read env _ query rc m _ wm rm wi ri hf hoff hq hw hr, hcb]
    rfl
  have hmode : (storeWriteHalf s.g query wm wi).conf_operation_mode = s.g.conf_operation_mode := rfl
  refine ⟨hg, hs, ?_, ?_⟩
  · intro h0
    have hid : kbus_forceUpdate (storeWriteHalf s.g query wm wi) = storeWriteHalf s.g query wm wi := by
      unfold kbus_forceUpdate
      rw [if_neg (by rw [hmode, h0]; decide)]
    rw [hg, hid]
    exact ⟨rfl, rfl⟩
  · intro h1 hb
    have hb1 : busReady (storeWriteHalf s.g query wm wi) := hb
    have hfu : kbus_forceUpdate (storeWriteHalf s.g query wm wi) =
        kbus_timerSetTime (kbus_update (kbus_timerSetTime (storeWriteHalf s.g query wm wi)
          TimerArg.addressOfHandle 0)) TimerArg.addressOfHandle s.g.conf_kbus_cycle_ms := by
      have hc : (kbus_update (kbus_timerSetTime (storeWriteHalf s.g query wm wi)
          TimerArg.addressOfHandle 0)).conf_kbus_cycle_ms = s.g.conf_kbus_cycle_ms :=
        (sameControl_trans (timerSetTime_sameControl _ TimerArg.addressOfHandle 0)
          (kbus_update_sameControl _)).2.2.2.2.2.2.2
      unfold kbus_forceUpdate
      rw [if_pos (by rw [hmode]; exact h1)]
      dsimp only
      rw [hc]
    rw [hg, hfu]
    show (kbus_update (kbus_timerSetTime (storeWriteHalf s.g query wm wi)
      TimerArg.addressOfHandle 0)).trace ++ _ = _
    rw [kbus_update_trace_ready _ (busReady_timerSetTime _ _ _ hb1), cycleEvents_timerSetTime]
    rfl

/-- Witness of C17 as amended: on the example coupler in operation mode 1 the request
"write 0xBEEF to address 0, read one word at address 0" runs one cycle between its
halves, and that cycle puts the bytes EF BE of the write half on the bus. -/
theorem write_and_read_forced_cycle_witness :
    exampleCoupler.modbus_ApplicationState = APPLICATION_RUNNING ∧
      registeredEnv.modbus_replyCallback = some kbus_forceUpdate ∧
      rwQuantitiesInRange [0, 1, 0, 0, 0, 13, 1, 0x17, 0, 0, 0, 1, 0, 0, 0, 1, 2, 0xBE, 0xEF] ∧
      exampleCoupler.conf_operation_mode ≠ 0 ∧ busReady exampleCoupler ∧
      (modbus_worker registeredEnv ⟨exampleCoupler, []⟩
        [0, 1, 0, 0, 0, 13, 1, 0x17, 0, 0, 0, 1, 0, 0, 0, 1, 2, 0xBE, 0xEF] 19).g.trace =
        [Event.timer_settime TimerArg.addressOfHandle 0, Event.KbusInfo_GetStatus,
          Event.libpackbus_Push, Event.WatchdogTrigger, Event.WriteStart,
          Event.WriteBytes 0 2 [0xEF, 0xBE], Event.WriteEnd, Event.ReadStart,
          Event.ReadBytes 0 2, Event.ReadEnd,
          Event.timer_settime TimerArg.addressOfHandle 50] :=
  ⟨rfl, rfl, by decide, by decide, by decide,
    ((write_and_read_forced_cycle registeredEnv ⟨exampleCoupler, []⟩
      [0, 1, 0, 0, 0, 13, 1, 0x17, 0, 0, 0, 1, 0, 0, 0, 1, 2, 0xBE, 0xEF] 19
      Mapping.mb_mapping_write Mapping.mb_mapping_in 0 0 rfl rfl rfl (by decide) (by decide)
      (by decide)).2.2.2 (by decide) (by decide)).trans (by decide)⟩

/-- Counterexample to C17 as stated: in operation mode 0, with `kbus_forceUpdate`
registered and the dispatcher RUNNING, the request "write 0xBEEF to address 0, read one
word at address 0" has quantities in range and a bank for either half and is accepted with
a normal reply, the write half is stored in PD-OUT-1, yet no call leaves the program: no
push, no write of the output image, no read of the input image. -/
theorem write_and_read_mode_0_counterexample :
    exampleCouplerOff.modbus_ApplicationState = APPLICATION_RUNNING ∧
      exampleCouplerOff.conf_operation_mode = 0 ∧
      rwQuantitiesInRange [0, 1, 0, 0, 0, 13, 1, 0x17, 0, 0, 0, 1, 0, 0, 0, 1, 2, 0xBE, 0xEF] ∧
      modbus_getWriteMapping (reqWord [0, 1, 0, 0, 0, 13, 1, 0x17, 0, 0, 0, 1, 0, 0, 0, 1, 2, 0xBE, 0xEF] 12) =
        (some Mapping.mb_mapping_write, 0) ∧
      modbus_getReadMapping (reqWord [0, 1, 0, 0, 0, 13, 1, 0x17, 0, 0, 0, 1, 0, 0, 0, 1, 2, 0xBE, 0xEF] 8) =
        (some Mapping.mb_mapping_in, 0) ∧
      (modbus_worker registeredEnv ⟨exampleCouplerOff, []⟩
        [0, 1, 0, 0, 0, 13, 1, 0x17, 0, 0, 0, 1, 0, 0, 0, 1, 2, 0xBE, 0xEF] 19).sent =
        [normalReply [0, 1, 0, 0, 0, 13, 1, 0x17, 0, 0, 0, 1, 0, 0, 0, 1, 2, 0xBE, 0xEF] [2, 0, 0]] ∧
      ((modbus_worker registeredEnv ⟨exampleCouplerOff, []⟩
        [0, 1, 0, 0, 0, 13, 1, 0x17, 0, 0, 0, 1, 0, 0, 0, 1, 2, 0xBE, 0xEF] 19).g.maps
          Mapping.mb_mapping_write).tab_registers.take 1 = [0xBEEF] ∧
      (modbus_worker registeredEnv ⟨exampleCouplerOff, []⟩
        [0, 1, 0, 0, 0, 13, 1, 0x17, 0, 0, 0, 1, 0, 0, 0, 1, 2, 0xBE, 0xEF] 19).g.trace = [] := by
  decide

/-! ## The watchdog registers -/

theorem allocated_watchdog {g : Globals} (h : Allocated g) : WatchdogAllocated g := by
  have h1 := h Mapping.mb_watchdog_mapping
  exact ⟨h1.2.2.1, h1.2.2.2.2.2.2.1⟩

theorem sameControl_watchdogReg {g g' : Globals} (h : SameControl g g') (i : Nat) :
    watchdogReg g' i = watchdogReg g i := by
  unfold watchdogReg
  rw [h.2.2.2.2.2.1]

theorem sameControl_watchdogAllocated {g g' : Globals} (h : SameControl g g')
    (hw : WatchdogAllocated g) : WatchdogAllocated g' := by
  unfold WatchdogAllocated
  rw [h.2.2.2.2.2.1]
  exact hw

theorem watchdogReg_set_same (g : Globals) (i v : Nat)
    (h : i < (g.maps Mapping.mb_watchdog_mapping).tab_registers.length) :
    watchdogReg (setWatchdogReg g i v) i = v := by
  simp [watchdogReg, setWatchdogReg, List.getD_eq_getElem?_getD, List.getElem?_set, h]

theorem watchdogReg_set_other (g : Globals) (i j v : Nat) (h : i ≠ j) :
    watchdogReg (setWatchdogReg g i v) j = watchdogReg g j := by
  simp [watchdogReg, setWatchdogReg, List.getD_eq_getElem?_getD, List.getElem?_set, h]

theorem watchdogAllocated_set (g : Globals) (i v : Nat) (h : WatchdogAllocated g) :
    WatchdogAllocated (setWatchdogReg g i v) := by
  unfold WatchdogAllocated at h ⊢
  simp [setWatchdogReg, h]

theorem watchdogAllocated_trigger (g : Globals) (h : WatchdogAllocated g) :
    WatchdogAllocated (modbusWatchdog_trigger g) := h

/-- A single-register write into the watchdog window goes to the watchdog handler. -/
theorem modbus_worker_write_watchdog (env : Env) (s : Server) (q : List Nat) (rc : Nat)
    (hf : reqByte q 7 = _FC_WRITE_SINGLE_REGISTER)
    (ha : 0x1000 ≤ reqWord q 8 ∧ reqWord q 8 ≤ 0x100B) :
    modbus_worker_write env s q rc = modbusWatchdog_parseModbusCommand env s q rc := by
  unfold modbus_worker_write
  simp only [header_length, Nat.reduceAdd]
  rw [if_neg (by rw [hf]; decide), if_pos (Or.inl hf), if_neg (by omega), if_neg (by omega),
    if_pos (by omega), if_pos ha]

/-- The watchdog handler on a single-register write inside the storage, apart from what
it does after the reply for the words 0, 3 and 8: the word is stored and echoed. -/
theorem watchdog_reply_offset_write (env : Env) (s : Server) (q : List Nat) (rc : Nat) (i : Nat)
    (hf : reqByte q 7 = _FC_WRITE_SINGLE_REGISTER)
    (ha : reqWord q 8 = 0x1000 + i) (hi : i < 12)
    (hw : WatchdogAllocated s.g) :
    modbus_reply_offset env s q rc Mapping.mb_watchdog_mapping MODBUSWATCHDOG_REGISTER_START_ADDRESS =
      ⟨setWatchdogReg s.g i (reqWord q 10), s.sent ++ [Reply.copy (q.take rc)]⟩ := by
  rw [reply_offset_write_single_register env s q rc _ _ hf
    (by rw [ha]; unfold MODBUSWATCHDOG_REGISTER_START_ADDRESS; omega)
    (by rw [ha, hw.1]; unfold MODBUSWATCHDOG_REGISTER_START_ADDRESS; omega)]
  have : reqWord q 8 - MODBUSWATCHDOG_REGISTER_START_ADDRESS = i := by
    rw [ha]; unfold MODBUSWATCHDOG_REGISTER_START_ADDRESS; omega
  rw [this]
  rfl

/-- The watchdog handler on a write to word 0 while the watchdog is inactive. -/
theorem watchdog_parse_timeout_inactive (env : Env) (s : Server) (q : List Nat) (rc : Nat)
    (hf : reqByte q 7 = _FC_WRITE_SINGLE_REGISTER)
    (ha : reqWord q 8 = 0x1000)
    (hw : WatchdogAllocated s.g)
    (hi : s.g.modbusWatchdog_active = false) :
    modbusWatchdog_parseModbusCommand env s q rc =
      ⟨modbusWatchdog_setTimeout (setWatchdogReg s.g 0 (reqWord q 10)),
        s.sent ++ [Reply.copy (q.take rc)]⟩ := by
  unfold modbusWatchdog_parseModbusCommand
  simp only [header_length, Nat.reduceAdd, hf, ha, MODBUSWATCHDOG_REGISTER_START_ADDRESS,
    _FC_READ_HOLDING_REGISTERS, _FC_WRITE_SINGLE_REGISTER, Nat.reduceSub, Nat.reduceMod,
    Nat.reduceEqDiff, ↓reduceIte, hi]
  have := watchdog_reply_offset_write env s q rc 0 hf ha (by decide) hw
  unfold MODBUSWATCHDOG_REGISTER_START_ADDRESS at this
  rw [this]
  rfl

/-- The watchdog handler on a write to word 0 while the watchdog is active. -/
theorem watchdog_parse_timeout_active (env : Env) (s : Server) (q : List Nat) (rc : Nat)
    (hf : reqByte q 7 = _FC_WRITE_SINGLE_REGISTER)
    (ha : reqWord q 8 = 0x1000)
    (hact : s.g.modbusWatchdog_active = true) :
    modbusWatchdog_parseModbusCommand env s q rc =
      send_msg s (exceptionReply q MODBUS_EXCEPTION_ILLEGAL_DATA_VALUE) := by
  unfold modbusWatchdog_parseModbusCommand
  simp only [header_length, Nat.reduceAdd, hf, ha, MODBUSWATCHDOG_REGISTER_START_ADDRESS,
    _FC_READ_HOLDING_REGISTERS, _FC_WRITE_SINGLE_REGISTER, Nat.reduceSub, Nat.reduceMod,
    Nat.reduceEqDiff, ↓reduceIte, hact]
  rw [if_neg (by decide)]
  exact modbus_reply_exception_eq s q _ (by decide)

theorem setTimeout_reg0 (g : Globals) :
    watchdogReg (modbusWatchdog_setTimeout g) 0 = watchdogReg g 0 := by
  simp [modbusWatchdog_setTimeout, modbusWatchdog_resetMinimalTime, watchdogReg, setWatchdogReg,
    List.getD_eq_getElem?_getD, List.getElem?_set]

theorem setTimeout_reg4 (g : Globals) (h : WatchdogAllocated g) :
    watchdogReg (modbusWatchdog_setTimeout g) 4 = watchdogReg g 0 := by
  simp [modbusWatchdog_setTimeout, modbusWatchdog_resetMinimalTime, watchdogReg, setWatchdogReg,
    List.getD_eq_getElem?_getD, List.getElem?_set, h.2]

theorem setTimeout_watchdogTimeout (g : Globals) :
    (modbusWatchdog_setTimeout g).watchdogTimeout = watchdogReg g 0 := rfl

theorem setTimeout_active (g : Globals) :
    (modbusWatchdog_setTimeout g).modbusWatchdog_active = g.modbusWatchdog_active := rfl

/-- The dispatcher on a single-register write into the watchdog window. -/
theorem modbus_worker_watchdog_write (env : Env) (s : Server) (q : List Nat) (rc : Nat)
    (hrun : s.g.modbus_ApplicationState = APPLICATION_RUNNING)
    (hf : reqByte q 7 = _FC_WRITE_SINGLE_REGISTER)
    (ha : 0x1000 ≤ reqWord q 8 ∧ reqWord q 8 ≤ 0x100B) :
    modbus_worker env s q rc =
      (modbusWatchdog_parseModbusCommand env ⟨modbusWatchdog_trigger s.g, s.sent⟩ q rc).onGlobals
        (runCallback env.modbus_receivedCallback) := by
  rw [modbus_worker_of_write env s q rc (running_ne_stop hrun) (Or.inr (Or.inr (Or.inl hf))),
    modbus_worker_write_watchdog env _ q rc hf ha]
  rfl

/-- C12: while RUNNING, with a received callback that leaves the watchdog alone, a
write-single-register of V to watchdog word 0 (0x1000) is honoured only while the watchdog
is inactive.  If inactive, the reply is the echo of the request, word 0 is V, the
minimal-trigger word 4 is reset to V and the timeout variable is V.  If active, the reply
is the exception ILLEGAL_DATA_VALUE and words 0 and 4 keep their values. -/
theorem watchdog_timeout_write (env : Env) (s : Server) (q : List Nat) (rc : Nat)
    (hrun : s.g.modbus_ApplicationState = APPLICATION_RUNNING)
    (hw : WatchdogAllocated s.g)
    (hk : KeepsControl env.modbus_receivedCallback)
    (hf : reqByte q 7 = _FC_WRITE_SINGLE_REGISTER)
    (ha : reqWord q 8 = 0x1000) :
    (s.g.modbusWatchdog_active = false →
      (modbus_worker env s q rc).sent = s.sent ++ [Reply.copy (q.take rc)] ∧
        watchdogReg (modbus_worker env s q rc).g 0 = reqWord q 10 ∧
        watchdogReg (modbus_worker env s q rc).g 4 = reqWord q 10 ∧
        (modbus_worker env s q rc).g.watchdogTimeout = reqWord q 10 ∧
        (modbus_worker env s q rc).g.modbusWatchdog_active = false) ∧
    (s.g.modbusWatchdog_active = true →
      (modbus_worker env s q rc).sent =
          s.sent ++ [exceptionReply q MODBUS_EXCEPTION_ILLEGAL_DATA_VALUE] ∧
        watchdogReg (modbus_worker env s q rc).g 0 = watchdogReg s.g 0 ∧
        watchdogReg (modbus_worker env s q rc).g 4 = watchdogReg s.g 4 ∧
        (modbus_worker env s q rc).g.modbusWatchdog_active = true) := by
  have hroute := modbus_worker_watchdog_write env s q rc hrun hf (by rw [ha]; decide)
  have hwt : WatchdogAllocated (modbusWatchdog_trigger s.g) := hw
  refine ⟨?_, ?_⟩
  · intro hi
    have heq : modbus_worker env s q rc =
        ⟨runCallback env.modbus_receivedCallback
          (modbusWatchdog_setTimeout (setWatchdogReg (modbusWatchdog_trigger s.g) 0 (reqWord q 10))),
          s.sent ++ [Reply.copy (q.take rc)]⟩ := by
      rw [hroute, watchdog_parse_timeout_inactive env ⟨modbusWatchdog_trigger s.g, s.sent⟩ q rc hf ha
        hwt hi]
      rfl
    have hc := hk (modbusWatchdog_setTimeout (setWatchdogReg (modbusWatchdog_trigger s.g) 0 (reqWord q 10)))
    have h0 : watchdogReg (setWatchdogReg (modbusWatchdog_trigger s.g) 0 (reqWord q 10)) 0 = reqWord q 10 :=
      watchdogReg_set_same _ _ _ (by rw [hwt.2]; decide)
    have ha0 := watchdogAllocated_set _ 0 (reqWord q 10) hwt
    rw [heq]
    refine ⟨rfl, ?_, ?_, ?_, ?_⟩
    · show watchdogReg (runCallback _ _) 0 = _
      rw [sameControl_watchdogReg hc, setTimeout_reg0, h0]
    · show watchdogReg (runCallback _ _) 4 = _
      rw [sameControl_watchdogReg hc, setTimeout_reg4 _ ha0, h0]
    · show (runCallback _ _).watchdogTimeout = _
      rw [hc.2.2.2.2.1, setTimeout_watchdogTimeout, h0]
    · show (runCallback _ _).modbusWatchdog_active = _
      rw [hc.2.1]
      exact hi
  · intro hact
    have heq : modbus_worker env s q rc =
        ⟨runCallback env.modbus_receivedCallback (modbusWatchdog_trigger s.g),
          s.sent ++ [exceptionReply q MODBUS_EXCEPTION_ILLEGAL_DATA_VALUE]⟩ := by
      rw [hroute, watchdog_parse_timeout_active env ⟨modbusWatchdog_trigger s.g, s.sent⟩ q rc hf ha
        hact]
      rfl
    have hc := hk (modbusWatchdog_trigger s.g)
    rw [heq]
    refine ⟨rfl, ?_, ?_, ?_⟩
    · show watchdogReg (runCallback _ _) 0 = _
      rw [sameControl_watchdogReg hc]
      rfl
    · show watchdogReg (runCallback _ _) 4 = _
      rw [sameControl_watchdogReg hc]
      rfl
    · show (runCallback _ _).modbusWatchdog_active = _
      rw [hc.2.1]
      exact hact

/-- Witness of C12: at start-up (watchdog inactive) the write of 0x0032 to 0x1000 is
echoed and words 0 and 4 read 0x0032 afterwards; on the example with an active watchdog
the same write is answered with ILLEGAL_DATA_VALUE; with `kbus_forceUpdate` registered. -/
theorem watchdog_timeout_write_witness :
    modbus_task_globals.modbus_ApplicationState = APPLICATION_RUNNING ∧
      WatchdogAllocated modbus_task_globals ∧
      modbus_task_globals.modbusWatchdog_active = false ∧
      (modbus_worker registeredEnv ⟨modbus_task_globals, []⟩
        [0, 1, 0, 0, 0, 6, 1, 6, 0x10, 0, 0, 0x32] 12).sent =
        [Reply.copy [0, 1, 0, 0, 0, 6, 1, 6, 0x10, 0, 0, 0x32]] ∧
      watchdogReg (modbus_worker registeredEnv ⟨modbus_task_globals, []⟩
        [0, 1, 0, 0, 0, 6, 1, 6, 0x10, 0, 0, 0x32] 12).g 0 = 0x32 ∧
      watchdogReg (modbus_worker registeredEnv ⟨modbus_task_globals, []⟩
        [0, 1, 0, 0, 0, 6, 1, 6, 0x10, 0, 0, 0x32] 12).g 4 = 0x32 ∧
      exampleActive.modbusWatchdog_active = true ∧
      (modbus_worker registeredEnv ⟨exampleActive, []⟩
        [0, 1, 0, 0, 0, 6, 1, 6, 0x10, 0, 0, 0x32] 12).sent =
        [exceptionReply [0, 1, 0, 0, 0, 6, 1, 6, 0x10, 0, 0, 0x32]
          MODBUS_EXCEPTION_ILLEGAL_DATA_VALUE] :=
  ⟨rfl, by decide, rfl,
    ((watchdog_timeout_write registeredEnv ⟨modbus_task_globals, []⟩
      [0, 1, 0, 0, 0, 6, 1, 6, 0x10, 0, 0, 0x32] 12 rfl (by decide) keepsControl_forceUpdate
      rfl rfl).1 rfl).1,
    ((watchdog_timeout_write registeredEnv ⟨modbus_task_globals, []⟩
      [0, 1, 0, 0, 0, 6, 1, 6, 0x10, 0, 0, 0x32] 12 rfl (by decide) keepsControl_forceUpdate
      rfl rfl).1 rfl).2.1,
    ((watchdog_timeout_write registeredEnv ⟨modbus_task_globals, []⟩
      [0, 1, 0, 0, 0, 6, 1, 6, 0x10, 0, 0, 0x32] 12 rfl (by decide) keepsControl_forceUpdate
      rfl rfl).1 rfl).2.2.1,
    rfl,
    ((watchdog_timeout_write registeredEnv ⟨exampleActive, []⟩
      [0, 1, 0, 0, 0, 6, 1, 6, 0x10, 0, 0, 0x32] 12 rfl (by decide) keepsControl_forceUpdate
      rfl rfl).2 rfl).1⟩

/-- The watchdog handler on a write of `v` to the trigger word 3: the reply is the echo,
word 3 is 0 afterwards, word 0 is untouched; for `v > 0` the watchdog is active and the
countdown is word 0, and word 4 is word 0 if the watchdog was inactive; for `v = 0` the
active flag and the countdown are untouched. -/
theorem watchdog_parse_trigger (env : Env) (s : Server) (q : List Nat) (rc : Nat)
    (hf : reqByte q 7 = _FC_WRITE_SINGLE_REGISTER)
    (ha : reqWord q 8 = 0x1003)
    (hw : WatchdogAllocated s.g) :
    (modbusWatchdog_parseModbusCommand env s q rc).sent = s.sent ++ [Reply.copy (q.take rc)] ∧
      WatchdogAllocated (modbusWatchdog_parseModbusCommand env s q rc).g ∧
      (modbusWatchdog_parseModbusCommand env s q rc).g.modbus_ApplicationState =
        s.g.modbus_ApplicationState ∧
      watchdogReg (modbusWatchdog_parseModbusCommand env s q rc).g 3 = 0 ∧
      watchdogReg (modbusWatchdog_parseModbusCommand env s q rc).g 0 = watchdogReg s.g 0 ∧
      (0 < reqWord q 10 →
        (modbusWatchdog_parseModbusCommand env s q rc).g.modbusWatchdog_active = true ∧
          (modbusWatchdog_parseModbusCommand env s q rc).g.timeout = watchdogReg s.g 0 ∧
          (s.g.modbusWatchdog_active = false →
            watchdogReg (modbusWatchdog_parseModbusCommand env s q rc).g 4 = watchdogReg s.g 0)) ∧
      (reqWord q 10 = 0 →
        (modbusWatchdog_parseModbusCommand env s q rc).g.modbusWatchdog_active =
            s.g.modbusWatchdog_active ∧
          (modbusWatchdog_parseModbusCommand env s q rc).g.timeout = s.g.timeout) := by
  have hro := watchdog_reply_offset_write env s q rc 3 hf ha (by decide) hw
  unfold MODBUSWATCHDOG_REGISTER_START_ADDRESS at hro
  obtain ⟨hw1, hw2⟩ := hw
  unfold modbusWatchdog_parseModbusCommand
  simp only [header_length, Nat.reduceAdd, hf, ha, MODBUSWATCHDOG_REGISTER_START_ADDRESS,
    _FC_READ_HOLDING_REGISTERS, _FC_WRITE_SINGLE_REGISTER, Nat.reduceSub, Nat.reduceMod,
    Nat.reduceEqDiff, ↓reduceIte, hro]
  by_cases hv : 0 < reqWord q 10
  · cases hact : s.g.modbusWatchdog_active <;>
      simp [WatchdogAllocated, watchdogReg, setWatchdogReg, setRegisters, Globals.setMap, modbusWatchdog_start,
        modbusWatchdog_resetMinimalTime, modbusWatchdog_trigger, modbusWatchdog_getTimeout,
        List.getD_eq_getElem?_getD, List.getElem?_set, hw1, hw2, hv, hact,
        Nat.pos_iff_ne_zero.mp hv]
  · have hv0 : reqWord q 10 = 0 := by omega
    simp [WatchdogAllocated, watchdogReg, setWatchdogReg, setRegisters, Globals.setMap, modbusWatchdog_start,
      modbusWatchdog_resetMinimalTime, modbusWatchdog_trigger, modbusWatchdog_getTimeout,
      List.getD_eq_getElem?_getD, List.getElem?_set, hw1, hw2, hv0]

/-- C13: while RUNNING, with a received callback that leaves the watchdog alone, a
write-single-register of v to the trigger word 3 (0x1003) is echoed, leaves word 0
untouched and word 3 at 0, and the countdown equals word 0 afterwards.  If v > 0 the
watchdog is active afterwards, and word 4 equals word 0 if it was inactive before.  If
v = 0 the active flag is unchanged. -/
theorem watchdog_trigger_write (env : Env) (s : Server) (q : List Nat) (rc : Nat)
    (hrun : s.g.modbus_ApplicationState = APPLICATION_RUNNING)
    (hw : WatchdogAllocated s.g)
    (hk : KeepsControl env.modbus_receivedCallback)
    (hf : reqByte q 7 = _FC_WRITE_SINGLE_REGISTER)
    (ha : reqWord q 8 = 0x1003) :
    (modbus_worker env s q rc).sent = s.sent ++ [Reply.copy (q.take rc)] ∧
      watchdogReg (modbus_worker env s q rc).g 3 = 0 ∧
      watchdogReg (modbus_worker env s q rc).g 0 = watchdogReg s.g 0 ∧
      (modbus_worker env s q rc).g.timeout = watchdogReg (modbus_worker env s q rc).g 0 ∧
      (0 < reqWord q 10 →
        (modbus_worker env s q rc).g.modbusWatchdog_active = true ∧
          (s.g.modbusWatchdog_active = false →
            watchdogReg (modbus_worker env s q rc).g 4 =
              watchdogReg (modbus_worker env s q rc).g 0)) ∧
      (reqWord q 10 = 0 →
        (modbus_worker env s q rc).g.modbusWatchdog_active = s.g.modbusWatchdog_active) := by
  have hroute := modbus_worker_watchdog_write env s q rc hrun hf (by rw [ha]; decide)
  have hwt : WatchdogAllocated (modbusWatchdog_trigger s.g) := hw
  obtain ⟨p1, -, -, p4, p5, p6, p7⟩ :=
    watchdog_parse_trigger env ⟨modbusWatchdog_trigger s.g, s.sent⟩ q rc hf ha hwt
  have hc := hk (modbusWatchdog_parseModbusCommand env ⟨modbusWatchdog_trigger s.g, s.sent⟩ q rc).g
  have h0 : watchdogReg (modbus_worker env s q rc).g 0 = watchdogReg s.g 0 := by
    rw [hroute]
    show watchdogReg (runCallback _ _) 0 = _
    rw [sameControl_watchdogReg hc, p5]
    rfl
  have ht : (modbus_worker env s q rc).g.timeout = watchdogReg s.g 0 := by
    rw [hroute]
    show (runCallback _ _).timeout = _
    rw [hc.2.2.2.1]
    by_cases hv : 0 < reqWord q 10
    · rw [(p6 hv).2.1]
      rfl
    · rw [(p7 (by omega)).2]
      rfl
  refine ⟨?_, ?_, h0, ?_, ?_, ?_⟩
  · rw [hroute]
    exact p1
  · rw [hroute]
    show watchdogReg (runCallback _ _) 3 = _
    rw [sameControl_watchdogReg hc, p4]
  · rw [ht, h0]
  · intro hv
    refine ⟨?_, ?_⟩
    · rw [hroute]
      show (runCallback _ _).modbusWatchdog_active = _
      rw [hc.2.1]
      exact (p6 hv).1
    · intro hi
      rw [h0, hroute]
      show watchdogReg (runCallback _ _) 4 = _
      rw [sameControl_watchdogReg hc, (p6 hv).2.2 hi]
      rfl
  · intro hv
    rw [hroute]
    show (runCallback _ _).modbusWatchdog_active = _
    rw [hc.2.1, (p7 hv).1]
    rfl

/-- Witness of C13: at start-up (watchdog inactive, word 0 = 100) the write of 1 to 0x1003
starts the watchdog with a countdown of 100, and word 3 reads 0 afterwards. -/
theorem watchdog_trigger_write_witness :
    modbus_task_globals.modbus_ApplicationState = APPLICATION_RUNNING ∧
      WatchdogAllocated modbus_task_globals ∧
      watchdogReg (modbus_worker registeredEnv ⟨modbus_task_globals, []⟩
        [0, 1, 0, 0, 0, 6, 1, 6, 0x10, 3, 0, 1] 12).g 3 = 0 ∧
      (modbus_worker registeredEnv ⟨modbus_task_globals, []⟩
        [0, 1, 0, 0, 0, 6, 1, 6, 0x10, 3, 0, 1] 12).g.modbusWatchdog_active = true ∧
      (modbus_worker registeredEnv ⟨modbus_task_globals, []⟩
        [0, 1, 0, 0, 0, 6, 1, 6, 0x10, 3, 0, 1] 12).g.timeout = 100 :=
  ⟨rfl, by decide,
    (watchdog_trigger_write registeredEnv ⟨modbus_task_globals, []⟩
      [0, 1, 0, 0, 0, 6, 1, 6, 0x10, 3, 0, 1] 12 rfl (by decide) keepsControl_forceUpdate
      rfl rfl).2.1,
    ((watchdog_trigger_write registeredEnv ⟨modbus_task_globals, []⟩
      [0, 1, 0, 0, 0, 6, 1, 6, 0x10, 3, 0, 1] 12 rfl (by decide) keepsControl_forceUpdate
      rfl rfl).2.2.2.2.1 (by decide)).1,
    ((watchdog_trigger_write registeredEnv ⟨modbus_task_globals, []⟩
      [0, 1, 0, 0, 0, 6, 1, 6, 0x10, 3, 0, 1] 12 rfl (by decide) keepsControl_forceUpdate
      rfl rfl).2.2.2.1).trans
      ((watchdog_trigger_write registeredEnv ⟨modbus_task_globals, []⟩
        [0, 1, 0, 0, 0, 6, 1, 6, 0x10, 3, 0, 1] 12 rfl (by decide) keepsControl_forceUpdate
        rfl rfl).2.2.1.trans (by decide))⟩

/-! ## The stop handshake of the watchdog -/

/-- The watchdog handler on a write of `v` to the stop word 8: the reply is the echo, the
stop flag is set exactly for `v = 0x55AA`, and the watchdog is stopped exactly when the
flag was set and `v = 0xAA55`; no other storage changes. -/
theorem watchdog_parse_stop (env : Env) (s : Server) (q : List Nat) (rc : Nat)
    (hf : reqByte q 7 = _FC_WRITE_SINGLE_REGISTER)
    (ha : reqWord q 8 = 0x1008)
    (hw : WatchdogAllocated s.g) :
    (modbusWatchdog_parseModbusCommand env s q rc).sent = s.sent ++ [Reply.copy (q.take rc)] ∧
      WatchdogAllocated (modbusWatchdog_parseModbusCommand env s q rc).g ∧
      (modbusWatchdog_parseModbusCommand env s q rc).g.modbus_ApplicationState =
        s.g.modbus_ApplicationState ∧
      ((modbusWatchdog_parseModbusCommand env s q rc).g.modbusWatchdog_stopFlag = true ↔
        reqWord q 10 = 0x55AA) ∧
      (modbusWatchdog_parseModbusCommand env s q rc).g.modbusWatchdog_active =
        (if s.g.modbusWatchdog_stopFlag = true ∧ reqWord q 10 = 0xAA55 then false
          else s.g.modbusWatchdog_active) ∧
      (∀ r, r ≠ Mapping.mb_watchdog_mapping →
        (modbusWatchdog_parseModbusCommand env s q rc).g.maps r = s.g.maps r) := by
  have hro := watchdog_reply_offset_write env s q rc 8 hf ha (by decide) hw
  unfold MODBUSWATCHDOG_REGISTER_START_ADDRESS at hro
  obtain ⟨hw1, hw2⟩ := hw
  have h8 : watchdogReg (setWatchdogReg s.g 8 (reqWord q 10)) 8 = reqWord q 10 :=
    watchdogReg_set_same _ _ _ (by rw [hw2]; decide)
  unfold modbusWatchdog_parseModbusCommand
  simp only [header_length, Nat.reduceAdd, hf, ha, MODBUSWATCHDOG_REGISTER_START_ADDRESS,
    _FC_READ_HOLDING_REGISTERS, _FC_WRITE_SINGLE_REGISTER, Nat.reduceSub, Nat.reduceMod,
    Nat.reduceEqDiff, ↓reduceIte, hro, h8]
  by_cases hv : reqWord q 10 = 0x55AA
  · rw [if_pos hv]
    refine ⟨rfl, ?_, rfl, ?_, ?_, ?_⟩
    · simp [WatchdogAllocated, setWatchdogReg, setRegisters, Globals.setMap, hw1, hw2]
    · simp [hv]
    · rw [if_neg (by rw [hv]; simp)]
      rfl
    · intro r hr
      simp [setWatchdogReg, setRegisters, Globals.setMap, Function.update, hr]
  · rw [if_neg hv]
    by_cases h2 : s.g.modbusWatchdog_stopFlag = true ∧ reqWord q 10 = 0xAA55
    · have h2' : (setWatchdogReg s.g 8 (reqWord q 10)).modbusWatchdog_stopFlag = true ∧
          reqWord q 10 = 0xAA55 := h2
      rw [if_pos h2', if_pos h2]
      refine ⟨rfl, ?_, rfl, ?_, rfl, ?_⟩
      · simp [WatchdogAllocated, setWatchdogReg, setRegisters, Globals.setMap,
          modbusWatchdog_stop, hw1, hw2]
      · simp [hv]
      · intro r hr
        simp [setWatchdogReg, setRegisters, Globals.setMap, Function.update, hr,
          modbusWatchdog_stop]
    · have h2' : ¬ ((setWatchdogReg s.g 8 (reqWord q 10)).modbusWatchdog_stopFlag = true ∧
          reqWord q 10 = 0xAA55) := h2
      rw [if_neg h2', if_neg h2]
      refine ⟨rfl, ?_, rfl, ?_, rfl, ?_⟩
      · simp [WatchdogAllocated, setWatchdogReg, setRegisters, Globals.setMap, hw1, hw2]
      · simp [hv]
      · intro r hr
        simp [setWatchdogReg, setRegisters, Globals.setMap, Function.update, hr]

/-- The dispatcher on a write of `v` to the stop word 8, with a received callback that
leaves the watchdog alone. -/
theorem modbus_worker_stop_write (env : Env) (s : Server) (q : List Nat) (rc : Nat)
    (hrun : s.g.modbus_ApplicationState = APPLICATION_RUNNING)
    (hw : WatchdogAllocated s.g)
    (hk : KeepsControl env.modbus_receivedCallback)
    (hq : isStopWrite q) :
    (modbus_worker env s q rc).sent = s.sent ++ [Reply.copy (q.take rc)] ∧
      WatchdogAllocated (modbus_worker env s q rc).g ∧
      (modbus_worker env s q rc).g.modbus_ApplicationState = APPLICATION_RUNNING ∧
      ((modbus_worker env s q rc).g.modbusWatchdog_stopFlag = true ↔ reqWord q 10 = 0x55AA) ∧
      (modbus_worker env s q rc).g.modbusWatchdog_active =
        (if s.g.modbusWatchdog_stopFlag = true ∧ reqWord q 10 = 0xAA55 then false
          else s.g.modbusWatchdog_active) := by
  obtain ⟨hf, ha⟩ := hq
  have hroute := modbus_worker_watchdog_write env s q rc hrun hf (by rw [ha]; decide)
  have hwt : WatchdogAllocated (modbusWatchdog_trigger s.g) := hw
  obtain ⟨p1, p2, p3, p4, p5, -⟩ :=
    watchdog_parse_stop env ⟨modbusWatchdog_trigger s.g, s.sent⟩ q rc hf ha hwt
  have hc := hk (modbusWatchdog_parseModbusCommand env ⟨modbusWatchdog_trigger s.g, s.sent⟩ q rc).g
  rw [hroute]
  refine ⟨p1, sameControl_watchdogAllocated hc p2, ?_, ?_, ?_⟩
  · show (runCallback _ _).modbus_ApplicationState = _
    rw [hc.1, p3]
    exact hrun
  · show (runCallback _ _).modbusWatchdog_stopFlag = true ↔ _
    rw [hc.2.2.1]
    exact p4
  · show (runCallback _ _).modbusWatchdog_active = _
    rw [hc.2.1, p5]
    rfl

theorem serveAll_append_one (env : Env) (s : Server) (qs : List (List Nat)) (q : List Nat) :
    serveAll env s (qs ++ [q]) = modbus_worker env (serveAll env s qs) q q.length := by
  simp [serveAll, List.foldl_append]

/-- After a sequence of writes to the stop word the dispatcher is RUNNING, and the stop
flag is set exactly when the last write of the sequence had the value 0x55AA. -/
theorem serveAll_stop_invariant (env : Env) (s : Server) (qs : List (List Nat))
    (hrun : s.g.modbus_ApplicationState = APPLICATION_RUNNING)
    (hw : WatchdogAllocated s.g)
    (hk : KeepsControl env.modbus_receivedCallback)
    (hflag : s.g.modbusWatchdog_stopFlag = false)
    (hqs : ∀ x ∈ qs, isStopWrite x) :
    (serveAll env s qs).g.modbus_ApplicationState = APPLICATION_RUNNING ∧
      WatchdogAllocated (serveAll env s qs).g ∧
      ((serveAll env s qs).g.modbusWatchdog_stopFlag = true ↔
        qs.getLast?.map (fun x => reqWord x 10) = some 0x55AA) := by
  induction qs using List.reverseRecOn with
  | nil =>
    refine ⟨hrun, hw, ?_⟩
    show s.g.modbusWatchdog_stopFlag = true ↔ _
    rw [hflag]
    simp
  | append_singleton l a ih =>
    obtain ⟨i1, i2, -⟩ := ih (fun x hx => hqs x (List.mem_append_left _ hx))
    have hq : isStopWrite a := hqs a (by simp)
    obtain ⟨-, s2, s3, s4, -⟩ := modbus_worker_stop_write env _ a a.length i1 i2 hk hq
    rw [serveAll_append_one]
    refine ⟨s3, s2, ?_⟩
    rw [s4]
    simp

/-- C14: while RUNNING, with a received callback that leaves the watchdog alone and no
stop pending at the start, after any sequence `qs` of write-single-register requests to
the stop word 8 (0x1008) a further such write `q` stops the watchdog exactly when its
value is 0xAA55 and the last write of `qs` had the value 0x55AA; in every other case the
active flag stays as it is.  In particular the three writes 0x55AA, then a value other
than 0x55AA and 0xAA55, then 0xAA55 leave the active flag as it was. -/
theorem watchdog_stop_handshake (env : Env) (s : Server) (qs : List (List Nat)) (q : List Nat)
    (hrun : s.g.modbus_ApplicationState = APPLICATION_RUNNING)
    (hw : WatchdogAllocated s.g)
    (hk : KeepsControl env.modbus_receivedCallback)
    (hflag : s.g.modbusWatchdog_stopFlag = false)
    (hqs : ∀ x ∈ qs, isStopWrite x)
    (hq : isStopWrite q) :
    (serveAll env s (qs ++ [q])).g.modbusWatchdog_active =
        (if reqWord q 10 = 0xAA55 ∧ qs.getLast?.map (fun x => reqWord x 10) = some 0x55AA
          then false else (serveAll env s qs).g.modbusWatchdog_active) ∧
      (∀ q1 q2 : List Nat, qs = [q1, q2] → reqWord q1 10 = 0x55AA → reqWord q2 10 ≠ 0x55AA →
        reqWord q2 10 ≠ 0xAA55 → reqWord q 10 = 0xAA55 →
          (serveAll env s (qs ++ [q])).g.modbusWatchdog_active = s.g.modbusWatchdog_active) := by
  obtain ⟨i1, i2, i3⟩ := serveAll_stop_invariant env s qs hrun hw hk hflag hqs
  obtain ⟨-, -, -, -, s5⟩ := modbus_worker_stop_write env _ q q.length i1 i2 hk hq
  have hmain : (serveAll env s (qs ++ [q])).g.modbusWatchdog_active =
      (if reqWord q 10 = 0xAA55 ∧ qs.getLast?.map (fun x => reqWord x 10) = some 0x55AA
        then false else (serveAll env s qs).g.modbusWatchdog_active) := by
    rw [serveAll_append_one, s5]
    by_cases hc : reqWord q 10 = 0xAA55 ∧ qs.getLast?.map (fun x => reqWord x 10) = some 0x55AA
    · rw [if_pos hc, if_pos ⟨i3.mpr hc.2, hc.1⟩]
    · rw [if_neg hc, if_neg (fun h => hc ⟨h.2, i3.mp h.1⟩)]
  refine ⟨hmain, ?_⟩
  intro q1 q2 hl h1 h2 h2' h3
  subst hl
  rw [hmain, if_neg (by simp [h2])]
  have hq1 : isStopWrite q1 := hqs q1 (by simp)
  have hq2 : isStopWrite q2 := hqs q2 (by simp)
  obtain ⟨-, a2, a3, -, a5⟩ := modbus_worker_stop_write env s q1 q1.length hrun hw hk hq1
  obtain ⟨-, -, -, -, b5⟩ := modbus_worker_stop_write env _ q2 q2.length a3 a2 hk hq2
  show (modbus_worker env (modbus_worker env s q1 q1.length) q2 q2.length).g.modbusWatchdog_active = _
  rw [b5, if_neg (fun h => h2' h.2), a5, if_neg (fun h => by rw [h1] at h; simp at h)]

/-- Witness of C14: on an active watchdog the writes 0x55AA, 0x0000, 0xAA55 to 0x1008
leave the watchdog active, and the writes 0x55AA, 0xAA55 stop it. -/
theorem watchdog_stop_handshake_witness :
    exampleActive.modbus_ApplicationState = APPLICATION_RUNNING ∧
      WatchdogAllocated exampleActive ∧
      exampleActive.modbusWatchdog_active = true ∧
      (serveAll registeredEnv ⟨exampleActive, []⟩
        ([[0, 1, 0, 0, 0, 6, 1, 6, 0x10, 8, 0x55, 0xAA], [0, 2, 0, 0, 0, 6, 1, 6, 0x10, 8, 0, 0]] ++
          [[0, 3, 0, 0, 0, 6, 1, 6, 0x10, 8, 0xAA, 0x55]])).g.modbusWatchdog_active = true ∧
      (serveAll registeredEnv ⟨exampleActive, []⟩
        ([[0, 1, 0, 0, 0, 6, 1, 6, 0x10, 8, 0x55, 0xAA]] ++
          [[0, 3, 0, 0, 0, 6, 1, 6, 0x10, 8, 0xAA, 0x55]])).g.modbusWatchdog_active = false :=
  ⟨rfl, by decide, rfl,
    (watchdog_stop_handshake registeredEnv ⟨exampleActive, []⟩
      [[0, 1, 0, 0, 0, 6, 1, 6, 0x10, 8, 0x55, 0xAA], [0, 2, 0, 0, 0, 6, 1, 6, 0x10, 8, 0, 0]]
      [0, 3, 0, 0, 0, 6, 1, 6, 0x10, 8, 0xAA, 0x55] rfl (by decide) keepsControl_forceUpdate rfl
      (by decide) (by decide)).2 _ _ rfl (by decide) (by decide) (by decide) (by decide),
    ((watchdog_stop_handshake registeredEnv ⟨exampleActive, []⟩
      [[0, 1, 0, 0, 0, 6, 1, 6, 0x10, 8, 0x55, 0xAA]]
      [0, 3, 0, 0, 0, 6, 1, 6, 0x10, 8, 0xAA, 0x55] rfl (by decide) keepsControl_forceUpdate rfl
      (by decide) (by decide)).1).trans (by decide)⟩

/-- A holding-register read in the watchdog window goes to the watchdog handler. -/
theorem modbus_worker_read_watchdog (env : Env) (s : Server) (q : List Nat) (rc : Nat)
    (hf : reqByte q 7 = _FC_READ_HOLDING_REGISTERS)
    (ha : 0x1000 ≤ reqWord q 8 ∧ reqWord q 8 ≤ 0x100B) :
    modbus_worker_read env s q rc = modbusWatchdog_parseModbusCommand env s q rc := by
  unfold modbus_worker_read
  simp only [header_length, Nat.reduceAdd]
  rw [if_neg (by rw [hf]; decide), if_pos (Or.inr (Or.inl hf)), if_neg (by omega),
    if_neg (by omega), if_pos (by omega), if_pos ha]

/-- The watchdog handler on a read of the status word 6 alone: the active flag is stored
in word 6 and returned, 1 for active and 0 for inactive. -/
theorem watchdog_parse_read_status (env : Env) (s : Server) (q : List Nat) (rc : Nat)
    (hf : reqByte q 7 = _FC_READ_HOLDING_REGISTERS)
    (ha : reqWord q 8 = 0x1006) (hn : reqWord q 10 = 1)
    (hw : WatchdogAllocated s.g) :
    (modbusWatchdog_parseModbusCommand env s q rc).sent =
      s.sent ++ [normalReply q [2, 0, if s.g.modbusWatchdog_active then 1 else 0]] := by
  obtain ⟨hw1, hw2⟩ := hw
  have hs : WatchdogAllocated (modbusWatchdog_setStatus s.g) :=
    watchdogAllocated_set _ _ _ ⟨hw1, hw2⟩
  have h6 : watchdogReg (modbusWatchdog_setStatus s.g) 6 =
      if s.g.modbusWatchdog_active then 1 else 0 :=
    watchdogReg_set_same _ _ _ (by rw [hw2]; decide)
  unfold modbusWatchdog_parseModbusCommand
  simp only [header_length, Nat.reduceAdd, hf, ↓reduceIte]
  rw [reply_offset_read_one_holding env _ q rc _ _ hf hn
    (by rw [ha]; unfold MODBUSWATCHDOG_REGISTER_START_ADDRESS; decide)
    (by rw [ha]; unfold MODBUSWATCHDOG_REGISTER_START_ADDRESS; rw [onGlobals_g, hs.1]; decide)]
  have e : reqWord q 8 - MODBUSWATCHDOG_REGISTER_START_ADDRESS = 6 := by
    rw [ha]; unfold MODBUSWATCHDOG_REGISTER_START_ADDRESS; rfl
  rw [e, send_msg_sent, onGlobals_sent, onGlobals_g]
  have h6' : ((modbusWatchdog_setStatus s.g).maps Mapping.mb_watchdog_mapping).tab_registers.getD 6 0 =
      if s.g.modbusWatchdog_active then 1 else 0 := h6
  rw [h6']
  cases s.g.modbusWatchdog_active <;> rfl

/-- The dispatcher on a read of the status word 6 alone, with a received callback that
leaves the watchdog alone. -/
theorem modbus_worker_read_status (env : Env) (s : Server) (q : List Nat) (rc : Nat)
    (hrun : s.g.modbus_ApplicationState = APPLICATION_RUNNING)
    (hw : WatchdogAllocated s.g)
    (hk : KeepsControl env.modbus_receivedCallback)
    (hf : reqByte q 7 = _FC_READ_HOLDING_REGISTERS)
    (ha : reqWord q 8 = 0x1006) (hn : reqWord q 10 = 1) :
    (modbus_worker env s q rc).sent =
      s.sent ++ [normalReply q [2, 0, if s.g.modbusWatchdog_active then 1 else 0]] := by
  have hc := hk (modbusWatchdog_trigger s.g)
  rw [modbus_worker_of_read env s q rc (running_ne_stop hrun) (Or.inr (Or.inr (Or.inl hf))),
    modbus_worker_read_watchdog env _ q rc hf (by rw [ha]; decide),
    watchdog_parse_read_status env _ q rc hf ha hn
      (sameControl_watchdogAllocated hc (watchdogAllocated_trigger _ hw))]
  have hact : (runCallback env.modbus_receivedCallback (modbusWatchdog_trigger s.g)).modbusWatchdog_active =
      s.g.modbusWatchdog_active := hc.2.1
  simp only [onGlobals_sent, onGlobals_g, hact]

/-- With the mutex free, error code 0 and a successful push, a cycle changes no storage
but the two input register banks. -/
theorem kbus_update_ready_maps (g : Globals) (h : busReady g) (r : Mapping)
    (h1 : r ≠ Mapping.mb_mapping_in) (h2 : r ≠ Mapping.mb_mapping_2_in) :
    (kbus_update g).maps r = g.maps r := by
  obtain ⟨hm, he, hc, hr⟩ := h
  have e1 : (kbus_getError { g with kbus_update_mutex := true }).2 = 0 := he
  have hcopy : ∀ (g0 : Globals) (src : List Nat) (n : Nat),
      (modbus_copy_register_in g0 src n).1.maps r = g0.maps r := by
    intro g0 src n
    unfold modbus_copy_register_in
    simp only
    split_ifs <;> simp [setRegisters, Globals.setMap, Function.update, h1, h2]
  unfold kbus_update
  rw [if_neg (by rw [hm]; decide)]
  dsimp only
  rw [if_neg (by rw [e1]; decide)]
  have e2 : (libpackbus_Push (kbus_getError { g with kbus_update_mutex := true }).1).2 =
      g.bus.pushes.headD ⟨true, true⟩ := rfl
  rw [e2, if_neg (by rw [hc]; decide), if_pos hr]
  show ((modbus_copy_register_in _ _ _).1).maps r = _
  rw [hcopy]
  rfl

/-! ## Expiry of the watchdog -/

theorem modbusWatchdog_task_succ (cb : Option (Globals → Globals)) (n : Nat) (g : Globals) :
    modbusWatchdog_task cb (n + 1) g = modbusWatchdog_task_tick cb (modbusWatchdog_task cb n g) := by
  unfold modbusWatchdog_task
  exact Function.iterate_succ_apply' _ _ _

theorem modbusWatchdog_task_zero (cb : Option (Globals → Globals)) (g : Globals) :
    modbusWatchdog_task cb 0 g = g := rfl

/-- A pass while the watchdog is inactive changes nothing. -/
theorem tick_inactive (cb : Option (Globals → Globals)) (g : Globals)
    (h : g.modbusWatchdog_active = false) : modbusWatchdog_task_tick cb g = g := by
  unfold modbusWatchdog_task_tick
  rw [if_neg (by rw [h]; decide)]

/-- A pass while the watchdog is active with a countdown above 0: the countdown goes down
by one, nothing is called, and only the watchdog storage may change. -/
theorem tick_countdown (cb : Option (Globals → Globals)) (g : Globals)
    (hact : g.modbusWatchdog_active = true) (hpos : 0 < g.timeout) :
    (modbusWatchdog_task_tick cb g).modbusWatchdog_active = true ∧
      (modbusWatchdog_task_tick cb g).timeout = g.timeout - 1 ∧
      (modbusWatchdog_task_tick cb g).trace = g.trace ∧
      (∀ r, r ≠ Mapping.mb_watchdog_mapping → (modbusWatchdog_task_tick cb g).maps r = g.maps r) ∧
      (WatchdogAllocated g → WatchdogAllocated (modbusWatchdog_task_tick cb g)) := by
  unfold modbusWatchdog_task_tick
  rw [if_pos hact, if_pos hpos]
  unfold modbusWatchdog_setMinimalTime
  dsimp only
  split_ifs
  · refine ⟨hact, rfl, rfl, ?_, ?_⟩
    · intro r hr
      simp [setWatchdogReg, setRegisters, Globals.setMap, Function.update, hr]
    · intro hw
      exact watchdogAllocated_set _ _ _ hw
  · exact ⟨hact, rfl, rfl, fun _ _ => rfl, fun hw => hw⟩

theorem watchdogAllocated_stop (g : Globals) (h : WatchdogAllocated g) :
    WatchdogAllocated (modbusWatchdog_stop g) := h

theorem clearAll_maps_output (g : Globals) (r : Mapping) (hr : r ∈ outputBanks) :
    (modbus_clearAllMappings g).maps r = modbus_clearMapping (g.maps r) := by
  simp only [outputBanks, List.mem_cons, List.mem_singleton, List.not_mem_nil, or_false] at hr
  rcases hr with h | h | h | h <;> subst h <;>
    simp [modbus_clearAllMappings, Globals.setMap, Function.update]

/-- The pass that finds an active watchdog with countdown 0: the expiration callback is
called once, it clears the output banks, and the watchdog is stopped. -/
theorem tick_expired (g : Globals)
    (hact : g.modbusWatchdog_active = true) (h0 : g.timeout = 0) (hw : WatchdogAllocated g) :
    (modbusWatchdog_task_tick (some modbusWatchdog_expiredTask) g).modbusWatchdog_active = false ∧
      (modbusWatchdog_task_tick (some modbusWatchdog_expiredTask) g).trace =
        g.trace ++ [Event.watchdogExpired] ∧
      WatchdogAllocated (modbusWatchdog_task_tick (some modbusWatchdog_expiredTask) g) ∧
      (∀ r ∈ outputBanks,
        (modbusWatchdog_task_tick (some modbusWatchdog_expiredTask) g).maps r =
          modbus_clearMapping (g.maps r)) := by
  have hE : modbusWatchdog_task_tick (some modbusWatchdog_expiredTask) g =
      modbusWatchdog_stop
        (modbus_clearAllMappings (g.emit [Event.watchdogExpired])) := by
    unfold modbusWatchdog_task_tick
    rw [if_pos hact, if_neg (by rw [h0]; decide)]
    rfl
  rw [hE]
  refine ⟨rfl, ?_, ?_, ?_⟩
  · show (modbus_clearAllMappings (g.emit [Event.watchdogExpired])).trace = _
    rw [clearAll_trace]
    rfl
  · exact watchdogAllocated_stop _
      (sameControl_watchdogAllocated
        (sameControl_trans (emit_sameControl g _) (clearAll_sameControl _)) hw)
  · intro r hr
    show (modbus_clearAllMappings (g.emit [Event.watchdogExpired])).maps r = _
    rw [clearAll_maps_output _ r hr]
    rfl

/-- The first `timeout` passes on an active watchdog only count down. -/
theorem task_countdown (cb : Option (Globals → Globals)) (g : Globals)
    (hact : g.modbusWatchdog_active = true) (hw : WatchdogAllocated g) (k : Nat) :
    k ≤ g.timeout →
      (modbusWatchdog_task cb k g).modbusWatchdog_active = true ∧
        (modbusWatchdog_task cb k g).timeout = g.timeout - k ∧
        (modbusWatchdog_task cb k g).trace = g.trace ∧
        (∀ r, r ≠ Mapping.mb_watchdog_mapping → (modbusWatchdog_task cb k g).maps r = g.maps r) ∧
        WatchdogAllocated (modbusWatchdog_task cb k g) := by
  induction k with
  | zero =>
    intro _
    exact ⟨hact, rfl, rfl, fun _ _ => rfl, hw⟩
  | succ k ih =>
    intro hk
    obtain ⟨i1, i2, i3, i4, i5⟩ := ih (by omega)
    obtain ⟨t1, t2, t3, t4, t5⟩ := tick_countdown cb (modbusWatchdog_task cb k g) i1 (by omega)
    rw [modbusWatchdog_task_succ]
    refine ⟨t1, by rw [t2, i2]; omega, by rw [t3, i3], ?_, t5 i5⟩
    intro r hr
    rw [t4 r hr, i4 r hr]

theorem memset0_all (tab : List Nat) (n : Nat) (h : tab.length = n) :
    ∀ x ∈ memset0 tab n, x = 0 := by
  intro x hx
  unfold memset0 at hx
  rw [List.drop_of_length_le (by omega), List.append_nil] at hx
  exact List.eq_of_mem_replicate hx

theorem allocated_output_sizes (g : Globals) (h : Allocated g) (r : Mapping) :
    (g.maps r).tab_registers.length = (g.maps r).nb_registers ∧
      (g.maps r).tab_bits.length = bitmapSize (g.maps r).nb_bits := by
  obtain ⟨h1, -, h3, -, h5, -, h7, -⟩ := h r
  rw [h1, h3, h5, h7]
  cases r <;> simp [modbus_task_maps, modbus_mapping_new]

/-- C16: from an active watchdog with countdown T and allocated storages, with no request
in between, the first T passes of the watchdog task (one per 100 ms) only count down: the
watchdog stays active and the expiration callback is not called.  Pass T + 1 calls the
callback once: afterwards the watchdog is inactive, so the status word 6 is 0 once
`modbusWatchdog_setStatus` has stored the flag, and every word and coil byte of the four
output banks is 0.  Further passes change nothing. -/
theorem watchdog_expiry (g : Globals) (T : Nat)
    (hact : g.modbusWatchdog_active = true)
    (ht : g.timeout = T)
    (hall : Allocated g) :
    (∀ k, k ≤ T →
      (modbusWatchdog_task (some modbusWatchdog_expiredTask) k g).modbusWatchdog_active = true ∧
        (modbusWatchdog_task (some modbusWatchdog_expiredTask) k g).timeout = T - k ∧
        (modbusWatchdog_task (some modbusWatchdog_expiredTask) k g).trace = g.trace ∧
        (∀ r ∈ outputBanks,
          (modbusWatchdog_task (some modbusWatchdog_expiredTask) k g).maps r = g.maps r)) ∧
      ((modbusWatchdog_task (some modbusWatchdog_expiredTask) (T + 1) g).modbusWatchdog_active = false ∧
        (modbusWatchdog_task (some modbusWatchdog_expiredTask) (T + 1) g).trace =
          g.trace ++ [Event.watchdogExpired] ∧
        watchdogReg (modbusWatchdog_setStatus
          (modbusWatchdog_task (some modbusWatchdog_expiredTask) (T + 1) g)) 6 = 0 ∧
        (∀ r ∈ outputBanks,
          bankCleared ((modbusWatchdog_task (some modbusWatchdog_expiredTask) (T + 1) g).maps r))) ∧
      (∀ k, T + 1 ≤ k →
        modbusWatchdog_task (some modbusWatchdog_expiredTask) k g =
          modbusWatchdog_task (some modbusWatchdog_expiredTask) (T + 1) g) := by
  have hw := allocated_watchdog hall
  have hne : ∀ r ∈ outputBanks, r ≠ Mapping.mb_watchdog_mapping := by decide
  have hcd := task_countdown (some modbusWatchdog_expiredTask) g hact hw
  obtain ⟨e1, e2, e3, e4, e5⟩ := hcd T (by omega)
  obtain ⟨x1, x2, x3, x4⟩ := tick_expired _ e1 (by rw [e2, ht]; omega) e5
  rw [← modbusWatchdog_task_succ] at x1 x2 x3 x4
  refine ⟨?_, ⟨x1, ?_, ?_, ?_⟩, ?_⟩
  · intro k hk
    obtain ⟨c1, c2, c3, c4, -⟩ := hcd k (by omega)
    exact ⟨c1, by rw [c2, ht], c3, fun r hr => c4 r (hne r hr)⟩
  · rw [x2, e3]
  · unfold modbusWatchdog_setStatus
    rw [watchdogReg_set_same _ _ _ (by rw [x3.2]; decide), x1]
    simp
  · intro r hr
    rw [x4 r hr, e4 r (hne r hr)]
    obtain ⟨s1, s2⟩ := allocated_output_sizes g hall r
    exact ⟨memset0_all _ _ s1, memset0_all _ _ s2⟩
  · intro k hk
    obtain ⟨d, rfl⟩ := Nat.exists_eq_add_of_le hk
    induction d with
    | zero => rw [Nat.add_zero]
    | succ d ih =>
      rw [← Nat.add_assoc, modbusWatchdog_task_succ, ih (by omega), tick_inactive _ _ x1]

/-- Witness of C16: on the example with countdown 2 and 7 in every word of PD-OUT-1 the
watchdog is still active after two passes, and the third pass calls the expiration
callback, stops the watchdog and clears PD-OUT-1. -/
theorem watchdog_expiry_witness :
    exampleCountdown.modbusWatchdog_active = true ∧ exampleCountdown.timeout = 2 ∧
      Allocated exampleCountdown ∧
      ((exampleCountdown.maps Mapping.mb_mapping_write).tab_registers.take 2 = [7, 7]) ∧
      (modbusWatchdog_task (some modbusWatchdog_expiredTask) 2 exampleCountdown).modbusWatchdog_active =
        true ∧
      (modbusWatchdog_task (some modbusWatchdog_expiredTask) (2 + 1) exampleCountdown).modbusWatchdog_active =
        false ∧
      (modbusWatchdog_task (some modbusWatchdog_expiredTask) (2 + 1) exampleCountdown).trace =
        exampleCountdown.trace ++ [Event.watchdogExpired] ∧
      bankCleared ((modbusWatchdog_task (some modbusWatchdog_expiredTask) (2 + 1) exampleCountdown).maps
        Mapping.mb_mapping_write) :=
  ⟨rfl, rfl, fun r => by cases r <;> decide, by decide,
    ((watchdog_expiry exampleCountdown 2 rfl rfl (fun r => by cases r <;> decide)).1 2
      (by decide)).1,
    (watchdog_expiry exampleCountdown 2 rfl rfl (fun r => by cases r <;> decide)).2.1.1,
    (watchdog_expiry exampleCountdown 2 rfl rfl (fun r => by cases r <;> decide)).2.1.2.1,
    (watchdog_expiry exampleCountdown 2 rfl rfl (fun r => by cases r <;> decide)).2.1.2.2.2
      Mapping.mb_mapping_write (by decide)⟩

/-! ## The read routing in full -/

/-- C27: for every address a, `modbus_getReadMapping` returns PD-IN-1 with index a for
a ≤ 255, the write bank PD-OUT-1 with index a - 512 for 512 ≤ a ≤ 767, PD-IN-2 with index
a - 0x6000 for 0x6000 ≤ a ≤ 0x62FB, PD-OUT-2 with index a - 0x7000 for 0x7000 ≤ a ≤ 0x72FB,
and no bank with the address unchanged otherwise; an index returned with a bank is below
the number of registers the bank is allocated with (256 or 764). -/
theorem modbus_getReadMapping_spec (a : Nat) :
    (a ≤ 255 → modbus_getReadMapping a = (some Mapping.mb_mapping_in, a)) ∧
      (512 ≤ a ∧ a ≤ 767 → modbus_getReadMapping a = (some Mapping.mb_mapping_write, a - 512)) ∧
      (0x6000 ≤ a ∧ a ≤ 0x62FB →
        modbus_getReadMapping a = (some Mapping.mb_mapping_2_in, a - 0x6000)) ∧
      (0x7000 ≤ a ∧ a ≤ 0x72FB →
        modbus_getReadMapping a = (some Mapping.mb_mapping_2_write, a - 0x7000)) ∧
      (¬ (a ≤ 255 ∨ (512 ≤ a ∧ a ≤ 767) ∨ (0x6000 ≤ a ∧ a ≤ 0x62FB) ∨
          (0x7000 ≤ a ∧ a ≤ 0x72FB)) →
        modbus_getReadMapping a = (none, a)) ∧
      (∀ m i, modbus_getReadMapping a = (some m, i) →
        i < (modbus_task_maps m).nb_registers ∧
          ((m = Mapping.mb_mapping_in ∨ m = Mapping.mb_mapping_write) ∧
              (modbus_task_maps m).nb_registers = 256 ∨
            (m = Mapping.mb_mapping_2_in ∨ m = Mapping.mb_mapping_2_write) ∧
              (modbus_task_maps m).nb_registers = 764)) := by
  unfold modbus_getReadMapping
  simp only
  refine ⟨?_, ?_, ?_, ?_, ?_, ?_⟩
  · intro h
    rw [if_pos h]
  · intro h
    rw [if_neg (by omega), if_pos h]
  · intro h
    rw [if_neg (by omega), if_neg (by omega), if_pos h]
  · intro h
    rw [if_neg (by omega), if_neg (by omega), if_neg (by omega), if_pos h]
  · intro h
    rw [if_neg (by omega), if_neg (by omega), if_neg (by omega), if_neg (by omega)]
  · intro m i h
    split_ifs at h
    all_goals simp only [Prod.mk.injEq, Option.some.injEq, reduceCtorEq, false_and] at h
    all_goals obtain ⟨hm, hi⟩ := h
    all_goals subst hm
    all_goals subst hi
    · exact ⟨by show a < 256; omega, Or.inl ⟨Or.inl rfl, rfl⟩⟩
    · exact ⟨by show a - 512 < 256; omega, Or.inl ⟨Or.inr rfl, rfl⟩⟩
    · exact ⟨by show a - 0x6000 < 764; omega, Or.inr ⟨Or.inl rfl, rfl⟩⟩
    · exact ⟨by show a - 0x7000 < 764; omega, Or.inr ⟨Or.inr rfl, rfl⟩⟩

/-! ## A cycle that finds the mutex held -/

theorem kbus_forceUpdate_mutex_held (g : Globals) (h : g.kbus_update_mutex = true)
    (hm : g.conf_operation_mode ≠ 0) :
    (kbus_forceUpdate g).trace =
      g.trace ++ [Event.timer_settime TimerArg.addressOfHandle 0,
        Event.timer_settime TimerArg.addressOfHandle g.conf_kbus_cycle_ms] := by
  have h1 : (kbus_timerSetTime g TimerArg.addressOfHandle 0).kbus_update_mutex = true := h
  have e : kbus_update (kbus_timerSetTime g TimerArg.addressOfHandle 0) =
      kbus_timerSetTime g TimerArg.addressOfHandle 0 := by
    unfold kbus_update
    rw [if_pos h1]
  unfold kbus_forceUpdate
  rw [if_pos hm]
  dsimp only
  rw [e]
  simp [kbus_timerSetTime, Globals.emit]

/-- C22: with the mutex of the cycle held at entry, `kbus_update` returns the state it
was given: no call leaves the program (no push), `pd_in`, `pd_out` and every storage are
unchanged, and the mutex is still held.  A forced update that arrives then makes its two
timer calls and no driver call. -/
theorem kbus_update_mutex_held (g : Globals) (h : g.kbus_update_mutex = true) :
    kbus_update g = g ∧ (kbus_update g).trace = g.trace ∧
      (kbus_update g).kbus_update_mutex = true ∧
      (g.conf_operation_mode ≠ 0 →
        (kbus_forceUpdate g).trace =
          g.trace ++ [Event.timer_settime TimerArg.addressOfHandle 0,
            Event.timer_settime TimerArg.addressOfHandle g.conf_kbus_cycle_ms]) := by
  have e : kbus_update g = g := by
    unfold kbus_update
    rw [if_pos h]
  rw [e]
  exact ⟨rfl, rfl, h, kbus_forceUpdate_mutex_held g h⟩

/-- Witness of C22: on the example coupler with the mutex held a cycle records no call,
and a forced update records its two timer calls only. -/
theorem kbus_update_mutex_held_witness :
    exampleBusy.kbus_update_mutex = true ∧ kbus_update exampleBusy = exampleBusy ∧
      (kbus_update exampleBusy).trace = [] ∧
      (kbus_forceUpdate exampleBusy).trace =
        [Event.timer_settime TimerArg.addressOfHandle 0,
          Event.timer_settime TimerArg.addressOfHandle 50] :=
  ⟨rfl, (kbus_update_mutex_held exampleBusy rfl).1, (kbus_update_mutex_held exampleBusy rfl).2.1,
    (kbus_update_mutex_held exampleBusy rfl).2.2.2 (by decide)⟩

/-! ## The copy of the input process image -/

theorem copyWords_succ (dest source : List Nat) (start n : Nat) :
    copyWords dest source start (n + 1) =
      (copyWords dest source start n).set n (source.getD (start + n) 0) := by
  simp [copyWords, List.range_succ, List.foldl_append]

theorem copyWords_length (dest source : List Nat) (start n : Nat) :
    (copyWords dest source start n).length = dest.length := by
  induction n with
  | zero => simp [copyWords]
  | succ n ih => rw [copyWords_succ, List.length_set, ih]

/-- Word `i` after the `memcpy` of `n` words: the source word `start + i` inside the part
copied, the old word outside it. -/
theorem copyWords_getD (dest source : List Nat) (start n i : Nat) :
    (copyWords dest source start n).getD i 0 =
      if i < n ∧ i < dest.length then source.getD (start + i) 0 else dest.getD i 0 := by
  induction n with
  | zero => simp [copyWords]
  | succ n ih =>
    rw [copyWords_succ, List.getD_eq_getElem?_getD, List.getElem?_set, copyWords_length]
    by_cases hni : n = i
    · subst hni
      by_cases hl : n < dest.length
      · simp [hl]
      · simp [hl, List.getD_eq_getElem?_getD, List.getElem?_eq_none (Nat.le_of_not_lt hl)]
    · rw [if_neg hni, ← List.getD_eq_getElem?_getD, ih]
      by_cases h1 : i < n ∧ i < dest.length
      · rw [if_pos h1, if_pos ⟨by omega, h1.2⟩]
      · rw [if_neg h1, if_neg (by omega)]

/-- What `modbus_copy_register_in` does for a count it accepts: it returns min(n, 256),
word i of PD-IN-1 is source word i for i < min(n, 256), and word j of PD-IN-2 is source
word 512 + j for j < n - 256; the other words of both banks are unchanged. -/
theorem modbus_copy_register_in_words (g : Globals) (source : List Nat) (n : Nat)
    (hinit : g.modbus_initialized = true)
    (hn : n ≤ MODBUS_OUTREGISTER_COUNT + MODBUS_OUTREGISTER_2_COUNT)
    (hall : Allocated g) :
    (modbus_copy_register_in g source n).2 = min n 256 ∧
      (∀ i, ((modbus_copy_register_in g source n).1.maps Mapping.mb_mapping_in).tab_registers.getD i 0 =
        if i < min n 256 then source.getD i 0
        else (g.maps Mapping.mb_mapping_in).tab_registers.getD i 0) ∧
      (∀ j, ((modbus_copy_register_in g source n).1.maps Mapping.mb_mapping_2_in).tab_registers.getD j 0 =
        if j < n - 256 then source.getD (512 + j) 0
        else (g.maps Mapping.mb_mapping_2_in).tab_registers.getD j 0) := by
  have l1 : (g.maps Mapping.mb_mapping_in).tab_registers.length = 256 := by
    rw [(hall Mapping.mb_mapping_in).2.2.2.2.2.2.1]
    simp [modbus_task_maps, modbus_mapping_new, MODBUS_OUTREGISTER_COUNT]
  have l2 : (g.maps Mapping.mb_mapping_2_in).tab_registers.length = 764 := by
    rw [(hall Mapping.mb_mapping_2_in).2.2.2.2.2.2.1]
    simp [modbus_task_maps, modbus_mapping_new, MODBUS_OUTREGISTER_2_COUNT]
  unfold MODBUS_OUTREGISTER_COUNT MODBUS_OUTREGISTER_2_COUNT at hn
  unfold modbus_copy_register_in
  simp only [ MODBUS_OUTREGISTER_COUNT, MODBUS_OUTREGISTER_2_COUNT]
  rw [if_neg (by omega), if_neg (by rw [hinit]; decide)]
  by_cases hb : n > 256
  · simp only [hb, if_true]
    rw [if_pos (by omega)]
    refine ⟨by simp; omega, ?_, ?_⟩
    · intro i
      rw [setRegisters_maps_other _ _ _ _ (by decide), setRegisters_maps_same]
      simp only
      rw [copyWords_getD, l1]
      by_cases hi : i < 256
      · rw [if_pos ⟨hi, hi⟩, if_pos (by omega), Nat.zero_add]
      · rw [if_neg (by omega), if_neg (by omega)]
    · intro j
      rw [setRegisters_maps_same]
      simp only
      rw [copyWords_getD, setRegisters_maps_other _ _ _ _ (by decide), l2]
      by_cases hj : j < n - 256
      · rw [if_pos ⟨hj, by omega⟩, if_pos hj]
      · rw [if_neg (by omega), if_neg hj]
  · simp only [hb, if_false]
    rw [if_neg (by omega)]
    refine ⟨by simp; omega, ?_, ?_⟩
    · intro i
      rw [setRegisters_maps_same]
      simp only
      rw [copyWords_getD, l1]
      by_cases hi : i < n
      · rw [if_pos ⟨hi, by omega⟩, if_pos (by omega), Nat.zero_add]
      · rw [if_neg (by omega), if_neg (by omega)]
    · intro j
      rw [setRegisters_maps_other _ _ _ _ (by decide), if_neg (by omega)]

/-- C21, evaluated on the code: with 258 words to copy from an image whose word i holds
i + 1, `modbus_copy_register_in` returns 256 and fills PD-IN-1 from word 0 on, but the
two words it stores in PD-IN-2 are the image words 512 and 513 (values 513, 514), not
the words 256 and 257 (values 257, 258): the start of the second part is advanced by
`256 * sizeof(uint16_t)` words.  A count above 1020 is refused with -2 and nothing is
stored. -/
theorem copy_register_in_second_bank_offset :
    exampleInputImage.getD 256 0 = 257 ∧ exampleInputImage.getD 512 0 = 513 ∧
      (modbus_copy_register_in modbus_task_globals exampleInputImage 258).2 = 256 ∧
      ((modbus_copy_register_in modbus_task_globals exampleInputImage 258).1.maps
        Mapping.mb_mapping_in).tab_registers.take 3 = [1, 2, 3] ∧
      ((modbus_copy_register_in modbus_task_globals exampleInputImage 258).1.maps
        Mapping.mb_mapping_2_in).tab_registers.take 3 = [513, 514, 0] ∧
      ((modbus_copy_register_in modbus_task_globals exampleInputImage 258).1.maps
        Mapping.mb_mapping_2_in).tab_registers.getD 0 0 ≠ exampleInputImage.getD 256 0 ∧
      (modbus_copy_register_in modbus_task_globals exampleInputImage 1021).2 = -2 ∧
      ((modbus_copy_register_in modbus_task_globals exampleInputImage 1021).1.maps
        Mapping.mb_mapping_in).tab_registers.take 3 = [0, 0, 0] := by
  decide

/-! ## The copy of the output banks -/

/-- C29, on the code: for every destination size n that `modbus_copy_register_out`
accepts when initialised (n ≥ 2040) it returns 512 and the destination becomes the 512
bytes of PD-OUT-1, then n - 512 bytes loaded from the byte view of PD-OUT-2 at the
positions 0 to n - 513, then the old bytes from n on.  The count of bytes loaded from
PD-OUT-2 is n - 512, which is above the 1528 bytes of its table for every n > 2040; for
n = 4096 it is 3584. -/
theorem modbus_copy_register_out_loads (g : Globals) (dest : List Nat) (n : Nat)
    (hinit : g.modbus_initialized = true)
    (hn : (MODBUS_OUTREGISTER_COUNT + MODBUS_OUTREGISTER_2_COUNT) * 2 ≤ n) :
    modbus_copy_register_out g dest n =
      ((List.range 512).map (fun i => regByteGet (g.maps Mapping.mb_mapping_write).tab_registers i) ++
        (List.range (n - 512)).map
          (fun i => regByteGet (g.maps Mapping.mb_mapping_2_write).tab_registers i) ++
        dest.drop n, 512) ∧
      ((List.range (n - 512)).map
        (fun i => regByteGet (g.maps Mapping.mb_mapping_2_write).tab_registers i)).length = n - 512 ∧
      (2040 < n → MODBUS_OUTREGISTER_2_COUNT * 2 < n - 512) := by
  unfold MODBUS_OUTREGISTER_COUNT MODBUS_OUTREGISTER_2_COUNT at hn
  refine ⟨?_, by simp, ?_⟩
  · unfold modbus_copy_register_out
    simp only [ MODBUS_OUTREGISTER_COUNT, MODBUS_OUTREGISTER_2_COUNT]
    rw [if_neg (by omega), if_neg (by rw [hinit]; decide)]
    have h1 : n > 256 * 2 := by omega
    simp only [h1, if_true]
    rw [show 256 * 2 + (n - 256 * 2) = n by omega]
    rfl
  · intro h
    unfold MODBUS_OUTREGISTER_2_COUNT
    omega

/-- Witness of C29 on the size the cycle engine passes: with 4096 bytes of 0xAA as
destination and 0xFFFF in every word of PD-OUT-2, 3584 bytes are loaded from PD-OUT-2,
whose table has 1528 bytes; the bytes 2038 and 2039 of the result are the last two bytes
of the table, and the bytes 2040 and 2041, loaded past its end, replace the 0xAA there. -/
theorem modbus_copy_register_out_loads_witness :
    exampleOutputs.modbus_initialized = true ∧
      (MODBUS_OUTREGISTER_COUNT + MODBUS_OUTREGISTER_2_COUNT) * 2 ≤ 4096 ∧
      ((exampleOutputs.maps Mapping.mb_mapping_2_write).tab_registers.length = 764) ∧
      ((List.range (4096 - 512)).map
        (fun i => regByteGet (exampleOutputs.maps Mapping.mb_mapping_2_write).tab_registers i)).length =
        4096 - 512 ∧
      MODBUS_OUTREGISTER_2_COUNT * 2 < 4096 - 512 ∧
      (List.range 4).map (fun k =>
        (modbus_copy_register_out exampleOutputs (List.replicate 4096 0xAA) 4096).1.getD (2038 + k) 0xAA) =
        [0xFF, 0xFF, 0, 0] :=
  ⟨rfl, by decide, by decide,
    (modbus_copy_register_out_loads exampleOutputs (List.replicate 4096 0xAA) 4096 rfl
      (by decide)).2.1,
    (modbus_copy_register_out_loads exampleOutputs (List.replicate 4096 0xAA) 4096 rfl
      (by decide)).2.2 (by decide),
    by decide⟩

/-! ## Register indices of a write-and-read request -/

/-- C28, evaluated on the code: the write-and-read request "read 1 word at address 0,
write 2 words at address 255" has quantities in range and a bank for either half; its
write half starts at index 255 of PD-OUT-1, which has 256 registers, so the second word
goes to index 256.  The request is not refused: the reply is the normal one and word 255
is stored.  Likewise "read 2 words at address 767, write 1 word at address 512" loads the
indices 255 and 256 of PD-OUT-1 for its reply of 4 data bytes. -/
theorem write_and_read_index_unchecked :
    rwQuantitiesInRange [0, 1, 0, 0, 0, 15, 1, 0x17, 0, 0, 0, 1, 0, 0xFF, 0, 2, 4, 0x11, 0x11, 0x22, 0x22] ∧
      modbus_getReadMapping (reqWord [0, 1, 0, 0, 0, 15, 1, 0x17, 0, 0, 0, 1, 0, 0xFF, 0, 2, 4, 0x11, 0x11, 0x22, 0x22] 8) =
        (some Mapping.mb_mapping_in, 0) ∧
      modbus_getWriteMapping (reqWord [0, 1, 0, 0, 0, 15, 1, 0x17, 0, 0, 0, 1, 0, 0xFF, 0, 2, 4, 0x11, 0x11, 0x22, 0x22] 12) =
        (some Mapping.mb_mapping_write, 255) ∧
      (modbus_task_globals.maps Mapping.mb_mapping_write).nb_registers = 256 ∧
      (modbus_task_globals.maps Mapping.mb_mapping_write).tab_registers.length = 256 ∧
      255 + reqWord [0, 1, 0, 0, 0, 15, 1, 0x17, 0, 0, 0, 1, 0, 0xFF, 0, 2, 4, 0x11, 0x11, 0x22, 0x22] 14 - 1 = 256 ∧
      (modbus_worker exampleEnv ⟨modbus_task_globals, []⟩
        [0, 1, 0, 0, 0, 15, 1, 0x17, 0, 0, 0, 1, 0, 0xFF, 0, 2, 4, 0x11, 0x11, 0x22, 0x22] 21).sent =
        [normalReply [0, 1, 0, 0, 0, 15, 1, 0x17, 0, 0, 0, 1, 0, 0xFF, 0, 2, 4, 0x11, 0x11, 0x22, 0x22]
          [2, 0, 0]] ∧
      ((modbus_worker exampleEnv ⟨modbus_task_globals, []⟩
        [0, 1, 0, 0, 0, 15, 1, 0x17, 0, 0, 0, 1, 0, 0xFF, 0, 2, 4, 0x11, 0x11, 0x22, 0x22] 21).g.maps
          Mapping.mb_mapping_write).tab_registers.getD 255 0 = 0x1111 ∧
      rwQuantitiesInRange [0, 2, 0, 0, 0, 13, 1, 0x17, 2, 0xFF, 0, 2, 2, 0, 0, 1, 2, 0xBE, 0xEF] ∧
      modbus_getReadMapping (reqWord [0, 2, 0, 0, 0, 13, 1, 0x17, 2, 0xFF, 0, 2, 2, 0, 0, 1, 2, 0xBE, 0xEF] 8) =
        (some Mapping.mb_mapping_write, 255) ∧
      255 + reqWord [0, 2, 0, 0, 0, 13, 1, 0x17, 2, 0xFF, 0, 2, 2, 0, 0, 1, 2, 0xBE, 0xEF] 10 - 1 = 256 ∧
      (modbus_worker exampleEnv ⟨modbus_task_globals, []⟩
        [0, 2, 0, 0, 0, 13, 1, 0x17, 2, 0xFF, 0, 2, 2, 0, 0, 1, 2, 0xBE, 0xEF] 19).sent =
        [normalReply [0, 2, 0, 0, 0, 13, 1, 0x17, 2, 0xFF, 0, 2, 2, 0, 0, 1, 2, 0xBE, 0xEF]
          [4, 0, 0, 0, 0]] := by
  decide

/-! ## The cycle body -/

theorem copy_register_in_maps_congr (g g' : Globals) (source : List Nat) (n : Nat)
    (hm : g.maps = g'.maps) (hi : g.modbus_initialized = g'.modbus_initialized) :
    (modbus_copy_register_in g source n).1.maps = (modbus_copy_register_in g' source n).1.maps := by
  unfold modbus_copy_register_in
  simp only [hi]
  split_ifs <;> simp [setRegisters, Globals.setMap, hm]

theorem copy_register_in_pd (g : Globals) (source : List Nat) (n : Nat) :
    (modbus_copy_register_in g source n).1.pd_in = g.pd_in ∧
      (modbus_copy_register_in g source n).1.pd_out = g.pd_out := by
  unfold modbus_copy_register_in
  simp only
  split_ifs <;> exact ⟨rfl, rfl⟩

/-- The state a cycle leaves when it can run at once: `pd_out` is the copy of the output
banks, `pd_in` is what the bus delivered, the storages are those after the copy of `pd_in`
into the input banks, and the mutex is free. -/
theorem kbus_update_ready_state (g : Globals) (h : busReady g) :
    (kbus_update g).pd_out = (modbus_copy_register_out g g.pd_out 4096).1 ∧
      (kbus_update g).pd_in = readInputImage g ∧
      (kbus_update g).maps =
        (modbus_copy_register_in g (wordsOfBytes (readInputImage g))
          (kbus_mapBitCountToWordRegister (kbus_getBitCount_Input g))).1.maps ∧
      (kbus_update g).kbus_update_mutex = false := by
  obtain ⟨hm, he, hc, hr⟩ := h
  have e1 : (kbus_getError { g with kbus_update_mutex := true }).2 = 0 := he
  have e2 : (libpackbus_Push (kbus_getError { g with kbus_update_mutex := true }).1).2 =
      g.bus.pushes.headD ⟨true, true⟩ := rfl
  unfold kbus_update
  rw [if_neg (by rw [hm]; decide)]
  dsimp only
  rw [if_neg (by rw [e1]; decide), e2, if_neg (by rw [hc]; decide), if_pos hr]
  refine ⟨?_, ?_, ?_, by simp⟩
  · show ((modbus_copy_register_in _ _ _).1).pd_out = _
    rw [(copy_register_in_pd _ _ _).2]
    simp [Globals.emit, kbus_getError, libpackbus_Push, modbus_copy_register_out]
  · show ((modbus_copy_register_in _ _ _).1).pd_in = _
    rw [(copy_register_in_pd _ _ _).1]
    simp [Globals.emit, kbus_getError, libpackbus_Push, readInputImage]
  · show ((modbus_copy_register_in _ _ _).1).maps = _
    refine (copy_register_in_maps_congr _ g _ _
      (by simp [Globals.emit, kbus_getError, libpackbus_Push])
      (by simp [Globals.emit, kbus_getError, libpackbus_Push])).trans ?_
    simp [Globals.emit, kbus_getError, libpackbus_Push, readInputImage, kbus_getBitCount_Input]

theorem loop_body_facts (g : Globals) :
    (kbus_getError (((libpackbus_Push g).1).emit [Event.WatchdogTrigger])).2 =
        g.bus.errorCodes.headD 0 ∧
      (kbus_getError (((libpackbus_Push g).1).emit [Event.WatchdogTrigger])).1.trace =
        g.trace ++ [Event.libpackbus_Push, Event.WatchdogTrigger, Event.KbusInfo_GetStatus] ∧
      (kbus_getError (((libpackbus_Push g).1).emit [Event.WatchdogTrigger])).1.bus.errorCodes =
        g.bus.errorCodes.tail ∧
      (kbus_getError (((libpackbus_Push g).1).emit [Event.WatchdogTrigger])).1.maps = g.maps := by
  simp [kbus_getError, libpackbus_Push, Globals.emit]

/-- The recovery loop makes the calls of `recoveryEvents` on the error codes to come and
changes no storage. -/
theorem loop_passes_trace (n : Nat) :
    ∀ g : Globals, g.bus.errorCodes.length ≤ n →
      (kbus_loopTilErrorGone_passes n g).trace = g.trace ++ recoveryEvents g.bus.errorCodes ∧
        (kbus_loopTilErrorGone_passes n g).maps = g.maps := by
  induction n with
  | zero =>
    intro g hl
    obtain ⟨-, b2, -, b4⟩ := loop_body_facts g
    have hnil : g.bus.errorCodes = [] := List.length_eq_zero.mp (Nat.le_zero.mp hl)
    simp only [kbus_loopTilErrorGone_passes]
    rw [b2, b4, hnil]
    exact ⟨rfl, rfl⟩
  | succ n ih =>
    intro g hl
    obtain ⟨b1, b2, b3, b4⟩ := loop_body_facts g
    simp only [kbus_loopTilErrorGone_passes]
    rw [b1]
    rcases hc : g.bus.errorCodes with _ | ⟨c, cs⟩
    · rw [if_pos (by simp), b2, b4]
      exact ⟨rfl, rfl⟩
    · by_cases h0 : c = 0
      · rw [if_pos (by simp [h0]), b2, b4]
        simp [recoveryEvents, h0]
      · rw [if_neg (by simp [h0])]
        have hcs : ((kbus_getError (((libpackbus_Push g).1).emit [Event.WatchdogTrigger])).1.emit
            [Event.usleep (50 * 1000)]).bus.errorCodes = cs := by
          show (kbus_getError (((libpackbus_Push g).1).emit [Event.WatchdogTrigger])).1.bus.errorCodes = cs
          rw [b3, hc]
          rfl
        obtain ⟨i1, i2⟩ := ih _ (by rw [hcs]; rw [hc] at hl; simpa using hl)
        rw [i1, i2, hcs]
        refine ⟨?_, ?_⟩
        · show (kbus_getError (((libpackbus_Push g).1).emit [Event.WatchdogTrigger])).1.trace ++ _ ++ _ = _
          rw [b2]
          simp [recoveryEvents, h0]
        · show (kbus_getError (((libpackbus_Push g).1).emit [Event.WatchdogTrigger])).1.maps = _
          rw [b4]

theorem loop_trace (g : Globals) :
    (kbus_loopTilErrorGone g).trace = g.trace ++ recoveryEvents g.bus.errorCodes ∧
      (kbus_loopTilErrorGone g).maps = g.maps :=
  loop_passes_trace _ g (le_refl _)

theorem recoveryEvents_no_process_data (codes : List Nat) :
    ∀ e ∈ recoveryEvents codes, e.isProcessData = false := by
  induction codes with
  | nil => decide
  | cons c cs ih =>
    intro e he
    unfold recoveryEvents at he
    split_ifs at he
    · simp only [List.mem_cons, List.mem_singleton, List.not_mem_nil, or_false] at he
      rcases he with h | h | h <;> subst h <;> rfl
    · rcases List.mem_append.mp he with h | h
      · simp only [List.mem_cons, List.mem_singleton, List.not_mem_nil, or_false] at h
        rcases h with h | h | h | h <;> subst h <;> rfl
      · exact ih e h

theorem kbus_reset_facts (g : Globals) :
    (kbus_reset g).1.trace = g.trace ++ [Event.kbus_close, Event.kbus_setup] ∧
      (kbus_reset g).1.maps = g.maps ∧
      (kbus_reset g).1.conf_kbus_cycle_ms = g.conf_kbus_cycle_ms := by
  unfold kbus_reset kbus_close kbus_setup
  simp only [Globals.emit]
  split_ifs <;> first | (exfalso; omega) | simp

/-! ## What a request can change -/

theorem getWriteMapping_banks (a : Nat) (m : Mapping) (i : Nat)
    (h : modbus_getWriteMapping a = (some m, i)) :
    m = Mapping.mb_mapping_write ∨ m = Mapping.mb_mapping_2_write := by
  unfold modbus_getWriteMapping at h
  simp only at h
  split_ifs at h
  all_goals simp only [Prod.mk.injEq, Option.some.injEq, reduceCtorEq, false_and] at h
  all_goals obtain ⟨hm, -⟩ := h
  all_goals subst hm
  all_goals simp

/-- Case principle for the globals after `modbus_reply_offset` on storage `m`: they are
unchanged, or the coil bitmap of `m` is replaced (functions 0x05, 0x0F), or the register
table of `m` is replaced (functions 0x06, 0x10, 0x16), or, for function 0x17, the register
table of PD-OUT-1 or PD-OUT-2 is replaced and the reply callback is run. -/
theorem reply_offset_cases (env : Env) (s : Server) (q : List Nat) (rc : Nat) (m : Mapping)
    (off : Nat) (P : Globals → Prop)
    (h_same : P s.g)
    (h_bits : (reqByte q 7 = _FC_WRITE_SINGLE_COIL ∨ reqByte q 7 = _FC_WRITE_MULTIPLE_COILS) →
      ∀ t, P (setBits s.g m t))
    (h_regs : (reqByte q 7 = _FC_WRITE_SINGLE_REGISTER ∨
        reqByte q 7 = _FC_WRITE_MULTIPLE_REGISTERS ∨ reqByte q 7 = _FC_MASK_WRITE_REGISTER) →
      ∀ t, P (setRegisters s.g m t))
    (h_rw : reqByte q 7 = _FC_WRITE_AND_READ_REGISTERS →
      ∀ wm t, (wm = Mapping.mb_mapping_write ∨ wm = Mapping.mb_mapping_2_write) →
        P (runCallback env.modbus_replyCallback (setRegisters s.g wm t))) :
    P (modbus_reply_offset env s q rc m off).g := by
  unfold modbus_reply_offset
  simp only [header_length, Nat.reduceAdd, Nat.reduceSub, apply_ite Server.g, send_msg_g]
  generalize (if reqByte q 7 ≠ _FC_WRITE_AND_READ_REGISTERS then reqWord q 8 - off
    else reqWord q 8) = addr
  by_cases h0 : reqWord q 8 < off
  · rw [if_pos h0]
    exact h_same
  rw [if_neg h0]
  by_cases c1 : reqByte q 7 = _FC_READ_COILS
  · rw [if_pos c1]
    split_ifs <;> exact h_same
  rw [if_neg c1]
  by_cases c2 : reqByte q 7 = _FC_READ_DISCRETE_INPUTS
  · rw [if_pos c2]
    split_ifs <;> exact h_same
  rw [if_neg c2]
  by_cases c3 : reqByte q 7 = _FC_READ_HOLDING_REGISTERS
  · rw [if_pos c3]
    split_ifs <;> exact h_same
  rw [if_neg c3]
  by_cases c4 : reqByte q 7 = _FC_READ_INPUT_REGISTERS
  · rw [if_pos c4]
    split_ifs <;> exact h_same
  rw [if_neg c4]
  by_cases c5 : reqByte q 7 = _FC_WRITE_SINGLE_COIL
  · rw [if_pos c5]
    split_ifs <;> first | exact h_same | exact h_bits (Or.inl c5) _
  rw [if_neg c5]
  by_cases c6 : reqByte q 7 = _FC_WRITE_SINGLE_REGISTER
  · rw [if_pos c6]
    split_ifs <;> first | exact h_same | exact h_regs (Or.inl c6) _
  rw [if_neg c6]
  by_cases c7 : reqByte q 7 = _FC_WRITE_MULTIPLE_COILS
  · rw [if_pos c7]
    split_ifs <;> first | exact h_same | exact h_bits (Or.inr c7) _
  rw [if_neg c7]
  by_cases c8 : reqByte q 7 = _FC_WRITE_MULTIPLE_REGISTERS
  · rw [if_pos c8]
    split_ifs <;> first | exact h_same | exact h_regs (Or.inr (Or.inl c8)) _
  rw [if_neg c8]
  by_cases c9 : reqByte q 7 = _FC_REPORT_SLAVE_ID
  · rw [if_pos c9]
    exact h_same
  rw [if_neg c9]
  by_cases c10 : reqByte q 7 = _FC_READ_EXCEPTION_STATUS
  · rw [if_pos c10]
    exact h_same
  rw [if_neg c10]
  by_cases c11 : reqByte q 7 = _FC_MASK_WRITE_REGISTER
  · rw [if_pos c11]
    split_ifs <;> first | exact h_same | exact h_regs (Or.inr (Or.inr c11)) _
  rw [if_neg c11]
  by_cases c12 : reqByte q 7 = _FC_WRITE_AND_READ_REGISTERS
  · rw [if_pos c12]
    split_ifs
    · exact h_same
    · rcases hgw : modbus_getWriteMapping (reqWord q 12) with ⟨_ | wm, wi⟩
      · exact h_same
      · have hb := getWriteMapping_banks _ _ _ hgw
        rcases hgr : modbus_getReadMapping addr with ⟨_ | rm, ri⟩
        · exact h_rw c12 wm _ hb
        · exact h_rw c12 wm _ hb
  rw [if_neg c12]
  split_ifs <;> exact h_same

/-! ## The bounds of the watchdog registers -/

theorem setRegisters_sameControl (g : Globals) (m : Mapping) (t : List Nat)
    (hm : m ≠ Mapping.mb_watchdog_mapping) : SameControl g (setRegisters g m t) :=
  ⟨rfl, rfl, rfl, rfl, rfl, setRegisters_maps_other g m _ t (Ne.symm hm), rfl, rfl⟩

theorem setBits_sameControl (g : Globals) (m : Mapping) (t : List Nat)
    (hm : m ≠ Mapping.mb_watchdog_mapping) : SameControl g (setBits g m t) :=
  ⟨rfl, rfl, rfl, rfl, rfl, setBits_maps_other g m _ t (Ne.symm hm), rfl, rfl⟩

theorem reply_exception_g (s : Server) (q : List Nat) (c : Nat) :
    (modbus_reply_exception s q c).g = s.g := by
  unfold modbus_reply_exception
  dsimp only
  split_ifs <;> rfl

/-- A reply built on a storage other than the watchdog's leaves the control variables as
they are, when the reply callback does. -/
theorem reply_offset_sameControl (env : Env) (s : Server) (q : List Nat) (rc : Nat)
    (m : Mapping) (off : Nat) (hm : m ≠ Mapping.mb_watchdog_mapping)
    (hk : KeepsControl env.modbus_replyCallback) :
    SameControl s.g (modbus_reply_offset env s q rc m off).g := by
  apply reply_offset_cases env s q rc m off (SameControl s.g)
  · exact sameControl_refl _
  · exact fun _ t => setBits_sameControl _ _ _ hm
  · exact fun _ t => setRegisters_sameControl _ _ _ hm
  · intro _ wm t hwm
    refine sameControl_trans (setRegisters_sameControl _ wm t ?_) (hk _)
    rcases hwm with h | h <;> subst h <;> decide

theorem watchdogInvariant_sameControl {g g' : Globals} (h : SameControl g g')
    (hi : WatchdogAllocated g ∧ watchdogInvariant g) :
    WatchdogAllocated g' ∧ watchdogInvariant g' := by
  refine ⟨sameControl_watchdogAllocated h hi.1, ?_⟩
  unfold watchdogInvariant
  rw [sameControl_watchdogReg h, sameControl_watchdogReg h, h.2.1, h.2.2.2.1]
  exact hi.2

theorem watchdogInvariant_trigger (g : Globals)
    (hi : WatchdogAllocated g ∧ watchdogInvariant g) :
    WatchdogAllocated (modbusWatchdog_trigger g) ∧
      watchdogInvariant (modbusWatchdog_trigger g) := by
  refine ⟨hi.1, ?_⟩
  have h := hi.2.1
  unfold watchdogInvariant at *
  simp only [modbusWatchdog_trigger, modbusWatchdog_getTimeout, watchdogReg] at *
  exact ⟨h, fun _ => ⟨h, le_refl _⟩⟩

theorem watchdogInvariant_set_other (g : Globals) (i v : Nat) (h0 : i ≠ 0) (h4 : i ≠ 4)
    (hi : WatchdogAllocated g ∧ watchdogInvariant g) :
    WatchdogAllocated (setWatchdogReg g i v) ∧ watchdogInvariant (setWatchdogReg g i v) := by
  refine ⟨watchdogAllocated_set _ _ _ hi.1, ?_⟩
  unfold watchdogInvariant
  rw [watchdogReg_set_other _ _ _ _ h0, watchdogReg_set_other _ _ _ _ h4]
  exact hi.2

/-- A pass of the watchdog loop keeps the bounds. -/
theorem watchdogInvariant_tick (g : Globals)
    (hi : WatchdogAllocated g ∧ watchdogInvariant g) :
    WatchdogAllocated (modbusWatchdog_task_tick (some modbusWatchdog_expiredTask) g) ∧
      watchdogInvariant (modbusWatchdog_task_tick (some modbusWatchdog_expiredTask) g) := by
  obtain ⟨hw, h40, hact⟩ := hi
  cases ha : g.modbusWatchdog_active
  · rw [tick_inactive _ _ ha]
    exact ⟨hw, h40, hact⟩
  · obtain ⟨h4t, ht0⟩ := hact ha
    by_cases hpos : 0 < g.timeout
    · have hE : modbusWatchdog_task_tick (some modbusWatchdog_expiredTask) g =
          modbusWatchdog_setMinimalTime { g with timeout := g.timeout - 1 } (g.timeout - 1) := by
        unfold modbusWatchdog_task_tick
        rw [if_pos ha, if_pos hpos]
      rw [hE]
      unfold modbusWatchdog_setMinimalTime
      dsimp only
      split_ifs with hlt
      · refine ⟨watchdogAllocated_set _ _ _ hw, ?_⟩
        unfold watchdogInvariant
        rw [watchdogReg_set_same _ _ _ (by rw [show ({ g with timeout := g.timeout - 1 } : Globals).maps = g.maps from rfl, hw.2]; decide),
          watchdogReg_set_other _ _ _ _ (by decide)]
        have e0 : watchdogReg { g with timeout := g.timeout - 1 } 0 = watchdogReg g 0 := rfl
        have et : (setWatchdogReg { g with timeout := g.timeout - 1 } 4 (g.timeout - 1)).timeout =
            g.timeout - 1 := rfl
        rw [e0, et]
        exact ⟨by omega, fun _ => ⟨le_refl _, by omega⟩⟩
      · refine ⟨hw, ?_⟩
        unfold watchdogInvariant
        have e0 : watchdogReg { g with timeout := g.timeout - 1 } 0 = watchdogReg g 0 := rfl
        have e4 : watchdogReg { g with timeout := g.timeout - 1 } 4 = watchdogReg g 4 := rfl
        rw [e0, e4] at *
        exact ⟨h40, fun _ => ⟨by simpa using Nat.le_of_not_lt hlt, by
          show g.timeout - 1 ≤ _
          omega⟩⟩
    · obtain ⟨hina, -, hw', -⟩ := tick_expired g ha (by omega) hw
      refine ⟨hw', ?_⟩
      unfold watchdogInvariant
      rw [hina]
      have hE : modbusWatchdog_task_tick (some modbusWatchdog_expiredTask) g =
          modbusWatchdog_stop (modbus_clearAllMappings (g.emit [Event.watchdogExpired])) := by
        unfold modbusWatchdog_task_tick
        rw [if_pos ha, if_neg hpos]
        rfl
      have hsc : SameControl g (modbus_clearAllMappings (g.emit [Event.watchdogExpired])) :=
        sameControl_trans (emit_sameControl g _) (clearAll_sameControl _)
      have e : ∀ i, watchdogReg (modbusWatchdog_task_tick (some modbusWatchdog_expiredTask) g) i =
          watchdogReg g i := by
        intro i
        rw [hE]
        exact sameControl_watchdogReg hsc i
      rw [e, e]
      exact ⟨h40, fun h => absurd h (by decide)⟩

/-- The watchdog handler keeps the bounds on every request routed to it. -/
theorem watchdogInvariant_parse (env : Env) (s : Server) (q : List Nat) (rc : Nat)
    (ha : 0x1000 ≤ reqWord q 8 ∧ reqWord q 8 ≤ 0x100B)
    (hi : WatchdogAllocated s.g ∧ watchdogInvariant s.g) :
    WatchdogAllocated (modbusWatchdog_parseModbusCommand env s q rc).g ∧
      watchdogInvariant (modbusWatchdog_parseModbusCommand env s q rc).g := by
  obtain ⟨i, hai, hi12⟩ : ∃ i, reqWord q 8 = 0x1000 + i ∧ i < 12 :=
    ⟨reqWord q 8 - 0x1000, by omega, by omega⟩
  have hfa : (reqWord q 8 + 65536 - MODBUSWATCHDOG_REGISTER_START_ADDRESS) % 65536 = i := by
    unfold MODBUSWATCHDOG_REGISTER_START_ADDRESS
    omega
  unfold modbusWatchdog_parseModbusCommand
  simp only [header_length, Nat.reduceAdd, hfa]
  by_cases h3 : reqByte q 7 = _FC_READ_HOLDING_REGISTERS
  · rw [if_pos h3]
    apply reply_offset_cases env _ q rc _ _
      (fun g => WatchdogAllocated g ∧ watchdogInvariant g)
    · exact watchdogInvariant_set_other _ _ _ (by decide) (by decide) hi
    · intro h
      rw [h3] at h
      exact absurd h (by decide)
    · intro h
      rw [h3] at h
      exact absurd h (by decide)
    · intro h
      rw [h3] at h
      exact absurd h (by decide)
  rw [if_neg h3]
  by_cases h6 : reqByte q 7 = _FC_WRITE_SINGLE_REGISTER
  · rw [if_pos h6]
    have hro := watchdog_reply_offset_write env s q rc i h6 hai hi12 hi.1
    rw [hro]
    by_cases i0 : i = 0
    · subst i0
      rw [if_pos rfl]
      cases hact : s.g.modbusWatchdog_active
      · rw [if_pos rfl]
        have hw1 : WatchdogAllocated (setWatchdogReg s.g 0 (reqWord q 10)) :=
          watchdogAllocated_set _ _ _ hi.1
        refine ⟨?_, ?_⟩
        · exact watchdogAllocated_set _ _ _ hw1
        · unfold watchdogInvariant
          simp only [onGlobals_g]
          rw [setTimeout_reg4 _ hw1, setTimeout_reg0, setTimeout_active]
          exact ⟨le_refl _, fun h => absurd (hact.symm.trans h) (by decide)⟩
      · rw [if_neg (by decide)]
        rw [reply_exception_g]
        exact hi
    rw [if_neg i0]
    by_cases i3 : i = 3
    · subst i3
      rw [if_pos rfl]
      have h1 := watchdogInvariant_set_other s.g 3 (reqWord q 10) (by decide) (by decide) hi
      dsimp only
      apply watchdogInvariant_set_other _ _ _ (by decide) (by decide)
      split_ifs with hv hina
      · have hw4 : watchdogReg (modbusWatchdog_resetMinimalTime
            { setWatchdogReg s.g 3 (reqWord q 10) with
              timeout := modbusWatchdog_getTimeout (setWatchdogReg s.g 3 (reqWord q 10)) }
            (modbusWatchdog_getTimeout (setWatchdogReg s.g 3 (reqWord q 10)))) 4 =
            modbusWatchdog_getTimeout (setWatchdogReg s.g 3 (reqWord q 10)) :=
          watchdogReg_set_same _ _ _ (by
            show 4 < ((setWatchdogReg s.g 3 (reqWord q 10)).maps
              Mapping.mb_watchdog_mapping).tab_registers.length
            rw [h1.1.2]
            decide)
        have hw0 : watchdogReg (modbusWatchdog_resetMinimalTime
            { setWatchdogReg s.g 3 (reqWord q 10) with
              timeout := modbusWatchdog_getTimeout (setWatchdogReg s.g 3 (reqWord q 10)) }
            (modbusWatchdog_getTimeout (setWatchdogReg s.g 3 (reqWord q 10)))) 0 =
            modbusWatchdog_getTimeout (setWatchdogReg s.g 3 (reqWord q 10)) :=
          watchdogReg_set_other _ _ _ _ (by decide)
        refine ⟨watchdogAllocated_set _ _ _ h1.1, ?_⟩
        unfold watchdogInvariant
        have e4 : ∀ g : Globals, watchdogReg (modbusWatchdog_start g) 4 = watchdogReg g 4 :=
          fun _ => rfl
        have e0 : ∀ g : Globals, watchdogReg (modbusWatchdog_start g) 0 = watchdogReg g 0 :=
          fun _ => rfl
        rw [e4, e0, hw4, hw0]
        exact ⟨le_refl _, fun _ => ⟨le_refl _, le_refl _⟩⟩
      · exact watchdogInvariant_trigger _ h1
      · exact h1
    rw [if_neg i3]
    by_cases i4 : i = 4
    · rw [if_pos i4, reply_exception_g]
      exact hi
    rw [if_neg i4]
    by_cases i8 : i = 8
    · subst i8
      rw [if_pos rfl]
      have h1 := watchdogInvariant_set_other s.g 8 (reqWord q 10) (by decide) (by decide) hi
      dsimp only
      split_ifs
      · exact h1
      · exact ⟨h1.1, h1.2.1, fun h => Bool.noConfusion h⟩
      · exact h1
    rw [if_neg i8]
    exact watchdogInvariant_set_other _ _ _ i0 i4 hi
  rw [if_neg h6, reply_exception_g]
  exact hi

theorem mapReadCoils_sameControl (g : Globals) : SameControl g (modbus_mapReadCoils g) := by
  unfold modbus_mapReadCoils
  exact setBits_sameControl _ _ _ (by decide)

theorem mapWriteCoils_sameControl (g : Globals) :
    SameControl g (modbus_mapWriteCoilsToRegister g) := by
  unfold modbus_mapWriteCoilsToRegister
  exact setRegisters_sameControl _ _ _ (by decide)

/-- The handlers of the read-only configuration registers leave the control variables
as they are. -/
theorem config_handlers_sameControl (env : Env) (s : Server) (q : List Nat) (rc : Nat)
    (hk : KeepsControl env.modbus_replyCallback) :
    SameControl s.g (modbusKBUSInfo_parseModbusCommand env s q rc).g ∧
      SameControl s.g (modbusConfigMac_parseModbusCommand env s q rc).g ∧
      SameControl s.g (modbusConfigConst_parseModbusCommand env s q rc).g ∧
      SameControl s.g (modbusShortDescription_parseModbusCommand env s q rc).g ∧
      SameControl s.g (modbusConfig_parseModbusCommand env s q rc).g := by
  have hro : ∀ (m : Mapping) (off : Nat), m ≠ Mapping.mb_watchdog_mapping →
      SameControl s.g (modbus_reply_offset env s q rc m off).g :=
    fun m off hm => reply_offset_sameControl env s q rc m off hm hk
  have hex : ∀ c, SameControl s.g (modbus_reply_exception s q c).g := by
    intro c
    rw [reply_exception_g]
    exact sameControl_refl _
  refine ⟨?_, ?_, ?_, ?_, ?_⟩
  · unfold modbusKBUSInfo_parseModbusCommand
    dsimp only
    split_ifs
    · exact hro _ _ (by decide)
    · exact hex _
  · unfold modbusConfigMac_parseModbusCommand
    dsimp only
    split_ifs
    · exact hro _ _ (by decide)
    · exact hex _
  · unfold modbusConfigConst_parseModbusCommand
    dsimp only
    split_ifs
    · exact hro _ _ (by decide)
    · exact hex _
  · unfold modbusShortDescription_parseModbusCommand
    dsimp only
    split_ifs
    · exact hro _ _ (by decide)
    · exact hex _
  · unfold modbusConfig_parseModbusCommand
    dsimp only
    split_ifs
    · exact hro _ _ (by decide)
    · exact hro _ _ (by decide)
    · exact hro _ _ (by decide)
    · exact hro _ _ (by decide)
    · exact sameControl_refl _
    · exact hex _

/-- The write path of the dispatcher keeps the bounds of the watchdog registers. -/
theorem watchdogInvariant_worker_write (env : Env) (s : Server) (q : List Nat) (rc : Nat)
    (hk : KeepsControl env.modbus_replyCallback)
    (hi : WatchdogAllocated s.g ∧ watchdogInvariant s.g) :
    WatchdogAllocated (modbus_worker_write env s q rc).g ∧
      watchdogInvariant (modbus_worker_write env s q rc).g := by
  have hro : ∀ (s1 : Server) (m : Mapping) (off : Nat), m ≠ Mapping.mb_watchdog_mapping →
      SameControl s1.g (modbus_reply_offset env s1 q rc m off).g :=
    fun s1 m off hm => reply_offset_sameControl env s1 q rc m off hm hk
  unfold modbus_worker_write
  simp only [header_length, Nat.reduceAdd]
  split_ifs
  all_goals first
    | exact hi
    | exact watchdogInvariant_parse env s q rc (by assumption) hi
    | exact watchdogInvariant_sameControl (hro s _ _ (by decide)) hi
    | (simp only [onGlobals_g]
       refine watchdogInvariant_sameControl (sameControl_trans (sameControl_trans
         (mapReadCoils_sameControl s.g) ?_) (mapWriteCoils_sameControl _)) hi
       exact hro (s.onGlobals modbus_mapReadCoils) _ _ (by decide))

/-- Case principle for the globals after the read path of the dispatcher: either the
request went to the watchdog handler, or the control variables are as before. -/
theorem worker_read_cases (env : Env) (s : Server) (q : List Nat) (rc : Nat)
    (hk : KeepsControl env.modbus_replyCallback) (P : Globals → Prop)
    (h_same : ∀ g, SameControl s.g g → P g)
    (h_wd : (0x1000 ≤ reqWord q 8 ∧ reqWord q 8 ≤ 0x100B) →
      P (modbusWatchdog_parseModbusCommand env s q rc).g) :
    P (modbus_worker_read env s q rc).g := by
  have hro : ∀ (m : Mapping) (off : Nat), m ≠ Mapping.mb_watchdog_mapping →
      P (modbus_reply_offset env s q rc m off).g :=
    fun m off hm => h_same _ (reply_offset_sameControl env s q rc m off hm hk)
  have hrc : ∀ (m : Mapping) (off : Nat), m ≠ Mapping.mb_watchdog_mapping →
      P (modbus_reply_offset env (s.onGlobals modbus_mapReadCoils) q rc m off).g :=
    fun m off hm => h_same _ (sameControl_trans (mapReadCoils_sameControl s.g)
      (reply_offset_sameControl env _ q rc m off hm hk))
  obtain ⟨c1, c2, c3, c4, c5⟩ := config_handlers_sameControl env s q rc hk
  have hs : P s.g := h_same _ (sameControl_refl _)
  have hex : ∀ c, P (modbus_reply_exception s q c).g := by
    intro c
    rw [reply_exception_g]
    exact hs
  unfold modbus_worker_read modbus_reply
  simp only [header_length, Nat.reduceAdd, apply_ite Server.g, reply_exception_g, onGlobals_g]
  by_cases f1 : reqByte q 7 = _FC_READ_COILS
  · rw [if_pos f1]
    by_cases k0 : reqWord q 8 ≤ 511
    · rw [if_pos k0]
      exact hrc _ _ (by decide)
    rw [if_neg k0]
    by_cases k1 : reqWord q 8 ≥ 512 ∧ reqWord q 8 ≤ 1023
    · rw [if_pos k1]
      exact hrc _ _ (by decide)
    rw [if_neg k1]
    by_cases k2 : reqWord q 8 ≥ 0x8000 ∧ reqWord q 8 ≤ 0x85F7
    · rw [if_pos k2]
      exact hrc _ _ (by decide)
    rw [if_neg k2]
    by_cases k3 : reqWord q 8 ≥ 0x9000 ∧ reqWord q 8 ≤ 0x95F7
    · rw [if_pos k3]
      exact hrc _ _ (by decide)
    rw [if_neg k3]
    exact h_same _ (mapReadCoils_sameControl s.g)
  rw [if_neg f1]
  by_cases f2 : reqByte q 7 = _FC_READ_DISCRETE_INPUTS ∨
      reqByte q 7 = _FC_READ_HOLDING_REGISTERS ∨ reqByte q 7 = _FC_READ_INPUT_REGISTERS ∨
      reqByte q 7 = _FC_WRITE_AND_READ_REGISTERS
  swap
  · rw [if_neg f2]
    exact hs
  rw [if_pos f2]
  by_cases a1 : reqWord q 8 ≤ 255
  · rw [if_pos a1]
    exact hro _ _ (by decide)
  rw [if_neg a1]
  by_cases a2 : reqWord q 8 ≥ 512 ∧ reqWord q 8 ≤ 767
  · rw [if_pos a2]
    exact hro _ _ (by decide)
  rw [if_neg a2]
  by_cases a3 : reqWord q 8 ≥ 0x1000 ∧ reqWord q 8 ≤ 0x2043
  · rw [if_pos a3]
    by_cases k0 : reqWord q 8 ≥ 0x1000 ∧ reqWord q 8 ≤ 0x100B
    · rw [if_pos k0]
      exact h_wd k0
    rw [if_neg k0]
    by_cases k1 : reqWord q 8 ≥ 0x1022 ∧ reqWord q 8 ≤ 0x1025
    · rw [if_pos k1]
      exact h_same _ c1
    rw [if_neg k1]
    by_cases k2 : reqWord q 8 ≥ 0x1031 ∧ reqWord q 8 ≤ 0x1033
    · rw [if_pos k2]
      exact h_same _ c2
    rw [if_neg k2]
    by_cases k3 : reqWord q 8 ≥ 0x2000 ∧ reqWord q 8 ≤ 0x2008
    · rw [if_pos k3]
      exact h_same _ c3
    rw [if_neg k3]
    by_cases k4 : reqWord q 8 = 0x2020
    · rw [if_pos k4]
      exact h_same _ c4
    rw [if_neg k4]
    by_cases k5 : reqWord q 8 ≥ 0x2030 ∧ reqWord q 8 ≤ 0x2033
    · rw [if_pos k5]
      exact h_same _ c5
    rw [if_neg k5]
    exact hs
  rw [if_neg a3]
  by_cases a4 : reqWord q 8 ≥ 0x6000 ∧ reqWord q 8 ≤ 0x62FB
  · rw [if_pos a4]
    exact hro _ _ (by decide)
  rw [if_neg a4]
  by_cases a5 : reqWord q 8 ≥ 0x7000 ∧ reqWord q 8 ≤ 0x72FB
  · rw [if_pos a5]
    exact hro _ _ (by decide)
  rw [if_neg a5]
  exact hs

/-- The read path of the dispatcher keeps the bounds of the watchdog registers. -/
theorem watchdogInvariant_worker_read (env : Env) (s : Server) (q : List Nat) (rc : Nat)
    (hk : KeepsControl env.modbus_replyCallback)
    (hi : WatchdogAllocated s.g ∧ watchdogInvariant s.g) :
    WatchdogAllocated (modbus_worker_read env s q rc).g ∧
      watchdogInvariant (modbus_worker_read env s q rc).g :=
  worker_read_cases env s q rc hk (fun g => WatchdogAllocated g ∧ watchdogInvariant g)
    (fun _ h => watchdogInvariant_sameControl h hi)
    (fun ha => watchdogInvariant_parse env s q rc ha hi)

/-- The dispatcher keeps the bounds of the watchdog registers on every request. -/
theorem watchdogInvariant_worker (env : Env) (s : Server) (q : List Nat) (rc : Nat)
    (hrecv : KeepsControl env.modbus_receivedCallback)
    (hreply : KeepsControl env.modbus_replyCallback)
    (hi : WatchdogAllocated s.g ∧ watchdogInvariant s.g) :
    WatchdogAllocated (modbus_worker env s q rc).g ∧
      watchdogInvariant (modbus_worker env s q rc).g := by
  by_cases hstop : s.g.modbus_ApplicationState = APPLICATION_STOP
  · have : modbus_worker env s q rc =
        modbus_reply_exception s q MODBUS_EXCEPTION_SLAVE_OR_SERVER_BUSY := by
      unfold modbus_worker
      simp only [if_pos hstop]
    rw [this, reply_exception_g]
    exact hi
  have ht := watchdogInvariant_trigger s.g hi
  by_cases h23 : reqByte q 7 = _FC_WRITE_AND_READ_REGISTERS
  · rw [modbus_worker_of_write_and_read env s q rc hstop h23]
    exact watchdogInvariant_worker_write env _ q rc hreply ht
  by_cases hw : reqByte q 7 = _FC_WRITE_SINGLE_COIL ∨ reqByte q 7 = _FC_WRITE_MULTIPLE_COILS ∨
      reqByte q 7 = _FC_WRITE_SINGLE_REGISTER ∨ reqByte q 7 = _FC_WRITE_MULTIPLE_REGISTERS
  · rw [modbus_worker_of_write env s q rc hstop hw]
    exact watchdogInvariant_sameControl (hrecv _)
      (watchdogInvariant_worker_write env _ q rc hreply ht)
  by_cases hr : reqByte q 7 = _FC_READ_COILS ∨ reqByte q 7 = _FC_READ_DISCRETE_INPUTS ∨
      reqByte q 7 = _FC_READ_HOLDING_REGISTERS ∨ reqByte q 7 = _FC_READ_INPUT_REGISTERS
  · rw [modbus_worker_of_read env s q rc hstop hr]
    exact watchdogInvariant_worker_read env _ q rc hreply
      (watchdogInvariant_sameControl (hrecv _) ht)
  rw [modbus_worker_of_other env s q rc hstop (by
    simp only [List.mem_cons, List.mem_singleton, List.not_mem_nil, or_false]
    tauto), reply_exception_g]
  exact watchdogInvariant_sameControl (hrecv _) ht

theorem runSteps_append_one (env : Env) (s : Server) (steps : List WatchdogStep)
    (x : WatchdogStep) :
    runSteps env s (steps ++ [x]) = WatchdogStep.run env (runSteps env s steps) x := by
  simp [runSteps, List.foldl_append]

/-- C30: start from a watchdog as initialised (storage allocated, word 0 = word 4 = 100,
inactive) and run any sequence of dispatched requests and passes of the watchdog loop,
with callbacks that leave the control variables alone: afterwards word 4 is at most word 0,
and if the watchdog is active the countdown is at least word 4 and at most word 0. -/
theorem watchdog_bounds_invariant (env : Env) (s : Server) (steps : List WatchdogStep)
    (hrecv : KeepsControl env.modbus_receivedCallback)
    (hreply : KeepsControl env.modbus_replyCallback)
    (hw : WatchdogAllocated s.g)
    (h0 : watchdogReg s.g 0 = 100) (h4 : watchdogReg s.g 4 = 100)
    (hina : s.g.modbusWatchdog_active = false) :
    watchdogReg (runSteps env s steps).g 4 ≤ watchdogReg (runSteps env s steps).g 0 ∧
      ((runSteps env s steps).g.modbusWatchdog_active = true →
        watchdogReg (runSteps env s steps).g 4 ≤ (runSteps env s steps).g.timeout ∧
          (runSteps env s steps).g.timeout ≤ watchdogReg (runSteps env s steps).g 0) := by
  have key : WatchdogAllocated (runSteps env s steps).g ∧
      watchdogInvariant (runSteps env s steps).g := by
    induction steps using List.reverseRecOn with
    | nil =>
      show WatchdogAllocated s.g ∧ watchdogInvariant s.g
      refine ⟨hw, ?_⟩
      unfold watchdogInvariant
      rw [h0, h4]
      exact ⟨le_refl _, fun h => absurd (hina.symm.trans h) (by decide)⟩
    | append_singleton steps x ih =>
      rw [runSteps_append_one]
      cases x with
      | request q rc => exact watchdogInvariant_worker env _ q rc hrecv hreply ih
      | tick => exact watchdogInvariant_tick _ ih
  exact key.2

/-- Witness of C30: from the start-up state, set the timeout to 3 (write to 0x1000), start
the watchdog (write 1 to 0x1003) and let two passes of the loop go by: the watchdog is
active with word 0 = 3, countdown 1 and word 4 = 1, within the bounds. -/
theorem watchdog_bounds_invariant_witness :
    KeepsControl exampleEnv.modbus_receivedCallback ∧
      KeepsControl exampleEnv.modbus_replyCallback ∧
      WatchdogAllocated modbus_task_globals ∧
      watchdogReg modbus_task_globals 0 = 100 ∧ watchdogReg modbus_task_globals 4 = 100 ∧
      modbus_task_globals.modbusWatchdog_active = false ∧
      (runSteps exampleEnv ⟨modbus_task_globals, []⟩
        [WatchdogStep.request [0, 1, 0, 0, 0, 6, 1, 6, 0x10, 0, 0, 3] 12,
          WatchdogStep.request [0, 2, 0, 0, 0, 6, 1, 6, 0x10, 3, 0, 1] 12,
          WatchdogStep.tick, WatchdogStep.tick]).g.modbusWatchdog_active = true ∧
      watchdogReg (runSteps exampleEnv ⟨modbus_task_globals, []⟩
        [WatchdogStep.request [0, 1, 0, 0, 0, 6, 1, 6, 0x10, 0, 0, 3] 12,
          WatchdogStep.request [0, 2, 0, 0, 0, 6, 1, 6, 0x10, 3, 0, 1] 12,
          WatchdogStep.tick, WatchdogStep.tick]).g 0 = 3 ∧
      (runSteps exampleEnv ⟨modbus_task_globals, []⟩
        [WatchdogStep.request [0, 1, 0, 0, 0, 6, 1, 6, 0x10, 0, 0, 3] 12,
          WatchdogStep.request [0, 2, 0, 0, 0, 6, 1, 6, 0x10, 3, 0, 1] 12,
          WatchdogStep.tick, WatchdogStep.tick]).g.timeout = 1 ∧
      watchdogReg (runSteps exampleEnv ⟨modbus_task_globals, []⟩
        [WatchdogStep.request [0, 1, 0, 0, 0, 6, 1, 6, 0x10, 0, 0, 3] 12,
          WatchdogStep.request [0, 2, 0, 0, 0, 6, 1, 6, 0x10, 3, 0, 1] 12,
          WatchdogStep.tick, WatchdogStep.tick]).g 4 = 1 ∧
      (watchdogReg (runSteps exampleEnv ⟨modbus_task_globals, []⟩
          [WatchdogStep.request [0, 1, 0, 0, 0, 6, 1, 6, 0x10, 0, 0, 3] 12,
            WatchdogStep.request [0, 2, 0, 0, 0, 6, 1, 6, 0x10, 3, 0, 1] 12,
            WatchdogStep.tick, WatchdogStep.tick]).g 4 ≤
        watchdogReg (runSteps exampleEnv ⟨modbus_task_globals, []⟩
          [WatchdogStep.request [0, 1, 0, 0, 0, 6, 1, 6, 0x10, 0, 0, 3] 12,
            WatchdogStep.request [0, 2, 0, 0, 0, 6, 1, 6, 0x10, 3, 0, 1] 12,
            WatchdogStep.tick, WatchdogStep.tick]).g 0) :=
  ⟨keepsControl_none, keepsControl_none, by decide, by decide, by decide, rfl, by decide,
    by decide, by decide, by decide,
    (watchdog_bounds_invariant exampleEnv ⟨modbus_task_globals, []⟩
      [WatchdogStep.request [0, 1, 0, 0, 0, 6, 1, 6, 0x10, 0, 0, 3] 12,
        WatchdogStep.request [0, 2, 0, 0, 0, 6, 1, 6, 0x10, 3, 0, 1] 12,
        WatchdogStep.tick, WatchdogStep.tick]
      keepsControl_none keepsControl_none (by decide) (by decide) (by decide) rfl).1⟩

/-! ## The copy of the output coils into PD-OUT-1 -/

theorem regByteSet_length (t : List Nat) (i v : Nat) : (regByteSet t i v).length = t.length := by
  unfold regByteSet
  split_ifs <;> simp

/-- Reading the byte view after a byte store: the stored byte at the same position (when
the position is inside the table), the old byte elsewhere. -/
theorem regByteGet_regByteSet (t : List Nat) (i v k : Nat) :
    regByteGet (regByteSet t i v) k =
      if k = i ∧ i / 2 < t.length then v % 256 else regByteGet t k := by
  unfold regByteGet regByteSet
  by_cases hw : k / 2 = i / 2
  · by_cases hl : i / 2 < t.length
    · split_ifs <;>
        simp only [List.getD_eq_getElem?_getD, hw, List.getElem?_set_self hl,
          Option.getD_some] <;> omega
    · have hset : ∀ x, t.set (i / 2) x = t := fun x =>
        List.set_eq_of_length_le (Nat.le_of_not_lt hl)
      simp only [hset, hl, and_false, if_false, ite_self]
  · have hki : k ≠ i := fun h => hw (by rw [h])
    have hne : i / 2 ≠ k / 2 := fun h => hw h.symm
    split_ifs <;>
      simp only [List.getD_eq_getElem?_getD, List.getElem?_set_ne hne] <;> omega

/-- The loop of `modbus_mapWriteCoilsToRegister` over `n` bytes: inside the table, byte
`off + i` of the byte view is byte `i` of the bitmap for `i < n`, every other byte is as
before. -/
theorem mapWriteCoils_loop (bits : List Nat) (off : Nat) (reg : List Nat) (n k : Nat) :
    regByteGet ((List.range n).foldl (fun reg i => regByteSet reg (off + i) (bits.getD i 0)) reg) k =
      if off ≤ k ∧ k < off + n ∧ k / 2 < reg.length then bits.getD (k - off) 0 % 256
      else regByteGet reg k := by
  induction n with
  | zero =>
    simp only [List.range_zero, List.foldl_nil]
    rw [if_neg (by omega)]
  | succ n ih =>
    have hlen : ∀ m, ((List.range m).foldl
        (fun reg i => regByteSet reg (off + i) (bits.getD i 0)) reg).length = reg.length := by
      intro m
      induction m with
      | zero => rfl
      | succ m ihm =>
        rw [List.range_succ, List.foldl_append]
        simp only [List.foldl_cons, List.foldl_nil, regByteSet_length, ihm]
    rw [List.range_succ, List.foldl_append]
    simp only [List.foldl_cons, List.foldl_nil]
    rw [regByteGet_regByteSet, hlen, ih]
    by_cases hk : k = off + n
    · subst hk
      by_cases hl : (off + n) / 2 < reg.length
      · rw [if_pos ⟨rfl, hl⟩, if_pos ⟨by omega, by omega, hl⟩, Nat.add_sub_cancel_left]
      · rw [if_neg (fun h => hl h.2), if_neg (by omega), if_neg (fun h => hl h.2.2)]
    · rw [if_neg (fun h => hk h.1)]
      by_cases hc : off ≤ k ∧ k < off + n ∧ k / 2 < reg.length
      · rw [if_pos hc, if_pos ⟨hc.1, by omega, hc.2.2⟩]
      · rw [if_neg hc, if_neg (by
          intro h
          exact hc ⟨h.1, by omega, h.2.2⟩)]

/-! ## Register writes and the coil bitmap -/

theorem quiet_head {l : List Nat} (h : ∀ c ∈ l, c = 0) : l.headD 0 = 0 := by
  cases l with
  | nil => rfl
  | cons a t => exact h a (by simp)

theorem quiet_tail {l : List Nat} (h : ∀ c ∈ l, c = 0) : ∀ c ∈ l.tail, c = 0 :=
  fun c hc => h c (List.mem_of_mem_tail hc)

theorem allocated_setRegisters (g : Globals) (m : Mapping) (t : List Nat) (h : Allocated g)
    (ht : t.length = (g.maps m).tab_registers.length) : Allocated (setRegisters g m t) := by
  intro r
  by_cases hr : r = m
  · subst hr
    rw [setRegisters_maps_same]
    obtain ⟨h1, h2, h3, h4, h5, h6, h7, h8⟩ := h r
    exact ⟨h1, h2, h3, h4, h5, h6, ht.trans h7, h8⟩
  · rw [setRegisters_maps_other _ _ _ _ hr]
    exact h r

theorem allocated_setBits (g : Globals) (m : Mapping) (t : List Nat) (h : Allocated g)
    (ht : t.length = (g.maps m).tab_bits.length) : Allocated (setBits g m t) := by
  intro r
  by_cases hr : r = m
  · subst hr
    rw [setBits_maps_same]
    obtain ⟨h1, h2, h3, h4, h5, h6, h7, h8⟩ := h r
    exact ⟨h1, h2, h3, h4, ht.trans h5, h6, h7, h8⟩
  · rw [setBits_maps_other _ _ _ _ hr]
    exact h r

/-- What `modbus_copy_register_in` leaves alone: every storage but the two input register
banks, the sizes of all storages, the bus oracle and the configuration. -/
theorem copy_register_in_frame (g : Globals) (src : List Nat) (n : Nat) :
    (∀ r, r ≠ Mapping.mb_mapping_in → r ≠ Mapping.mb_mapping_2_in →
        (modbus_copy_register_in g src n).1.maps r = g.maps r) ∧
      (Allocated g → Allocated (modbus_copy_register_in g src n).1) ∧
      (modbus_copy_register_in g src n).1.bus = g.bus ∧
      (modbus_copy_register_in g src n).1.conf_operation_mode = g.conf_operation_mode := by
  unfold modbus_copy_register_in
  dsimp only
  split_ifs
  all_goals first
    | exact ⟨fun _ _ _ => rfl, fun h => h, rfl, rfl⟩
    | exact ⟨fun r h1 h2 => by
          rw [setRegisters_maps_other _ _ _ _ h2, setRegisters_maps_other _ _ _ _ h1],
        fun h => allocated_setRegisters _ _ _
          (allocated_setRegisters _ _ _ h (copyWords_length _ _ _ _)) (copyWords_length _ _ _ _),
        rfl, rfl⟩
    | exact ⟨fun r h1 h2 => by rw [setRegisters_maps_other _ _ _ _ h1],
        fun h => allocated_setRegisters _ _ _ h (copyWords_length _ _ _ _), rfl, rfl⟩

/-- Case principle for a cycle on a bus that reports no error: the state is returned as it
is (mutex held), or a state with the storages, the flags and the configuration of the
start, one error code used up, and the mutex free, before or after the copy of the input
image. -/
theorem kbus_update_quiet_cases (g : Globals) (hq : ∀ c ∈ g.bus.errorCodes, c = 0)
    (P : Globals → Prop)
    (h_held : P g)
    (h_run : ∀ g1 : Globals, g1.maps = g.maps → g1.bus.errorCodes = g.bus.errorCodes.tail →
      g1.conf_operation_mode = g.conf_operation_mode →
      P { g1 with kbus_update_mutex := false } ∧
      ∀ src n, P { (modbus_copy_register_in g1 src n).1 with kbus_update_mutex := false }) :
    P (kbus_update g) := by
  have e1 : (kbus_getError { g with kbus_update_mutex := true }).2 = 0 := quiet_head hq
  unfold kbus_update
  by_cases hm : g.kbus_update_mutex = true
  · rw [if_pos hm]
    exact h_held
  rw [if_neg hm]
  dsimp only
  rw [if_neg (by rw [e1]; decide)]
  split_ifs
  · refine (h_run _ ?_ ?_ ?_).1 <;> simp [Globals.emit, kbus_getError, libpackbus_Push]
  · refine (h_run _ ?_ ?_ ?_).2 _ _ <;> simp [Globals.emit, kbus_getError, libpackbus_Push]
  · refine (h_run _ ?_ ?_ ?_).1 <;> simp [Globals.emit, kbus_getError, libpackbus_Push]

/-- A cycle on a bus that reports no error changes no storage but the two input register
banks, keeps the sizes of the storages, and leaves the bus without error. -/
theorem kbus_update_quiet (g : Globals) (hq : ∀ c ∈ g.bus.errorCodes, c = 0) :
    (∀ c ∈ (kbus_update g).bus.errorCodes, c = 0) ∧
      (∀ r, r ≠ Mapping.mb_mapping_in → r ≠ Mapping.mb_mapping_2_in →
        (kbus_update g).maps r = g.maps r) ∧
      (Allocated g → Allocated (kbus_update g)) := by
  apply kbus_update_quiet_cases g hq
    (fun g' => (∀ c ∈ g'.bus.errorCodes, c = 0) ∧
      (∀ r, r ≠ Mapping.mb_mapping_in → r ≠ Mapping.mb_mapping_2_in → g'.maps r = g.maps r) ∧
      (Allocated g → Allocated g'))
  · exact ⟨hq, fun _ _ _ => rfl, fun h => h⟩
  · intro g1 hm hb hc
    have ht : ∀ c ∈ g1.bus.errorCodes, c = 0 := by
      rw [hb]
      exact quiet_tail hq
    have ha : Allocated g → Allocated g1 := by
      intro h r
      rw [hm]
      exact h r
    refine ⟨⟨ht, fun r _ _ => by rw [← hm], ha⟩, ?_⟩
    intro src n
    obtain ⟨f1, f2, f3, -⟩ := copy_register_in_frame g1 src n
    refine ⟨?_, ?_, ?_⟩
    · show ∀ c ∈ (modbus_copy_register_in g1 src n).1.bus.errorCodes, c = 0
      rw [f3]
      exact ht
    · intro r h1 h2
      show (modbus_copy_register_in g1 src n).1.maps r = g.maps r
      rw [f1 r h1 h2, hm]
    · intro h
      exact f2 (ha h)

theorem noForcedRecovery_of_eq {g g' : Globals} (hm : g'.conf_operation_mode = g.conf_operation_mode)
    (hb : g'.bus = g.bus) (h : noForcedRecovery g) : noForcedRecovery g' := by
  unfold noForcedRecovery at *
  rw [hm, hb]
  exact h

/-- The forced update when no forced cycle can meet a bus error: the application state and
every storage but the two input register banks are as before, the storages keep their
sizes, and no later forced cycle can meet a bus error either. -/
theorem kbus_forceUpdate_quiet (g : Globals) (hq : noForcedRecovery g) :
    noForcedRecovery (kbus_forceUpdate g) ∧
      (kbus_forceUpdate g).modbus_ApplicationState = g.modbus_ApplicationState ∧
      (∀ r, r ≠ Mapping.mb_mapping_in → r ≠ Mapping.mb_mapping_2_in →
        (kbus_forceUpdate g).maps r = g.maps r) ∧
      (Allocated g → Allocated (kbus_forceUpdate g)) := by
  have hst := (kbus_forceUpdate_sameControl g).1
  by_cases hmode : g.conf_operation_mode = 0
  · have e : kbus_forceUpdate g = g := by
      unfold kbus_forceUpdate
      rw [if_neg (by rw [hmode]; decide)]
    rw [e]
    exact ⟨hq, rfl, fun _ _ _ => rfl, fun h => h⟩
  · have hquiet : ∀ c ∈ g.bus.errorCodes, c = 0 := hq.resolve_left hmode
    obtain ⟨u1, u2, u3⟩ := kbus_update_quiet (kbus_timerSetTime g TimerArg.addressOfHandle 0) hquiet
    have e : kbus_forceUpdate g =
        kbus_timerSetTime (kbus_update (kbus_timerSetTime g TimerArg.addressOfHandle 0))
          TimerArg.addressOfHandle
          (kbus_update (kbus_timerSetTime g TimerArg.addressOfHandle 0)).conf_kbus_cycle_ms := by
      unfold kbus_forceUpdate
      rw [if_pos hmode]
    refine ⟨Or.inr ?_, hst, ?_, ?_⟩
    · rw [e]
      exact u1
    · intro r h1 h2
      rw [e]
      exact u2 r h1 h2
    · intro h
      rw [e]
      exact u3 h

theorem programCallback_none : programCallback none := Or.inl rfl

theorem programCallback_forceUpdate : programCallback (some kbus_forceUpdate) := Or.inr rfl

/-- The callback of the program when no forced cycle can meet a bus error. -/
theorem programCallback_quiet {cb : Option (Globals → Globals)} (h : programCallback cb)
    (g : Globals) (hq : noForcedRecovery g) :
    noForcedRecovery (runCallback cb g) ∧
      (runCallback cb g).modbus_ApplicationState = g.modbus_ApplicationState ∧
      (∀ r, r ≠ Mapping.mb_mapping_in → r ≠ Mapping.mb_mapping_2_in →
        (runCallback cb g).maps r = g.maps r) ∧
      (Allocated g → Allocated (runCallback cb g)) := by
  rcases h with h | h <;> subst h
  · exact ⟨hq, rfl, fun _ _ _ => rfl, fun h => h⟩
  · exact kbus_forceUpdate_quiet g hq

theorem programCallback_control {cb : Option (Globals → Globals)} (h : programCallback cb) :
    KeepsControl cb := by
  rcases h with h | h <;> subst h
  · exact keepsControl_none
  · exact keepsControl_forceUpdate

/-- In operation mode 0 the callback of the program changes nothing. -/
theorem programCallback_mode_0 {cb : Option (Globals → Globals)} (h : programCallback cb)
    (g : Globals) (h0 : g.conf_operation_mode = 0) : runCallback cb g = g := by
  rcases h with h | h <;> subst h
  · rfl
  · show kbus_forceUpdate g = g
    unfold kbus_forceUpdate
    rw [if_neg (by rw [h0]; decide)]
/-! ## Round trip of a register write -/

/-- The dispatcher on a read-holding request of one register at an address that
`modbus_getReadMapping` routes to index `i` of bank `m`: the countdown is reloaded, the
received callback runs, and the reply carries the byte count 2 and word `i` of the bank as
the callback leaves it. -/
theorem modbus_worker_read_one_at (env : Env) (s : Server) (q : List Nat) (rc : Nat)
    (m : Mapping) (i : Nat)
    (hrun : s.g.modbus_ApplicationState = APPLICATION_RUNNING)
    (hf : reqByte q 7 = _FC_READ_HOLDING_REGISTERS)
    (hn : reqWord q 10 = 1)
    (hR : modbus_getReadMapping (reqWord q 8) = (some m, i))
    (hiA : i ≤ reqWord q 8)
    (hin : i < ((runCallback env.modbus_receivedCallback
      (modbusWatchdog_trigger s.g)).maps m).nb_registers) :
    modbus_worker env s q rc =
      ⟨runCallback env.modbus_receivedCallback (modbusWatchdog_trigger s.g),
        s.sent ++ [normalReply q
          [2, ((runCallback env.modbus_receivedCallback
              (modbusWatchdog_trigger s.g)).maps m).tab_registers.getD i 0 / 256 % 256,
            ((runCallback env.modbus_receivedCallback
              (modbusWatchdog_trigger s.g)).maps m).tab_registers.getD i 0 % 256]]⟩ := by
  have hsub : reqWord q 8 - (reqWord q 8 - i) = i := by omega
  rw [modbus_worker_of_read env s q rc (running_ne_stop hrun) (by tauto),
    modbus_worker_read_route env _ q rc m i (Or.inl hf) hR,
    reply_offset_read_one_holding env _ q rc m _ hf hn (Nat.sub_le _ _)
      (by simp only [onGlobals_g, hsub]; exact hin)]
  simp only [onGlobals_g, hsub]
  rfl

theorem noForcedRecovery_trigger (g : Globals) (h : noForcedRecovery g) :
    noForcedRecovery (modbusWatchdog_trigger g) := h

theorem noForcedRecovery_setRegisters (g : Globals) (m : Mapping) (t : List Nat)
    (h : noForcedRecovery g) : noForcedRecovery (setRegisters g m t) := h

/-- A single-register write followed by a holding-register read of the same address, for
an address that `modbus_getWriteMapping` and `modbus_getReadMapping` route to the same
index of the same bank, other than the input banks, when no forced cycle can meet a bus
error: the read returns the word written. -/
theorem write_then_read_same_bank_quiet (env : Env) (s : Server) (q : List Nat) (rc : Nat)
    (q2 : List Nat) (rc2 : Nat) (m : Mapping) (i : Nat)
    (hrun : s.g.modbus_ApplicationState = APPLICATION_RUNNING)
    (hcb : programCallback env.modbus_receivedCallback)
    (hquiet : noForcedRecovery s.g)
    (hf : reqByte q 7 = _FC_WRITE_SINGLE_REGISTER)
    (hW : modbus_getWriteMapping (reqWord q 8) = (some m, i))
    (hR : modbus_getReadMapping (reqWord q 8) = (some m, i))
    (hm1 : m ≠ Mapping.mb_mapping_in) (hm2 : m ≠ Mapping.mb_mapping_2_in)
    (hiA : i ≤ reqWord q 8)
    (hin : i < (s.g.maps m).nb_registers)
    (hlen : i < (s.g.maps m).tab_registers.length)
    (hf2 : reqByte q2 7 = _FC_READ_HOLDING_REGISTERS)
    (hA2 : reqWord q2 8 = reqWord q 8)
    (hn : reqWord q2 10 = 1) :
    (modbus_worker env (modbus_worker env s q rc) q2 rc2).sent =
      s.sent ++ [Reply.copy (q.take rc),
        normalReply q2 [2, reqWord q 10 / 256 % 256, reqWord q 10 % 256]] := by
  obtain ⟨c1, c2, c3, -⟩ := programCallback_quiet hcb
    (setRegisters (modbusWatchdog_trigger s.g) m
      ((s.g.maps m).tab_registers.set i (reqWord q 10)))
    (noForcedRecovery_setRegisters _ _ _ (noForcedRecovery_trigger _ hquiet))
  obtain ⟨-, -, d3, -⟩ := programCallback_quiet hcb
    (modbusWatchdog_trigger (runCallback env.modbus_receivedCallback
      (setRegisters (modbusWatchdog_trigger s.g) m
        ((s.g.maps m).tab_registers.set i (reqWord q 10)))))
    (noForcedRecovery_trigger _ c1)
  have hmap : (runCallback env.modbus_receivedCallback
      (modbusWatchdog_trigger (runCallback env.modbus_receivedCallback
        (setRegisters (modbusWatchdog_trigger s.g) m
          ((s.g.maps m).tab_registers.set i (reqWord q 10)))))).maps m =
      { s.g.maps m with tab_registers := (s.g.maps m).tab_registers.set i (reqWord q 10) } := by
    rw [d3 m hm1 hm2, trigger_maps, c3 m hm1 hm2, setRegisters_maps_same, trigger_maps]
  rw [modbus_worker_write_single env s q rc m i hrun hf hW hiA hin,
    modbus_worker_read_one_at env _ q2 rc2 m i (by rw [c2]; exact hrun) hf2 hn
      (by rw [hA2]; exact hR) (by rw [hA2]; exact hiA) (by rw [hmap]; exact hin)]
  simp only [hmap, List.getD_eq_getElem?_getD, List.getElem?_set_self hlen, Option.getD_some,
    List.append_assoc, List.singleton_append]

/-- C7, as amended: while RUNNING, with the callback of the program and no forced cycle
that can meet a bus error (operation mode 0, or a bus that reports error code 0), for every
address A in an output window (512-767 or 0x7000-0x72FB) and every 16-bit word w, a
write-single-register (0x06) of w to A is accepted (echoed) and a following read of one
holding register (0x03) at the same address returns w. -/
theorem output_register_round_trip (env : Env) (s : Server) (q : List Nat) (rc : Nat)
    (q2 : List Nat) (rc2 : Nat)
    (hrun : s.g.modbus_ApplicationState = APPLICATION_RUNNING)
    (halloc : Allocated s.g)
    (hcb : programCallback env.modbus_receivedCallback)
    (hquiet : noForcedRecovery s.g)
    (hf : reqByte q 7 = _FC_WRITE_SINGLE_REGISTER)
    (hA : (512 ≤ reqWord q 8 ∧ reqWord q 8 ≤ 767) ∨ (0x7000 ≤ reqWord q 8 ∧ reqWord q 8 ≤ 0x72FB))
    (hf2 : reqByte q2 7 = _FC_READ_HOLDING_REGISTERS)
    (hA2 : reqWord q2 8 = reqWord q 8)
    (hn : reqWord q2 10 = 1) :
    (modbus_worker env (modbus_worker env s q rc) q2 rc2).sent =
      s.sent ++ [Reply.copy (q.take rc),
        normalReply q2 [2, reqWord q 10 / 256 % 256, reqWord q 10 % 256]] := by
  rcases hA with hA | hA
  · have hW : modbus_getWriteMapping (reqWord q 8) = (some Mapping.mb_mapping_write, reqWord q 8 - 512) := by
      unfold modbus_getWriteMapping
      simp only
      rw [if_neg (by omega), if_pos (by omega)]
    have hR : modbus_getReadMapping (reqWord q 8) = (some Mapping.mb_mapping_write, reqWord q 8 - 512) := by
      unfold modbus_getReadMapping
      simp only
      rw [if_neg (by omega), if_pos (by omega)]
    have ha := allocated_write s.g halloc
    exact write_then_read_same_bank_quiet env s q rc q2 rc2 _ _ hrun hcb hquiet hf hW hR
      (by decide) (by decide) (Nat.sub_le _ _) (by omega) (by omega) hf2 hA2 hn
  · have hW : modbus_getWriteMapping (reqWord q 8) = (some Mapping.mb_mapping_2_write, reqWord q 8 - 0x7000) := by
      unfold modbus_getWriteMapping
      simp only
      rw [if_neg (by omega), if_neg (by omega), if_neg (by omega), if_pos (by omega)]
    have hR : modbus_getReadMapping (reqWord q 8) = (some Mapping.mb_mapping_2_write, reqWord q 8 - 0x7000) := by
      unfold modbus_getReadMapping
      simp only
      rw [if_neg (by omega), if_neg (by omega), if_neg (by omega), if_pos (by omega)]
    have ha := allocated_2_write s.g halloc
    exact write_then_read_same_bank_quiet env s q rc q2 rc2 _ _ hrun hcb hquiet hf hW hR
      (by decide) (by decide) (Nat.sub_le _ _) (by omega) (by omega) hf2 hA2 hn

/-- Witness of C7 as amended: on the example coupler (operation mode 1, no bus error) with
`kbus_forceUpdate` registered, write 0xBEEF to 0x0200, then read one holding register at
0x0200. -/
theorem output_register_round_trip_witness :
    exampleCoupler.modbus_ApplicationState = APPLICATION_RUNNING ∧
      Allocated exampleCoupler ∧
      programCallback registeredEnv.modbus_receivedCallback ∧
      exampleCoupler.conf_operation_mode = 1 ∧
      noForcedRecovery exampleCoupler ∧
      (modbus_worker registeredEnv
          (modbus_worker registeredEnv ⟨exampleCoupler, []⟩ [0, 1, 0, 0, 0, 6, 1, 6, 2, 0, 0xBE, 0xEF] 12)
          [0, 2, 0, 0, 0, 6, 1, 3, 2, 0, 0, 1] 12).sent =
        [Reply.copy [0, 1, 0, 0, 0, 6, 1, 6, 2, 0, 0xBE, 0xEF], Reply.built ⟨1, 3, 2⟩ [2, 0xBE, 0xEF]] :=
  ⟨rfl, fun r => by cases r <;> decide, programCallback_forceUpdate, rfl, by decide,
    output_register_round_trip registeredEnv ⟨exampleCoupler, []⟩
      [0, 1, 0, 0, 0, 6, 1, 6, 2, 0, 0xBE, 0xEF] 12 [0, 2, 0, 0, 0, 6, 1, 3, 2, 0, 0, 1] 12
      rfl (fun r => by cases r <;> decide) programCallback_forceUpdate (by decide)
      rfl (Or.inl (by decide)) rfl rfl rfl⟩

/-- Counterexample to C7 as stated, with `kbus_forceUpdate` registered.  At start-up
(operation mode 0) the write-single-register of 0xBEEF to address 0 (window 0-255) is
accepted and stored in word 0 of PD-OUT-1, and the following read of one holding register
at address 0 returns word 0 of PD-IN-1, here 0, not 0xBEEF; the same happens at 0x6000 with
PD-OUT-2 and PD-IN-2.  On the example coupler (operation mode 1) with a bus that reports
an error at the next poll, the write of 0xBEEF to 0x0200 is accepted, the forced cycle
that follows it meets the error and its recovery zeroes the banks, and the read at 0x0200
returns 0. -/
theorem register_round_trip_counterexample :
    modbus_task_globals.modbus_ApplicationState = APPLICATION_RUNNING ∧
      (modbus_worker registeredEnv ⟨modbus_task_globals, []⟩ [0, 1, 0, 0, 0, 6, 1, 6, 0, 0, 0xBE, 0xEF] 12).sent =
        [Reply.copy [0, 1, 0, 0, 0, 6, 1, 6, 0, 0, 0xBE, 0xEF]] ∧
      (((modbus_worker registeredEnv ⟨modbus_task_globals, []⟩
        [0, 1, 0, 0, 0, 6, 1, 6, 0, 0, 0xBE, 0xEF] 12).g.maps Mapping.mb_mapping_write).tab_registers.getD 0 0 =
        0xBEEF) ∧
      (modbus_worker registeredEnv
          (modbus_worker registeredEnv ⟨modbus_task_globals, []⟩ [0, 1, 0, 0, 0, 6, 1, 6, 0, 0, 0xBE, 0xEF] 12)
          [0, 2, 0, 0, 0, 6, 1, 3, 0, 0, 0, 1] 12).sent =
        [Reply.copy [0, 1, 0, 0, 0, 6, 1, 6, 0, 0, 0xBE, 0xEF],
          normalReply [0, 2, 0, 0, 0, 6, 1, 3, 0, 0, 0, 1] [2, 0, 0]] ∧
      (modbus_worker registeredEnv
          (modbus_worker registeredEnv ⟨modbus_task_globals, []⟩ [0, 1, 0, 0, 0, 6, 1, 6, 0, 0, 0xBE, 0xEF] 12)
          [0, 2, 0, 0, 0, 6, 1, 3, 0, 0, 0, 1] 12).sent ≠
        [Reply.copy [0, 1, 0, 0, 0, 6, 1, 6, 0, 0, 0xBE, 0xEF],
          normalReply [0, 2, 0, 0, 0, 6, 1, 3, 0, 0, 0, 1] [2, 0xBE, 0xEF]] ∧
      (modbus_worker registeredEnv
          (modbus_worker registeredEnv ⟨modbus_task_globals, []⟩ [0, 1, 0, 0, 0, 6, 1, 6, 0x60, 0, 0xBE, 0xEF] 12)
          [0, 2, 0, 0, 0, 6, 1, 3, 0x60, 0, 0, 1] 12).sent =
        [Reply.copy [0, 1, 0, 0, 0, 6, 1, 6, 0x60, 0, 0xBE, 0xEF],
          normalReply [0, 2, 0, 0, 0, 6, 1, 3, 0x60, 0, 0, 1] [2, 0, 0]] ∧
      exampleBusFault.modbus_ApplicationState = APPLICATION_RUNNING ∧
      exampleBusFault.conf_operation_mode = 1 ∧
      exampleBusFault.bus.errorCodes = [3] ∧
      ¬ noForcedRecovery exampleBusFault ∧
      (modbus_worker registeredEnv
          (modbus_worker registeredEnv ⟨exampleBusFault, []⟩ [0, 1, 0, 0, 0, 6, 1, 6, 2, 0, 0xBE, 0xEF] 12)
          [0, 2, 0, 0, 0, 6, 1, 3, 2, 0, 0, 1] 12).sent =
        [Reply.copy [0, 1, 0, 0, 0, 6, 1, 6, 2, 0, 0xBE, 0xEF],
          normalReply [0, 2, 0, 0, 0, 6, 1, 3, 2, 0, 0, 1] [2, 0, 0]] ∧
      (modbus_worker registeredEnv
          (modbus_worker registeredEnv ⟨exampleBusFault, []⟩ [0, 1, 0, 0, 0, 6, 1, 6, 2, 0, 0xBE, 0xEF] 12)
          [0, 2, 0, 0, 0, 6, 1, 3, 2, 0, 0, 1] 12).sent ≠
        [Reply.copy [0, 1, 0, 0, 0, 6, 1, 6, 2, 0, 0xBE, 0xEF],
          normalReply [0, 2, 0, 0, 0, 6, 1, 3, 2, 0, 0, 1] [2, 0xBE, 0xEF]] := by
  decide

/-! ## The mirror window of PD-OUT-1 with the callback of the program -/

theorem allocated_trigger (g : Globals) (h : Allocated g) :
    Allocated (modbusWatchdog_trigger g) := h

theorem allocated_storeOutputWord (g : Globals) (k w : Nat) (h : Allocated g) :
    Allocated (storeOutputWord g k w) := by
  unfold storeOutputWord
  exact allocated_setRegisters _ _ _ (allocated_trigger g h) (by
    rw [List.length_set]
    rfl)

theorem noForcedRecovery_storeOutputWord (g : Globals) (k w : Nat) (h : noForcedRecovery g) :
    noForcedRecovery (storeOutputWord g k w) := h

/-- C8, as amended.  While RUNNING, with the callback of the program, for every k in 0..255
and every word w, a register write of w to address k and a register write of w to the
mirror address 512+k leave the globals in the same state, the one the received callback
makes of the state in which word k of PD-OUT-1 is w and every other word of every bank is
as before.  When no forced cycle can meet a bus error (operation mode 0, or a bus that
reports error code 0), after either write PD-OUT-1 is as before but for word k, which is
w, and every bank other than PD-OUT-1 and the input banks PD-IN-1 and PD-IN-2 is as before;
a read-holding of one register at 512+k returns w; a read-holding of one register at an
address j in 0..255 returns word j of PD-IN-1 as that request leaves it, and in operation
mode 0 the write changes nothing but word k of PD-OUT-1 and the countdown, so that this
read returns the word PD-IN-1 held before the write. -/
theorem mirror_write_same_state (env : Env) (s s1 : Server) (q q' : List Nat)
    (rc rc' k w : Nat)
    (hrun : s.g.modbus_ApplicationState = APPLICATION_RUNNING)
    (halloc : Allocated s.g)
    (hcb : programCallback env.modbus_receivedCallback)
    (hk : k ≤ 255)
    (hq : isRegisterWrite q k w)
    (hq' : isRegisterWrite q' (512 + k) w)
    (hs1 : s1 = modbus_worker env s q rc ∨ s1 = modbus_worker env s q' rc') :
    (modbus_worker env s q rc).g = (modbus_worker env s q' rc').g ∧
      (modbus_worker env s q rc).g =
        runCallback env.modbus_receivedCallback (storeOutputWord s.g k w) ∧
      ((storeOutputWord s.g k w).maps Mapping.mb_mapping_write).tab_registers.getD k 0 = w ∧
      (∀ j, j ≠ k → ((storeOutputWord s.g k w).maps Mapping.mb_mapping_write).tab_registers.getD j 0 =
        (s.g.maps Mapping.mb_mapping_write).tab_registers.getD j 0) ∧
      (∀ r, r ≠ Mapping.mb_mapping_write → (storeOutputWord s.g k w).maps r = s.g.maps r) ∧
      (noForcedRecovery s.g →
        (s1.g.maps Mapping.mb_mapping_write).tab_registers =
            (s.g.maps Mapping.mb_mapping_write).tab_registers.set k w ∧
          (∀ r, r ≠ Mapping.mb_mapping_write → r ≠ Mapping.mb_mapping_in →
            r ≠ Mapping.mb_mapping_2_in → s1.g.maps r = s.g.maps r) ∧
          (∀ q2 rc2, reqByte q2 7 = _FC_READ_HOLDING_REGISTERS → reqWord q2 8 = 512 + k →
            reqWord q2 10 = 1 →
            (modbus_worker env s1 q2 rc2).sent =
              s1.sent ++ [normalReply q2 [2, w / 256 % 256, w % 256]]) ∧
          (∀ q3 rc3, reqByte q3 7 = _FC_READ_HOLDING_REGISTERS → reqWord q3 8 ≤ 255 →
            reqWord q3 10 = 1 →
            (modbus_worker env s1 q3 rc3).sent =
              s1.sent ++ [normalReply q3
                [2, ((modbus_worker env s1 q3 rc3).g.maps
                    Mapping.mb_mapping_in).tab_registers.getD (reqWord q3 8) 0 / 256 % 256,
                  ((modbus_worker env s1 q3 rc3).g.maps
                    Mapping.mb_mapping_in).tab_registers.getD (reqWord q3 8) 0 % 256]])) ∧
      (s.g.conf_operation_mode = 0 →
        s1.g = storeOutputWord s.g k w ∧
          ∀ q3 rc3, reqByte q3 7 = _FC_READ_HOLDING_REGISTERS → reqWord q3 8 ≤ 255 →
            reqWord q3 10 = 1 →
            (modbus_worker env s1 q3 rc3).sent =
              s1.sent ++ [normalReply q3
                [2, (s.g.maps Mapping.mb_mapping_in).tab_registers.getD (reqWord q3 8) 0 / 256 % 256,
                  (s.g.maps Mapping.mb_mapping_in).tab_registers.getD (reqWord q3 8) 0 % 256]]) := by
  have ha := allocated_write s.g halloc
  have hW : modbus_getWriteMapping k = (some Mapping.mb_mapping_write, k) := by
    unfold modbus_getWriteMapping
    simp only
    rw [if_pos hk]
  have hW' : modbus_getWriteMapping (512 + k) = (some Mapping.mb_mapping_write, k) := by
    unfold modbus_getWriteMapping
    simp only
    rw [if_neg (by omega), if_pos (by omega), Nat.add_sub_cancel_left]
  have hg := modbus_worker_register_write_g env s q rc k k w hrun halloc hq hW (le_refl _) hk
  have hg' := modbus_worker_register_write_g env s q' rc' (512 + k) k w hrun halloc hq' hW'
    (by omega) hk
  have hs1g : s1.g = runCallback env.modbus_receivedCallback (storeOutputWord s.g k w) := by
    rcases hs1 with h | h <;> rw [h] <;> assumption
  have hstore : (storeOutputWord s.g k w).maps Mapping.mb_mapping_write =
      { s.g.maps Mapping.mb_mapping_write with
        tab_registers := (s.g.maps Mapping.mb_mapping_write).tab_registers.set k w } := by
    simp only [storeOutputWord, setRegisters_maps_same]
    rfl
  have hother : ∀ r, r ≠ Mapping.mb_mapping_write → (storeOutputWord s.g k w).maps r = s.g.maps r := by
    intro r hr
    simp only [storeOutputWord]
    rw [setRegisters_maps_other _ _ _ _ hr]
    rfl
  have hread : ∀ (q3 : List Nat) (rc3 : Nat), s1.g.modbus_ApplicationState = APPLICATION_RUNNING →
      Allocated (runCallback env.modbus_receivedCallback (modbusWatchdog_trigger s1.g)) →
      reqByte q3 7 = _FC_READ_HOLDING_REGISTERS → reqWord q3 8 ≤ 255 → reqWord q3 10 = 1 →
      modbus_worker env s1 q3 rc3 =
        ⟨runCallback env.modbus_receivedCallback (modbusWatchdog_trigger s1.g),
          s1.sent ++ [normalReply q3
            [2, ((runCallback env.modbus_receivedCallback
                (modbusWatchdog_trigger s1.g)).maps Mapping.mb_mapping_in).tab_registers.getD
                  (reqWord q3 8) 0 / 256 % 256,
              ((runCallback env.modbus_receivedCallback
                (modbusWatchdog_trigger s1.g)).maps Mapping.mb_mapping_in).tab_registers.getD
                  (reqWord q3 8) 0 % 256]]⟩ := by
    intro q3 rc3 hr1 hal hf3 hA3 hn
    have hR : modbus_getReadMapping (reqWord q3 8) = (some Mapping.mb_mapping_in, reqWord q3 8) := by
      unfold modbus_getReadMapping
      simp only
      rw [if_pos hA3]
    exact modbus_worker_read_one_at env s1 q3 rc3 _ _ hr1 hf3 hn hR (le_refl _)
      (by rw [(allocated_in _ hal).1]; omega)
  refine ⟨hg.trans hg'.symm, hg, ?_, ?_, hother, ?_, ?_⟩
  · rw [hstore]
    simp only [List.getD_eq_getElem?_getD]
    rw [List.getElem?_set_self (by omega)]
    rfl
  · intro j hj
    rw [hstore]
    simp only [List.getD_eq_getElem?_getD]
    rw [List.getElem?_set_ne (Ne.symm hj)]
  · intro hquiet
    obtain ⟨c1, c2, c3, c4⟩ := programCallback_quiet hcb (storeOutputWord s.g k w)
      (noForcedRecovery_storeOutputWord _ _ _ hquiet)
    rw [← hs1g] at c1 c2 c3 c4
    obtain ⟨d1, d2, d3, d4⟩ := programCallback_quiet hcb (modbusWatchdog_trigger s1.g)
      (noForcedRecovery_trigger _ c1)
    have hs1run : s1.g.modbus_ApplicationState = APPLICATION_RUNNING := by
      rw [c2]
      exact hrun
    have hs1W : s1.g.maps Mapping.mb_mapping_write =
        { s.g.maps Mapping.mb_mapping_write with
          tab_registers := (s.g.maps Mapping.mb_mapping_write).tab_registers.set k w } := by
      rw [c3 _ (by decide) (by decide), hstore]
    refine ⟨by rw [hs1W], ?_, ?_, ?_⟩
    · intro r h1 h2 h3
      rw [c3 r h2 h3, hother r h1]
    · intro q2 rc2 hf2 hA2 hn
      have hR : modbus_getReadMapping (reqWord q2 8) = (some Mapping.mb_mapping_write, k) := by
        unfold modbus_getReadMapping
        simp only
        rw [if_neg (by omega), if_pos (by omega), hA2, Nat.add_sub_cancel_left]
      have hmap : (runCallback env.modbus_receivedCallback
          (modbusWatchdog_trigger s1.g)).maps Mapping.mb_mapping_write =
          { s.g.maps Mapping.mb_mapping_write with
            tab_registers := (s.g.maps Mapping.mb_mapping_write).tab_registers.set k w } := by
        rw [d3 _ (by decide) (by decide), trigger_maps, hs1W]
      rw [modbus_worker_read_one_at env s1 q2 rc2 _ k hs1run hf2 hn hR (by omega)
        (by rw [hmap]; show k < (s.g.maps Mapping.mb_mapping_write).nb_registers; omega)]
      simp only [hmap, List.getD_eq_getElem?_getD]
      rw [List.getElem?_set_self (by omega)]
      rfl
    · intro q3 rc3 hf3 hA3 hn
      rw [hread q3 rc3 hs1run
        (d4 (allocated_trigger _ (c4 (allocated_storeOutputWord _ _ _ halloc)))) hf3 hA3 hn]
  · intro hmode
    have e1 : s1.g = storeOutputWord s.g k w := by
      rw [hs1g]
      exact programCallback_mode_0 hcb _ hmode
    have e2 : runCallback env.modbus_receivedCallback (modbusWatchdog_trigger s1.g) =
        modbusWatchdog_trigger s1.g :=
      programCallback_mode_0 hcb _ (by rw [e1]; exact hmode)
    refine ⟨e1, ?_⟩
    intro q3 rc3 hf3 hA3 hn
    rw [hread q3 rc3 (by rw [e1]; exact hrun)
      (by rw [e2, e1]; exact allocated_trigger _ (allocated_storeOutputWord _ _ _ halloc))
      hf3 hA3 hn, e2, trigger_maps, e1, hother _ (by decide)]
/-! ## The cycle body on the words of the banks -/

theorem wordsOfBytes_getD (bytes : List Nat) (i : Nat) (h : i < bytes.length / 2) :
    (wordsOfBytes bytes).getD i 0 =
      bytes.getD (2 * i) 0 % 256 + 256 * (bytes.getD (2 * i + 1) 0 % 256) := by
  unfold wordsOfBytes
  rw [List.getD_eq_getElem?_getD, List.getElem?_map, List.getElem?_range h]
  rfl

theorem readInputImage_getD (g : Globals) (k : Nat) :
    (readInputImage g).getD k 0 = inputImageByte g k := by
  unfold readInputImage inputImageByte
  by_cases hk : k < g.bytesToRead
  · rw [if_pos hk, List.getD_eq_getElem?_getD,
      List.getElem?_append_left (by simp only [List.length_map, List.length_range]; exact hk),
      List.getElem?_map, List.getElem?_range hk]
    rfl
  · rw [if_neg hk, List.getD_eq_getElem?_getD,
      List.getElem?_append_right (by simp only [List.length_map, List.length_range]; omega),
      List.getElem?_drop, List.getD_eq_getElem?_getD]
    simp only [List.length_map, List.length_range]
    rw [show g.bytesToRead + (k - g.bytesToRead) = k by omega]

theorem readInputImage_length (g : Globals) :
    g.pd_in.length ≤ (readInputImage g).length := by
  unfold readInputImage
  simp only [List.length_append, List.length_map, List.length_range, List.length_drop]
  omega

/-- Word `i` of the input image a cycle has read, for a word inside `pd_in`. -/
theorem inputImage_word (g : Globals) (i : Nat) (h : i < g.pd_in.length / 2) :
    (wordsOfBytes (readInputImage g)).getD i 0 = inputImageWord g i := by
  have hl := readInputImage_length g
  rw [wordsOfBytes_getD _ _ (by omega), readInputImage_getD, readInputImage_getD]
  rfl

/-- The input banks after a cycle that can run at once, for an input image that fits the
banks: word i of PD-IN-1 is image word i for every input word the bus has, the words past
the input bit count are as before, and word j of PD-IN-2 is image word 512 + j. -/
theorem kbus_update_ready_banks (g : Globals) (bits : Nat)
    (hall : Allocated g) (hinit : g.modbus_initialized = true)
    (hpd : g.pd_in.length = 4096)
    (hbits : g.status.BitCountAnalogInput + g.status.BitCountDigitalInput = bits)
    (hb : bits ≤ 16 * (MODBUS_INREGISTER_COUNT + MODBUS_INREGISTER_2_COUNT))
    (h : busReady g) :
    (∀ i, i < 256 → 16 * i < bits →
        ((kbus_update g).maps Mapping.mb_mapping_in).tab_registers.getD i 0 =
          inputImageWord g i) ∧
      (∀ i, bits ≤ 16 * i →
        ((kbus_update g).maps Mapping.mb_mapping_in).tab_registers.getD i 0 =
          (g.maps Mapping.mb_mapping_in).tab_registers.getD i 0) ∧
      (∀ j, j < 764 → 16 * (256 + j) < bits →
        ((kbus_update g).maps Mapping.mb_mapping_2_in).tab_registers.getD j 0 =
          inputImageWord g (512 + j)) := by
  obtain ⟨-, -, s3, -⟩ := kbus_update_ready_state g h
  unfold MODBUS_INREGISTER_COUNT MODBUS_INREGISTER_2_COUNT at hb
  have hcount : kbus_mapBitCountToWordRegister (kbus_getBitCount_Input g) =
      bits / 16 + (if bits % 16 > 0 then 1 else 0) := by
    have hlt : bits % 65536 = bits := Nat.mod_eq_of_lt (by omega)
    unfold kbus_mapBitCountToWordRegister kbus_getBitCount_Input
    rw [hbits, hlt]
    apply Nat.mod_eq_of_lt
    split_ifs <;> omega
  have hn : bits / 16 + (if bits % 16 > 0 then 1 else 0) ≤
      MODBUS_OUTREGISTER_COUNT + MODBUS_OUTREGISTER_2_COUNT := by
    unfold MODBUS_OUTREGISTER_COUNT MODBUS_OUTREGISTER_2_COUNT
    split_ifs <;> omega
  obtain ⟨-, w1, w2⟩ := modbus_copy_register_in_words g (wordsOfBytes (readInputImage g))
    (bits / 16 + (if bits % 16 > 0 then 1 else 0)) hinit hn hall
  rw [← hcount, ← s3] at w1 w2
  refine ⟨?_, ?_, ?_⟩
  · intro i hi hib
    rw [w1 i, hcount, if_pos (by split_ifs <;> omega), inputImage_word g i (by omega)]
  · intro i hib
    rw [w1 i, hcount, if_neg (by split_ifs <;> omega)]
  · intro j hj hjb
    rw [w2 j, hcount, if_pos (by split_ifs <;> omega), inputImage_word g (512 + j) (by omega)]

/-- Witness of C8 as amended: on the example coupler (operation mode 1, no bus error) with
`kbus_forceUpdate` registered, write-multiple of 0xBEEF to 0x0000 and to the mirror 0x0200,
one register each, leave the same state, and the read at 0x0200 after the second returns
0xBEEF. -/
theorem mirror_write_same_state_witness :
    exampleCoupler.modbus_ApplicationState = APPLICATION_RUNNING ∧
      Allocated exampleCoupler ∧
      programCallback registeredEnv.modbus_receivedCallback ∧
      noForcedRecovery exampleCoupler ∧
      isRegisterWrite [0, 1, 0, 0, 0, 9, 1, 0x10, 0, 0, 0, 1, 2, 0xBE, 0xEF] 0 0xBEEF ∧
      isRegisterWrite [0, 1, 0, 0, 0, 9, 1, 0x10, 2, 0, 0, 1, 2, 0xBE, 0xEF] (512 + 0) 0xBEEF ∧
      (modbus_worker registeredEnv ⟨exampleCoupler, []⟩
          [0, 1, 0, 0, 0, 9, 1, 0x10, 0, 0, 0, 1, 2, 0xBE, 0xEF] 15).g =
        (modbus_worker registeredEnv ⟨exampleCoupler, []⟩
          [0, 1, 0, 0, 0, 9, 1, 0x10, 2, 0, 0, 1, 2, 0xBE, 0xEF] 15).g ∧
      (modbus_worker registeredEnv
          (modbus_worker registeredEnv ⟨exampleCoupler, []⟩
            [0, 1, 0, 0, 0, 9, 1, 0x10, 2, 0, 0, 1, 2, 0xBE, 0xEF] 15)
          [0, 2, 0, 0, 0, 6, 1, 3, 2, 0, 0, 1] 12).sent =
        (modbus_worker registeredEnv ⟨exampleCoupler, []⟩
            [0, 1, 0, 0, 0, 9, 1, 0x10, 2, 0, 0, 1, 2, 0xBE, 0xEF] 15).sent ++
          [normalReply [0, 2, 0, 0, 0, 6, 1, 3, 2, 0, 0, 1] [2, 0xBEEF / 256 % 256, 0xBEEF % 256]] :=
  ⟨rfl, fun r => by cases r <;> decide, programCallback_forceUpdate, by decide, by decide,
    by decide,
    (mirror_write_same_state registeredEnv ⟨exampleCoupler, []⟩
      (modbus_worker registeredEnv ⟨exampleCoupler, []⟩
        [0, 1, 0, 0, 0, 9, 1, 0x10, 2, 0, 0, 1, 2, 0xBE, 0xEF] 15)
      [0, 1, 0, 0, 0, 9, 1, 0x10, 0, 0, 0, 1, 2, 0xBE, 0xEF]
      [0, 1, 0, 0, 0, 9, 1, 0x10, 2, 0, 0, 1, 2, 0xBE, 0xEF] 15 15 0 0xBEEF
      rfl (fun r => by cases r <;> decide) programCallback_forceUpdate (by decide) (by decide)
      (by decide) (Or.inr rfl)).1,
    ((mirror_write_same_state registeredEnv ⟨exampleCoupler, []⟩
      (modbus_worker registeredEnv ⟨exampleCoupler, []⟩
        [0, 1, 0, 0, 0, 9, 1, 0x10, 2, 0, 0, 1, 2, 0xBE, 0xEF] 15)
      [0, 1, 0, 0, 0, 9, 1, 0x10, 0, 0, 0, 1, 2, 0xBE, 0xEF]
      [0, 1, 0, 0, 0, 9, 1, 0x10, 2, 0, 0, 1, 2, 0xBE, 0xEF] 15 15 0 0xBEEF
      rfl (fun r => by cases r <;> decide) programCallback_forceUpdate (by decide) (by decide)
      (by decide) (Or.inr rfl)).2.2.2.2.2.1 (by decide)).2.2.1
        [0, 2, 0, 0, 0, 6, 1, 3, 2, 0, 0, 1] 12 (by decide) (by decide) (by decide)⟩

/-- Counterexample to C8 as stated, with `kbus_forceUpdate` registered.  On the example
coupler (operation mode 1) with a bus that reports an error at the next poll, the write of
0xBEEF to the mirror address 0x0200 is accepted, the forced cycle that follows it meets the
error and its recovery zeroes the banks, and the read at 0x0200 returns 0, not 0xBEEF.  On
the example coupler without bus error, the forced cycle of the same write stores the input
word 0x1234 in word 0 of PD-IN-1, which held 0: a word of another bank has changed. -/
theorem mirror_write_counterexample :
    exampleBusFault.modbus_ApplicationState = APPLICATION_RUNNING ∧
      exampleBusFault.conf_operation_mode = 1 ∧
      exampleBusFault.bus.errorCodes = [3] ∧
      (modbus_worker registeredEnv
          (modbus_worker registeredEnv ⟨exampleBusFault, []⟩
            [0, 1, 0, 0, 0, 9, 1, 0x10, 2, 0, 0, 1, 2, 0xBE, 0xEF] 15)
          [0, 2, 0, 0, 0, 6, 1, 3, 2, 0, 0, 1] 12).sent =
        [normalReply [0, 1, 0, 0, 0, 9, 1, 0x10, 2, 0, 0, 1, 2, 0xBE, 0xEF] [2, 0, 0, 1],
          normalReply [0, 2, 0, 0, 0, 6, 1, 3, 2, 0, 0, 1] [2, 0, 0]] ∧
      (modbus_worker registeredEnv
          (modbus_worker registeredEnv ⟨exampleBusFault, []⟩
            [0, 1, 0, 0, 0, 9, 1, 0x10, 2, 0, 0, 1, 2, 0xBE, 0xEF] 15)
          [0, 2, 0, 0, 0, 6, 1, 3, 2, 0, 0, 1] 12).sent ≠
        [normalReply [0, 1, 0, 0, 0, 9, 1, 0x10, 2, 0, 0, 1, 2, 0xBE, 0xEF] [2, 0, 0, 1],
          normalReply [0, 2, 0, 0, 0, 6, 1, 3, 2, 0, 0, 1] [2, 0xBE, 0xEF]] ∧
      exampleCoupler.conf_operation_mode = 1 ∧ noForcedRecovery exampleCoupler ∧
      (exampleCoupler.maps Mapping.mb_mapping_in).tab_registers.getD 0 0 = 0 ∧
      ((modbus_worker registeredEnv ⟨exampleCoupler, []⟩
          [0, 1, 0, 0, 0, 9, 1, 0x10, 2, 0, 0, 1, 2, 0xBE, 0xEF] 15).g.maps
            Mapping.mb_mapping_in).tab_registers.getD 0 0 = 0x1234 := by
  refine ⟨rfl, rfl, rfl, by decide, by decide, rfl, by decide, by decide, ?_⟩
  have e := modbus_worker_register_write_g registeredEnv ⟨exampleCoupler, []⟩
    [0, 1, 0, 0, 0, 9, 1, 0x10, 2, 0, 0, 1, 2, 0xBE, 0xEF] 15 (512 + 0) 0 0xBEEF rfl
    (fun r => by cases r <;> decide) (by decide) (by decide) (by decide) (by decide)
  rw [e]
  have hf : runCallback registeredEnv.modbus_receivedCallback
      (storeOutputWord exampleCoupler 0 0xBEEF) =
      kbus_timerSetTime
        (kbus_update (kbus_timerSetTime (storeOutputWord exampleCoupler 0 0xBEEF)
          TimerArg.addressOfHandle 0))
        TimerArg.addressOfHandle
        (kbus_update (kbus_timerSetTime (storeOutputWord exampleCoupler 0 0xBEEF)
          TimerArg.addressOfHandle 0)).conf_kbus_cycle_ms := by
    show kbus_forceUpdate (storeOutputWord exampleCoupler 0 0xBEEF) = _
    unfold kbus_forceUpdate
    rw [if_pos (by decide)]
  rw [hf]
  show ((kbus_update (kbus_timerSetTime (storeOutputWord exampleCoupler 0 0xBEEF)
    TimerArg.addressOfHandle 0)).maps Mapping.mb_mapping_in).tab_registers.getD 0 0 = 0x1234
  rw [(kbus_update_ready_banks _ 16 (fun r => by cases r <;> decide) rfl
    (List.length_replicate 4096 0) (by decide) (by decide) (by decide)).1 0 (by decide)
    (by decide)]
  decide

/-! ## Round trip of a coil write with the callback of the program -/

theorem noForcedRecovery_mapWriteCoils (g : Globals) (h : noForcedRecovery g) :
    noForcedRecovery (modbus_mapWriteCoilsToRegister g) := h

theorem bitmapSet_length (t : List Nat) (i b : Nat) : (bitmapSet t i b).length = t.length := by
  unfold bitmapSet
  exact List.length_set _ _ _

theorem set_bitmap16_length (tab : List Nat) (address nb : Nat) (src : List Nat) :
    (modbus_set_bitmap16_from_bytes tab address nb src).length = tab.length := by
  unfold modbus_set_bitmap16_from_bytes
  induction nb with
  | zero => rfl
  | succ n ih =>
    rw [List.range_succ, List.foldl_append]
    simp only [List.foldl_cons, List.foldl_nil, bitmapSet_length, ih]

/-- Case principle for the globals after a write-coil reply: unchanged, or the coil bitmap
of `m` is replaced by one of the same length. -/
theorem reply_offset_coil_cases (env : Env) (s : Server) (q : List Nat) (rc : Nat) (m : Mapping)
    (off : Nat) (P : Globals → Prop)
    (hf : reqByte q 7 = _FC_WRITE_SINGLE_COIL ∨ reqByte q 7 = _FC_WRITE_MULTIPLE_COILS)
    (h_same : P s.g)
    (h_bits : ∀ t, t.length = (s.g.maps m).tab_bits.length → P (setBits s.g m t)) :
    P (modbus_reply_offset env s q rc m off).g := by
  unfold modbus_reply_offset
  simp only [header_length, Nat.reduceAdd, Nat.reduceSub, apply_ite Server.g, send_msg_g]
  generalize (if reqByte q 7 ≠ _FC_WRITE_AND_READ_REGISTERS then reqWord q 8 - off
    else reqWord q 8) = addr
  by_cases h0 : reqWord q 8 < off
  · rw [if_pos h0]
    exact h_same
  rw [if_neg h0]
  rcases hf with hf | hf
  · rw [if_neg (by rw [hf]; decide), if_neg (by rw [hf]; decide), if_neg (by rw [hf]; decide),
      if_neg (by rw [hf]; decide), if_pos hf]
    split_ifs <;> first | exact h_same | exact h_bits _ (set_bitmap16_length _ _ _ _)
  · rw [if_neg (by rw [hf]; decide), if_neg (by rw [hf]; decide), if_neg (by rw [hf]; decide),
      if_neg (by rw [hf]; decide), if_neg (by rw [hf]; decide), if_neg (by rw [hf]; decide),
      if_pos hf]
    split_ifs <;> first | exact h_same | exact h_bits _ (set_bitmap16_length _ _ _ _)

/-- The write path on a write-coil request: whatever the reply, the copy of the coil
bitmap into PD-OUT-1 comes last, from a state with the offsets, PD-OUT-1, the size of the
COIL-OUT-1 bitmap, the operation mode and the bus as before. -/
theorem worker_write_coil_copy_frame (env : Env) (s : Server) (q : List Nat) (rc : Nat)
    (hf : reqByte q 7 = _FC_WRITE_SINGLE_COIL ∨ reqByte q 7 = _FC_WRITE_MULTIPLE_COILS) :
    ∃ s2 : Server, modbus_worker_write env s q rc =
        s2.onGlobals modbus_mapWriteCoilsToRegister ∧
      s2.g.offset_output = s.g.offset_output ∧ s2.g.bytesToWrite = s.g.bytesToWrite ∧
      s2.g.maps Mapping.mb_mapping_write = s.g.maps Mapping.mb_mapping_write ∧
      (s2.g.maps Mapping.mb_digital_1_write).tab_bits.length =
        (s.g.maps Mapping.mb_digital_1_write).tab_bits.length ∧
      s2.g.modbus_ApplicationState = s.g.modbus_ApplicationState ∧
      (noForcedRecovery s.g → noForcedRecovery s2.g) := by
  have hfr : ∀ (m : Mapping) (off : Nat), m ≠ Mapping.mb_mapping_write →
      (modbus_reply_offset env (s.onGlobals modbus_mapReadCoils) q rc m off).g.offset_output =
          s.g.offset_output ∧
        (modbus_reply_offset env (s.onGlobals modbus_mapReadCoils) q rc m off).g.bytesToWrite =
          s.g.bytesToWrite ∧
        (modbus_reply_offset env (s.onGlobals modbus_mapReadCoils) q rc m off).g.maps
            Mapping.mb_mapping_write = s.g.maps Mapping.mb_mapping_write ∧
        ((modbus_reply_offset env (s.onGlobals modbus_mapReadCoils) q rc m off).g.maps
            Mapping.mb_digital_1_write).tab_bits.length =
          (s.g.maps Mapping.mb_digital_1_write).tab_bits.length ∧
        (modbus_reply_offset env (s.onGlobals modbus_mapReadCoils) q rc m
          off).g.modbus_ApplicationState = s.g.modbus_ApplicationState ∧
        (noForcedRecovery s.g →
          noForcedRecovery (modbus_reply_offset env (s.onGlobals modbus_mapReadCoils) q rc m off).g) := by
    intro m off hm
    have hD : ((s.onGlobals modbus_mapReadCoils).g.maps Mapping.mb_digital_1_write) =
        s.g.maps Mapping.mb_digital_1_write := mapReadCoils_maps _ _ (by decide)
    have hW : ((s.onGlobals modbus_mapReadCoils).g.maps Mapping.mb_mapping_write) =
        s.g.maps Mapping.mb_mapping_write := mapReadCoils_maps _ _ (by decide)
    apply reply_offset_coil_cases env (s.onGlobals modbus_mapReadCoils) q rc m off
      (fun g => g.offset_output = s.g.offset_output ∧ g.bytesToWrite = s.g.bytesToWrite ∧
        g.maps Mapping.mb_mapping_write = s.g.maps Mapping.mb_mapping_write ∧
        (g.maps Mapping.mb_digital_1_write).tab_bits.length =
          (s.g.maps Mapping.mb_digital_1_write).tab_bits.length ∧
        g.modbus_ApplicationState = s.g.modbus_ApplicationState ∧
        (noForcedRecovery s.g → noForcedRecovery g)) hf
    · exact ⟨rfl, rfl, hW, by rw [hD], rfl, fun h => h⟩
    · intro t ht
      refine ⟨rfl, rfl, ?_, ?_, rfl, fun h => h⟩
      · rw [setBits_maps_other _ _ _ _ (Ne.symm hm)]
        exact hW
      · by_cases hmD : m = Mapping.mb_digital_1_write
        · subst hmD
          rw [setBits_maps_same]
          show t.length = _
          rw [ht, hD]
        · rw [setBits_maps_other _ _ _ _ (Ne.symm hmD), hD]
  unfold modbus_worker_write modbus_reply
  simp only [header_length, Nat.reduceAdd]
  rw [if_pos hf]
  refine ⟨_, rfl, ?_⟩
  by_cases a1 : reqWord q 8 ≤ 511
  · rw [if_pos a1]
    exact hfr _ _ (by decide)
  rw [if_neg a1]
  by_cases a2 : reqWord q 8 ≥ 512 ∧ reqWord q 8 ≤ 1023
  · rw [if_pos a2]
    exact hfr _ _ (by decide)
  rw [if_neg a2]
  by_cases a3 : reqWord q 8 ≥ 0x8000 ∧ reqWord q 8 ≤ 0x85F7
  · rw [if_pos a3]
    exact hfr _ _ (by decide)
  rw [if_neg a3]
  by_cases a4 : reqWord q 8 ≥ 0x9000 ∧ reqWord q 8 ≤ 0x95F7
  · rw [if_pos a4]
    exact hfr _ _ (by decide)
  rw [if_neg a4, reply_exception_g]
  exact ⟨rfl, rfl, mapReadCoils_maps _ _ (by decide),
    congrArg (fun m => m.tab_bits.length)
      (mapReadCoils_maps s.g Mapping.mb_digital_1_write (by decide)), rfl, fun h => h⟩

/-- C25, evaluated on the code: the COIL-OUT-1 bitmap has 64 bytes before and after the
request.  While RUNNING, with the callback of the program, no forced cycle that can meet a
bus error and `digital_out_byte_offset ≤ bytesToWrite ≤ 512`, after every write-coil
request (0x05 or 0x0F), whatever its address and its reply, byte
`digital_out_byte_offset + i` of the byte view of PD-OUT-1 is byte i of the COIL-OUT-1
bitmap for every `i < bytesToWrite - digital_out_byte_offset` with `i < 64`, and the bytes
of PD-OUT-1 below `digital_out_byte_offset` and from `bytesToWrite` on are as before the
request.  The loop runs `bytesToWrite - digital_out_byte_offset` passes, so with more than
64 digital output bytes its index leaves the bitmap. -/
theorem coil_write_copies_bitmap_bytes (env : Env) (s : Server) (q : List Nat) (rc : Nat)
    (hrun : s.g.modbus_ApplicationState = APPLICATION_RUNNING)
    (halloc : Allocated s.g)
    (hcb : programCallback env.modbus_receivedCallback)
    (hquiet : noForcedRecovery s.g)
    (hf : reqByte q 7 = _FC_WRITE_SINGLE_COIL ∨ reqByte q 7 = _FC_WRITE_MULTIPLE_COILS)
    (hoff : s.g.offset_output ≤ s.g.bytesToWrite) (hmax : s.g.bytesToWrite ≤ 512) :
    (s.g.maps Mapping.mb_digital_1_write).tab_bits.length = 64 ∧
      ((modbus_worker env s q rc).g.maps Mapping.mb_digital_1_write).tab_bits.length = 64 ∧
      (∀ i, i < s.g.bytesToWrite - s.g.offset_output → i < 64 →
        regByteGet ((modbus_worker env s q rc).g.maps Mapping.mb_mapping_write).tab_registers
            (s.g.offset_output + i) =
          ((modbus_worker env s q rc).g.maps Mapping.mb_digital_1_write).tab_bits.getD i 0 % 256) ∧
      (∀ k, k < s.g.offset_output ∨ s.g.bytesToWrite ≤ k →
        regByteGet ((modbus_worker env s q rc).g.maps Mapping.mb_mapping_write).tab_registers k =
          regByteGet (s.g.maps Mapping.mb_mapping_write).tab_registers k) ∧
      (64 < s.g.bytesToWrite - s.g.offset_output →
        ∃ i, i < s.g.bytesToWrite - s.g.offset_output ∧
          ((modbus_worker env s q rc).g.maps Mapping.mb_digital_1_write).tab_bits.length ≤ i) := by
  obtain ⟨s2, hs2, ho, hb, hW, hL, hS, hQ⟩ := worker_write_coil_copy_frame env
    (s.onGlobals modbusWatchdog_trigger) q rc hf
  simp only [onGlobals_g] at ho hb hW hL hS hQ
  have ho' : s2.g.offset_output = s.g.offset_output := ho
  have hb' : s2.g.bytesToWrite = s.g.bytesToWrite := hb
  have hW' : s2.g.maps Mapping.mb_mapping_write = s.g.maps Mapping.mb_mapping_write := hW
  have hL0 : (s.g.maps Mapping.mb_digital_1_write).tab_bits.length = 64 :=
    (halloc _).2.2.2.2.1.trans (by decide)
  have hL' : (s2.g.maps Mapping.mb_digital_1_write).tab_bits.length = 64 := hL.trans hL0
  have hlen : (s.g.maps Mapping.mb_mapping_write).tab_registers.length = 256 :=
    (allocated_write s.g halloc).2
  have hcount : (s.g.bytesToWrite + 4294967296 - s.g.offset_output) % 4294967296 =
      s.g.bytesToWrite - s.g.offset_output := by omega
  obtain ⟨-, -, c3, -⟩ := programCallback_quiet hcb (modbus_mapWriteCoilsToRegister s2.g)
    (noForcedRecovery_mapWriteCoils _ (hQ (noForcedRecovery_trigger _ hquiet)))
  have hWout : ((modbus_worker env s q rc).g.maps Mapping.mb_mapping_write).tab_registers =
      (List.range (s.g.bytesToWrite - s.g.offset_output)).foldl
        (fun reg i => regByteSet reg (s.g.offset_output + i)
          ((s2.g.maps Mapping.mb_digital_1_write).tab_bits.getD i 0))
        (s.g.maps Mapping.mb_mapping_write).tab_registers := by
    rw [modbus_worker_of_write env s q rc (running_ne_stop hrun) (by tauto), hs2]
    simp only [onGlobals_g]
    rw [c3 _ (by decide) (by decide)]
    unfold modbus_mapWriteCoilsToRegister
    simp only [setRegisters_maps_same, ho', hb', hW', hcount]
  have hDout : (modbus_worker env s q rc).g.maps Mapping.mb_digital_1_write =
      s2.g.maps Mapping.mb_digital_1_write := by
    rw [modbus_worker_of_write env s q rc (running_ne_stop hrun) (by tauto), hs2]
    simp only [onGlobals_g]
    rw [c3 _ (by decide) (by decide), mapWriteCoils_maps _ _ (by decide)]
  rw [hWout, hDout]
  refine ⟨hL0, hL', ?_, ?_, ?_⟩
  · intro i hi _
    rw [mapWriteCoils_loop, if_pos ⟨by omega, by omega, by omega⟩, Nat.add_sub_cancel_left]
  · intro k hk
    rw [mapWriteCoils_loop, if_neg (by omega)]
  · intro h
    exact ⟨64, h, by rw [hL']⟩

/-- Witness of C25 on the code, with `kbus_forceUpdate` registered and operation
mode 1.  On the example with digital-output byte offset 2 and four bytes to write,
switching coil 515 on puts bit 3 of byte 0 of COIL-OUT-1; afterwards bytes 2 and 3 of
PD-OUT-1 are the bitmap bytes 8 and 0 (word 1 is 0x0008, it was 0xAAAA) and word 0 is still
0xBEEF.  On the example with 200 digital output bytes the loop index passes the end of the
64-byte bitmap. -/
theorem coil_write_copies_bitmap_bytes_witness :
    exampleDigitalCoupler.modbus_ApplicationState = APPLICATION_RUNNING ∧
      Allocated exampleDigitalCoupler ∧
      programCallback registeredEnv.modbus_receivedCallback ∧
      exampleDigitalCoupler.conf_operation_mode = 1 ∧
      noForcedRecovery exampleDigitalCoupler ∧
      exampleDigitalCoupler.offset_output ≤ exampleDigitalCoupler.bytesToWrite ∧
      exampleDigitalCoupler.bytesToWrite ≤ 512 ∧
      ((modbus_worker registeredEnv ⟨exampleDigitalCoupler, []⟩
        [0, 1, 0, 0, 0, 6, 1, 5, 2, 3, 0xFF, 0] 12).g.maps
          Mapping.mb_digital_1_write).tab_bits.take 2 = [8, 0] ∧
      ((modbus_worker registeredEnv ⟨exampleDigitalCoupler, []⟩
        [0, 1, 0, 0, 0, 6, 1, 5, 2, 3, 0xFF, 0] 12).g.maps
          Mapping.mb_mapping_write).tab_registers.take 3 = [0xBEEF, 0x0008, 0] ∧
      regByteGet ((modbus_worker registeredEnv ⟨exampleDigitalCoupler, []⟩
        [0, 1, 0, 0, 0, 6, 1, 5, 2, 3, 0xFF, 0] 12).g.maps
          Mapping.mb_mapping_write).tab_registers (exampleDigitalCoupler.offset_output + 0) =
        ((modbus_worker registeredEnv ⟨exampleDigitalCoupler, []⟩
          [0, 1, 0, 0, 0, 6, 1, 5, 2, 3, 0xFF, 0] 12).g.maps
            Mapping.mb_digital_1_write).tab_bits.getD 0 0 % 256 ∧
      exampleManyOutputs.offset_output = 0 ∧ exampleManyOutputs.bytesToWrite = 200 ∧
      (∃ i, i < exampleManyOutputs.bytesToWrite - exampleManyOutputs.offset_output ∧
        ((modbus_worker registeredEnv ⟨exampleManyOutputs, []⟩
          [0, 1, 0, 0, 0, 6, 1, 5, 2, 3, 0xFF, 0] 12).g.maps
            Mapping.mb_digital_1_write).tab_bits.length ≤ i) :=
  ⟨rfl, fun r => by cases r <;> decide, programCallback_forceUpdate, rfl, by decide, by decide,
    by decide, by decide, by decide,
    (coil_write_copies_bitmap_bytes registeredEnv ⟨exampleDigitalCoupler, []⟩
      [0, 1, 0, 0, 0, 6, 1, 5, 2, 3, 0xFF, 0] 12 rfl (fun r => by cases r <;> decide)
      programCallback_forceUpdate (by decide) (Or.inl (by decide)) (by decide)
      (by decide)).2.2.1 0 (by decide) (by decide),
    rfl, rfl,
    (coil_write_copies_bitmap_bytes registeredEnv ⟨exampleManyOutputs, []⟩
      [0, 1, 0, 0, 0, 6, 1, 5, 2, 3, 0xFF, 0] 12 rfl (fun r => by cases r <;> decide)
      programCallback_forceUpdate (by decide) (Or.inl (by decide)) (by decide)
      (by decide)).2.2.2.2 (by decide)⟩

/-! ## The stop handshake with the callback of the program -/

/-- The watchdog handler on a write to the stop word 8 touches neither the operation mode
nor the bus. -/
theorem watchdog_parse_stop_quiet (env : Env) (s : Server) (q : List Nat) (rc : Nat)
    (hf : reqByte q 7 = _FC_WRITE_SINGLE_REGISTER)
    (ha : reqWord q 8 = 0x1008)
    (hw : WatchdogAllocated s.g)
    (hq : noForcedRecovery s.g) :
    noForcedRecovery (modbusWatchdog_parseModbusCommand env s q rc).g := by
  have hro := watchdog_reply_offset_write env s q rc 8 hf ha (by decide) hw
  unfold MODBUSWATCHDOG_REGISTER_START_ADDRESS at hro
  obtain ⟨hw1, hw2⟩ := hw
  have h8 : watchdogReg (setWatchdogReg s.g 8 (reqWord q 10)) 8 = reqWord q 10 :=
    watchdogReg_set_same _ _ _ (by rw [hw2]; decide)
  unfold modbusWatchdog_parseModbusCommand
  simp only [header_length, Nat.reduceAdd, hf, ha, MODBUSWATCHDOG_REGISTER_START_ADDRESS,
    _FC_READ_HOLDING_REGISTERS, _FC_WRITE_SINGLE_REGISTER, Nat.reduceSub, Nat.reduceMod,
    Nat.reduceEqDiff, ↓reduceIte, hro, h8]
  by_cases hv : reqWord q 10 = 0x55AA
  · rw [if_pos hv]
    exact hq
  · rw [if_neg hv]
    by_cases h2 : s.g.modbusWatchdog_stopFlag = true ∧ reqWord q 10 = 0xAA55
    · have h2' : (setWatchdogReg s.g 8 (reqWord q 10)).modbusWatchdog_stopFlag = true ∧
          reqWord q 10 = 0xAA55 := h2
      rw [if_pos h2']
      exact hq
    · have h2' : ¬ ((setWatchdogReg s.g 8 (reqWord q 10)).modbusWatchdog_stopFlag = true ∧
          reqWord q 10 = 0xAA55) := h2
      rw [if_neg h2']
      exact hq

/-- The dispatcher on a write to the stop word 8, with the callback of the program and no
forced cycle that can meet a bus error: no storage but the watchdog's and the input
register banks changes, and no later forced cycle can meet a bus error. -/
theorem modbus_worker_stop_write_quiet (env : Env) (s : Server) (q : List Nat) (rc : Nat)
    (hrun : s.g.modbus_ApplicationState = APPLICATION_RUNNING)
    (hw : WatchdogAllocated s.g)
    (hcb : programCallback env.modbus_receivedCallback)
    (hquiet : noForcedRecovery s.g)
    (hq : isStopWrite q) :
    noForcedRecovery (modbus_worker env s q rc).g ∧
      (∀ r, r ≠ Mapping.mb_watchdog_mapping → r ≠ Mapping.mb_mapping_in →
        r ≠ Mapping.mb_mapping_2_in → (modbus_worker env s q rc).g.maps r = s.g.maps r) := by
  obtain ⟨hf, ha⟩ := hq
  have hroute := modbus_worker_watchdog_write env s q rc hrun hf (by rw [ha]; decide)
  have hwt : WatchdogAllocated (modbusWatchdog_trigger s.g) := hw
  obtain ⟨-, -, -, -, -, p6⟩ :=
    watchdog_parse_stop env ⟨modbusWatchdog_trigger s.g, s.sent⟩ q rc hf ha hwt
  have hq1 := watchdog_parse_stop_quiet env ⟨modbusWatchdog_trigger s.g, s.sent⟩ q rc hf ha hwt
    (noForcedRecovery_trigger _ hquiet)
  obtain ⟨c1, -, c3, -⟩ := programCallback_quiet hcb _ hq1
  rw [hroute]
  refine ⟨c1, ?_⟩
  intro r h1 h2 h3
  show (runCallback _ _).maps r = _
  rw [c3 r h2 h3, p6 r h1]
  rfl

/-- C15, as amended: while RUNNING, with the callback of the program and no forced cycle
that can meet a bus error (operation mode 0, or a bus that reports error code 0), after the
writes of 0x55AA and then 0xAA55 to 0x1008 the watchdog is inactive and a read of the
status word 6 (0x1006) returns 0, but every output bank (PD-OUT-1, PD-OUT-2, COIL-OUT-1,
COIL-OUT-2) holds what it held before the two writes, and still does after a subsequent
cycle that runs at once (mutex free, error code 0, push succeeds): the stop handshake does
not call the expiration callback. -/
theorem stop_handshake_leaves_outputs (env : Env) (s : Server) (q1 q2 q3 : List Nat)
    (rc1 rc2 rc3 : Nat)
    (hrun : s.g.modbus_ApplicationState = APPLICATION_RUNNING)
    (hw : WatchdogAllocated s.g)
    (hcb : programCallback env.modbus_receivedCallback)
    (hquiet : noForcedRecovery s.g)
    (h1 : isStopWrite q1 ∧ reqWord q1 10 = 0x55AA)
    (h2 : isStopWrite q2 ∧ reqWord q2 10 = 0xAA55)
    (h3 : reqByte q3 7 = _FC_READ_HOLDING_REGISTERS ∧ reqWord q3 8 = 0x1006 ∧ reqWord q3 10 = 1) :
    (modbus_worker env (modbus_worker env s q1 rc1) q2 rc2).g.modbusWatchdog_active = false ∧
      (modbus_worker env (modbus_worker env (modbus_worker env s q1 rc1) q2 rc2) q3 rc3).sent =
        (modbus_worker env (modbus_worker env s q1 rc1) q2 rc2).sent ++ [normalReply q3 [2, 0, 0]] ∧
      (∀ r ∈ outputBanks,
        (modbus_worker env (modbus_worker env s q1 rc1) q2 rc2).g.maps r = s.g.maps r) ∧
      (busReady (modbus_worker env (modbus_worker env s q1 rc1) q2 rc2).g →
        ∀ r ∈ outputBanks,
          (kbus_update (modbus_worker env (modbus_worker env s q1 rc1) q2 rc2).g).maps r =
            s.g.maps r) := by
  have hk := programCallback_control hcb
  obtain ⟨-, a2, a3, a4, -⟩ := modbus_worker_stop_write env s q1 rc1 hrun hw hk h1.1
  obtain ⟨a7, a8⟩ := modbus_worker_stop_write_quiet env s q1 rc1 hrun hw hcb hquiet h1.1
  obtain ⟨-, b2, b3, -, b5⟩ := modbus_worker_stop_write env _ q2 rc2 a3 a2 hk h2.1
  obtain ⟨-, b8⟩ := modbus_worker_stop_write_quiet env _ q2 rc2 a3 a2 hcb a7 h2.1
  have hact : (modbus_worker env (modbus_worker env s q1 rc1) q2 rc2).g.modbusWatchdog_active = false := by
    rw [b5, if_pos ⟨a4.mpr h1.2, h2.2⟩]
  have hne : ∀ r ∈ outputBanks, r ≠ Mapping.mb_watchdog_mapping ∧ r ≠ Mapping.mb_mapping_in ∧
      r ≠ Mapping.mb_mapping_2_in := by decide
  have hmaps : ∀ r ∈ outputBanks,
      (modbus_worker env (modbus_worker env s q1 rc1) q2 rc2).g.maps r = s.g.maps r := by
    intro r hr
    obtain ⟨n1, n2, n3⟩ := hne r hr
    rw [b8 r n1 n2 n3, a8 r n1 n2 n3]
  refine ⟨hact, ?_, hmaps, ?_⟩
  · rw [modbus_worker_read_status env _ q3 rc3 b3 b2 hk h3.1 h3.2.1 h3.2.2, hact]
    rfl
  · intro hb r hr
    rw [kbus_update_ready_maps _ hb r (hne r hr).2.1 (hne r hr).2.2, hmaps r hr]

/-- Witness of C15 as amended: with `kbus_forceUpdate` registered, after the stop handshake
on the example coupler (operation mode 1, no bus error) with an active watchdog the
watchdog is inactive, the status word reads 0 and PD-OUT-1 is as before, word 0 being
0xBEEF. -/
theorem stop_handshake_leaves_outputs_witness :
    exampleActive.modbus_ApplicationState = APPLICATION_RUNNING ∧
      WatchdogAllocated exampleActive ∧
      programCallback registeredEnv.modbus_receivedCallback ∧
      exampleActive.conf_operation_mode = 1 ∧
      noForcedRecovery exampleActive ∧
      exampleActive.modbusWatchdog_active = true ∧
      (exampleActive.maps Mapping.mb_mapping_write).tab_registers.take 1 = [0xBEEF] ∧
      (modbus_worker registeredEnv (modbus_worker registeredEnv ⟨exampleActive, []⟩
        [0, 1, 0, 0, 0, 6, 1, 6, 0x10, 8, 0x55, 0xAA] 12)
        [0, 2, 0, 0, 0, 6, 1, 6, 0x10, 8, 0xAA, 0x55] 12).g.modbusWatchdog_active = false ∧
      (modbus_worker registeredEnv (modbus_worker registeredEnv ⟨exampleActive, []⟩
        [0, 1, 0, 0, 0, 6, 1, 6, 0x10, 8, 0x55, 0xAA] 12)
        [0, 2, 0, 0, 0, 6, 1, 6, 0x10, 8, 0xAA, 0x55] 12).g.maps Mapping.mb_mapping_write =
        exampleActive.maps Mapping.mb_mapping_write :=
  ⟨rfl, by decide, programCallback_forceUpdate, rfl, by decide, rfl, by decide,
    (stop_handshake_leaves_outputs registeredEnv ⟨exampleActive, []⟩
      [0, 1, 0, 0, 0, 6, 1, 6, 0x10, 8, 0x55, 0xAA] [0, 2, 0, 0, 0, 6, 1, 6, 0x10, 8, 0xAA, 0x55]
      [0, 3, 0, 0, 0, 6, 1, 3, 0x10, 6, 0, 1] 12 12 12 rfl (by decide)
      programCallback_forceUpdate (by decide) (by decide) (by decide) (by decide)).1,
    (stop_handshake_leaves_outputs registeredEnv ⟨exampleActive, []⟩
      [0, 1, 0, 0, 0, 6, 1, 6, 0x10, 8, 0x55, 0xAA] [0, 2, 0, 0, 0, 6, 1, 6, 0x10, 8, 0xAA, 0x55]
      [0, 3, 0, 0, 0, 6, 1, 3, 0x10, 6, 0, 1] 12 12 12 rfl (by decide)
      programCallback_forceUpdate (by decide) (by decide) (by decide) (by decide)).2.2.1
      Mapping.mb_mapping_write (by decide)⟩

/-- Counterexample to C15 as stated, with `kbus_forceUpdate` registered.  On the example
coupler with an active watchdog and 0xBEEF in word 0 of PD-OUT-1, after the writes of
0x55AA and 0xAA55 to 0x1008 the watchdog is inactive and the status word reads 0, but the
subsequent cycle still puts the bytes EF BE on the bus and word 0 of PD-OUT-1 is still
0xBEEF after it.  On the same example with a bus that reports an error at the next poll,
the forced cycle after the first write meets the error and its recovery zeroes the banks:
word 0 of PD-OUT-1 is 0 after the two writes. -/
theorem stop_handshake_counterexample :
    exampleActive.modbusWatchdog_active = true ∧
      (modbus_worker registeredEnv (modbus_worker registeredEnv ⟨exampleActive, []⟩
        [0, 1, 0, 0, 0, 6, 1, 6, 0x10, 8, 0x55, 0xAA] 12)
        [0, 2, 0, 0, 0, 6, 1, 6, 0x10, 8, 0xAA, 0x55] 12).g.modbusWatchdog_active = false ∧
      (modbus_worker registeredEnv (modbus_worker registeredEnv (modbus_worker registeredEnv
        ⟨exampleActive, []⟩ [0, 1, 0, 0, 0, 6, 1, 6, 0x10, 8, 0x55, 0xAA] 12)
        [0, 2, 0, 0, 0, 6, 1, 6, 0x10, 8, 0xAA, 0x55] 12)
        [0, 3, 0, 0, 0, 6, 1, 3, 0x10, 6, 0, 1] 12).sent.drop 2 =
        [normalReply [0, 3, 0, 0, 0, 6, 1, 3, 0x10, 6, 0, 1] [2, 0, 0]] ∧
      (kbus_update (modbus_worker registeredEnv (modbus_worker registeredEnv ⟨exampleActive, []⟩
        [0, 1, 0, 0, 0, 6, 1, 6, 0x10, 8, 0x55, 0xAA] 12)
        [0, 2, 0, 0, 0, 6, 1, 6, 0x10, 8, 0xAA, 0x55] 12).g).trace =
        (modbus_worker registeredEnv (modbus_worker registeredEnv ⟨exampleActive, []⟩
          [0, 1, 0, 0, 0, 6, 1, 6, 0x10, 8, 0x55, 0xAA] 12)
          [0, 2, 0, 0, 0, 6, 1, 6, 0x10, 8, 0xAA, 0x55] 12).g.trace ++
          [Event.KbusInfo_GetStatus, Event.libpackbus_Push, Event.WatchdogTrigger,
            Event.WriteStart, Event.WriteBytes 0 2 [0xEF, 0xBE], Event.WriteEnd,
            Event.ReadStart, Event.ReadBytes 0 2, Event.ReadEnd] ∧
      ((kbus_update (modbus_worker registeredEnv (modbus_worker registeredEnv ⟨exampleActive, []⟩
        [0, 1, 0, 0, 0, 6, 1, 6, 0x10, 8, 0x55, 0xAA] 12)
        [0, 2, 0, 0, 0, 6, 1, 6, 0x10, 8, 0xAA, 0x55] 12).g).maps
          Mapping.mb_mapping_write).tab_registers.take 1 = [0xBEEF] ∧
      exampleActiveFault.modbus_ApplicationState = APPLICATION_RUNNING ∧
      exampleActiveFault.conf_operation_mode = 1 ∧
      exampleActiveFault.bus.errorCodes = [3] ∧
      ¬ noForcedRecovery exampleActiveFault ∧
      (exampleActiveFault.maps Mapping.mb_mapping_write).tab_registers.take 1 = [0xBEEF] ∧
      ((modbus_worker registeredEnv (modbus_worker registeredEnv ⟨exampleActiveFault, []⟩
        [0, 1, 0, 0, 0, 6, 1, 6, 0x10, 8, 0x55, 0xAA] 12)
        [0, 2, 0, 0, 0, 6, 1, 6, 0x10, 8, 0xAA, 0x55] 12).g.maps
          Mapping.mb_mapping_write).tab_registers.take 1 = [0] := by
  decide

/-! ## The timer argument of the cycle functions -/

theorem recoveryEvents_no_timer_handle (codes : List Nat) :
    ∀ e ∈ recoveryEvents codes, e.namesTimerHandle = false := by
  induction codes with
  | nil => decide
  | cons c cs ih =>
    intro e he
    unfold recoveryEvents at he
    split_ifs at he
    · simp only [List.mem_cons, List.mem_singleton, List.not_mem_nil, or_false] at he
      rcases he with h | h | h <;> subst h <;> rfl
    · rcases List.mem_append.mp he with h | h
      · simp only [List.mem_cons, List.mem_singleton, List.not_mem_nil, or_false] at h
        rcases h with h | h | h | h <;> subst h <;> rfl
      · exact ih e h

theorem cycleEvents_no_timer_handle (g : Globals) :
    ∀ e ∈ cycleEvents g, e.namesTimerHandle = false := by
  intro e he
  unfold cycleEvents at he
  simp only [List.mem_cons, List.mem_singleton, List.not_mem_nil, or_false] at he
  rcases he with h | h | h | h | h | h | h | h | h <;> subst h <;> rfl

/-- A cycle entered with the mutex free that polls an error code other than 0: the calls
it makes, the mutex and the output banks on return. -/
theorem kbus_update_error_facts (g : Globals)
    (hm : g.kbus_update_mutex = false)
    (he : g.bus.errorCodes.headD 0 ≠ 0) :
    (kbus_update g).trace =
        g.trace ++ [Event.KbusInfo_GetStatus, Event.timer_settime TimerArg.addressOfHandle 0] ++
          recoveryEvents g.bus.errorCodes.tail ++
          [Event.kbus_close, Event.kbus_setup,
            Event.timer_settime TimerArg.addressOfHandle g.conf_kbus_cycle_ms] ∧
      (kbus_update g).kbus_update_mutex = false ∧
      (Allocated g → ∀ r ∈ outputBanks, bankCleared ((kbus_update g).maps r)) := by
  have e1 : (kbus_getError { g with kbus_update_mutex := true }).2 ≠ 0 := he
  have hg1 : (kbus_timerSetTime (kbus_getError { g with kbus_update_mutex := true }).1
      TimerArg.addressOfHandle 0).bus.errorCodes = g.bus.errorCodes.tail := by
    simp [kbus_timerSetTime, kbus_getError, Globals.emit]
  have hg1t : (kbus_timerSetTime (kbus_getError { g with kbus_update_mutex := true }).1
      TimerArg.addressOfHandle 0).trace =
      g.trace ++ [Event.KbusInfo_GetStatus, Event.timer_settime TimerArg.addressOfHandle 0] := by
    simp [kbus_timerSetTime, kbus_getError, Globals.emit]
  have hg1m : (kbus_timerSetTime (kbus_getError { g with kbus_update_mutex := true }).1
      TimerArg.addressOfHandle 0).maps = g.maps := by
    simp [kbus_timerSetTime, kbus_getError, Globals.emit]
  obtain ⟨l1, l2⟩ := loop_trace (kbus_timerSetTime
    (kbus_getError { g with kbus_update_mutex := true }).1 TimerArg.addressOfHandle 0)
  rw [hg1, hg1t] at l1
  rw [hg1m] at l2
  obtain ⟨r1, r2, r3⟩ := kbus_reset_facts (modbus_clearAllMappings (kbus_loopTilErrorGone
    (kbus_timerSetTime (kbus_getError { g with kbus_update_mutex := true }).1
      TimerArg.addressOfHandle 0)))
  have hcyc : (modbus_clearAllMappings (kbus_loopTilErrorGone
      (kbus_timerSetTime (kbus_getError { g with kbus_update_mutex := true }).1
        TimerArg.addressOfHandle 0))).conf_kbus_cycle_ms = g.conf_kbus_cycle_ms :=
    (sameControl_trans (mutex_sameControl g true)
      (sameControl_trans (getError_sameControl _)
        (sameControl_trans (timerSetTime_sameControl _ TimerArg.addressOfHandle 0)
          (sameControl_trans (loop_sameControl _) (clearAll_sameControl _))))).2.2.2.2.2.2.2
  unfold kbus_update
  rw [if_neg (by rw [hm]; decide)]
  dsimp only
  rw [if_pos e1]
  refine ⟨?_, by simp, ?_⟩
  · show (kbus_timerSetTime _ TimerArg.addressOfHandle _).trace = _
    show (kbus_reset _).1.trace ++ _ = _
    rw [r1, r3, hcyc, clearAll_trace, l1]
    simp
  · intro hall r hr
    show bankCleared ((kbus_reset _).1.maps r)
    rw [r2, clearAll_maps_output _ r hr, l2]
    obtain ⟨s1, s2⟩ := allocated_output_sizes g hall r
    exact ⟨memset0_all _ _ s1, memset0_all _ _ s2⟩

/-- A cycle whose push fails, in the call or in the value it delivers: after the status
poll and the push nothing more is called. -/
theorem kbus_update_trace_push_fails (g : Globals)
    (hm : g.kbus_update_mutex = false) (he : g.bus.errorCodes.headD 0 = 0)
    (hp : ¬ ((g.bus.pushes.headD ⟨true, true⟩).callSuccess = true ∧
      (g.bus.pushes.headD ⟨true, true⟩).retvalSuccess = true)) :
    (kbus_update g).trace = g.trace ++ [Event.KbusInfo_GetStatus, Event.libpackbus_Push] := by
  have e1 : (kbus_getError { g with kbus_update_mutex := true }).2 = 0 := he
  have e2 : (libpackbus_Push (kbus_getError { g with kbus_update_mutex := true }).1).2 =
      g.bus.pushes.headD ⟨true, true⟩ := rfl
  unfold kbus_update
  rw [if_neg (by rw [hm]; decide)]
  dsimp only
  rw [if_neg (by rw [e1]; decide), e2]
  by_cases hc : (g.bus.pushes.headD ⟨true, true⟩).callSuccess = false
  · rw [if_pos hc]
    simp [Globals.emit, kbus_getError, libpackbus_Push]
  · rw [if_neg hc, if_neg (fun hr => hp ⟨by simpa using hc, hr⟩)]
    simp [Globals.emit, kbus_getError, libpackbus_Push]

/-- The calls of one `kbus_update`, by the state it is entered in. -/
theorem kbus_update_trace_cases (g : Globals) :
    ∃ es : List Event, (kbus_update g).trace = g.trace ++ es ∧
      (∀ e ∈ es, e.namesTimerHandle = false) ∧
      (g.kbus_update_mutex = true → es = []) ∧
      (busReady g → es = cycleEvents g) ∧
      (g.kbus_update_mutex = false → g.bus.errorCodes.headD 0 = 0 →
        ¬ ((g.bus.pushes.headD ⟨true, true⟩).callSuccess = true ∧
          (g.bus.pushes.headD ⟨true, true⟩).retvalSuccess = true) →
        es = [Event.KbusInfo_GetStatus, Event.libpackbus_Push]) ∧
      (g.kbus_update_mutex = false → g.bus.errorCodes.headD 0 ≠ 0 →
        es = [Event.KbusInfo_GetStatus, Event.timer_settime TimerArg.addressOfHandle 0] ++
          recoveryEvents g.bus.errorCodes.tail ++
          [Event.kbus_close, Event.kbus_setup,
            Event.timer_settime TimerArg.addressOfHandle g.conf_kbus_cycle_ms]) := by
  by_cases hm : g.kbus_update_mutex = true
  · refine ⟨[], ?_, by simp, fun _ => rfl, ?_, ?_, ?_⟩
    · have e : kbus_update g = g := by
        unfold kbus_update
        rw [if_pos hm]
      rw [e, List.append_nil]
    · intro hb
      exact absurd hm (by rw [hb.1]; decide)
    · intro h
      exact absurd hm (by rw [h]; decide)
    · intro h
      exact absurd hm (by rw [h]; decide)
  have hm' : g.kbus_update_mutex = false := by simpa using hm
  by_cases he : g.bus.errorCodes.headD 0 = 0
  · by_cases hp : (g.bus.pushes.headD ⟨true, true⟩).callSuccess = true ∧
        (g.bus.pushes.headD ⟨true, true⟩).retvalSuccess = true
    · have hb : busReady g := ⟨hm', he, hp.1, hp.2⟩
      refine ⟨cycleEvents g, kbus_update_trace_ready g hb, cycleEvents_no_timer_handle g,
        fun h => absurd h hm, fun _ => rfl, fun _ _ h => absurd hp h, fun _ h => absurd he h⟩
    · refine ⟨[Event.KbusInfo_GetStatus, Event.libpackbus_Push],
        kbus_update_trace_push_fails g hm' he hp, by decide,
        fun h => absurd h hm, fun hb => absurd ⟨hb.2.2.1, hb.2.2.2⟩ hp, fun _ _ _ => rfl,
        fun _ h => absurd he h⟩
  · refine ⟨_, ?_, ?_, fun h => absurd h hm, fun hb => absurd hb.2.1 he,
      fun _ h => absurd h he, fun _ _ => rfl⟩
    · rw [(kbus_update_error_facts g hm' he).1]
      simp only [List.append_assoc]
    · intro e hmem
      rcases List.mem_append.mp hmem with h | h
      · rcases List.mem_append.mp h with h | h
        · simp only [List.mem_cons, List.mem_singleton, List.not_mem_nil, or_false] at h
          rcases h with h | h <;> subst h <;> rfl
        · exact recoveryEvents_no_timer_handle _ e h
      · simp only [List.mem_cons, List.mem_singleton, List.not_mem_nil, or_false] at h
        rcases h with h | h | h <;> subst h <;> rfl

/-- C24, evaluated on the code: a cycle entered with the mutex free that polls an
error code other than 0 makes these calls in this order: the status poll,
`kbus_timerSetTime` with interval 0 on `&kbus_timerID`, the passes of the recovery loop up
to the first pass that reads the code 0, `kbus_close` and `kbus_setup`,
`kbus_timerSetTime` with the configured period on `&kbus_timerID`.  None of them writes or
reads process data, and none of them names the timer handle that `timer_create` stored.
On return the mutex is free and, the storages having the sizes of their allocation, every
register and coil byte of the four output banks is 0. -/
theorem kbus_update_recovery (g : Globals)
    (hm : g.kbus_update_mutex = false)
    (he : g.bus.errorCodes.headD 0 ≠ 0)
    (hall : Allocated g) :
    (kbus_update g).trace =
        g.trace ++ [Event.KbusInfo_GetStatus, Event.timer_settime TimerArg.addressOfHandle 0] ++
          recoveryEvents g.bus.errorCodes.tail ++
          [Event.kbus_close, Event.kbus_setup,
            Event.timer_settime TimerArg.addressOfHandle g.conf_kbus_cycle_ms] ∧
      (∀ e ∈ [Event.KbusInfo_GetStatus, Event.timer_settime TimerArg.addressOfHandle 0] ++
          recoveryEvents g.bus.errorCodes.tail ++
          [Event.kbus_close, Event.kbus_setup,
            Event.timer_settime TimerArg.addressOfHandle g.conf_kbus_cycle_ms],
        e.isProcessData = false ∧ e.namesTimerHandle = false) ∧
      (kbus_update g).kbus_update_mutex = false ∧
      (∀ r ∈ outputBanks, bankCleared ((kbus_update g).maps r)) := by
  obtain ⟨t1, t2, t3⟩ := kbus_update_error_facts g hm he
  refine ⟨t1, ?_, t2, t3 hall⟩
  intro e hmem
  rcases List.mem_append.mp hmem with h | h
  · rcases List.mem_append.mp h with h | h
    · simp only [List.mem_cons, List.mem_singleton, List.not_mem_nil, or_false] at h
      rcases h with h | h <;> subst h <;> exact ⟨rfl, rfl⟩
    · exact ⟨recoveryEvents_no_process_data _ e h, recoveryEvents_no_timer_handle _ e h⟩
  · simp only [List.mem_cons, List.mem_singleton, List.not_mem_nil, or_false] at h
    rcases h with h | h | h <;> subst h <;> exact ⟨rfl, rfl⟩

/-- Witness of C24: on a bus that reports the codes 3, 3, 0 the cycle polls 3, calls
`timer_settime` with 0 on `&kbus_timerID`, runs two passes of the recovery loop (codes 3
and 0), resets the bus and calls `timer_settime` with 50 ms on `&kbus_timerID`; PD-OUT-1,
which held 0xBEEF, is cleared; the last call is not one on the timer handle. -/
theorem kbus_update_recovery_witness :
    exampleBusError.kbus_update_mutex = false ∧ exampleBusError.bus.errorCodes.headD 0 ≠ 0 ∧
      Allocated exampleBusError ∧
      (exampleBusError.maps Mapping.mb_mapping_write).tab_registers.getD 0 0 = 0xBEEF ∧
      (kbus_update exampleBusError).trace =
        [Event.KbusInfo_GetStatus, Event.timer_settime TimerArg.addressOfHandle 0,
          Event.libpackbus_Push, Event.WatchdogTrigger, Event.KbusInfo_GetStatus,
          Event.usleep (50 * 1000),
          Event.libpackbus_Push, Event.WatchdogTrigger, Event.KbusInfo_GetStatus,
          Event.kbus_close, Event.kbus_setup,
          Event.timer_settime TimerArg.addressOfHandle 50] ∧
      bankCleared ((kbus_update exampleBusError).maps Mapping.mb_mapping_write) ∧
      (Event.timer_settime TimerArg.addressOfHandle
        exampleBusError.conf_kbus_cycle_ms).namesTimerHandle = false :=
  ⟨rfl, by decide, fun r => by cases r <;> decide, by decide,
    ((kbus_update_recovery exampleBusError rfl (by decide)
      (fun r => by cases r <;> decide)).1).trans (by decide),
    (kbus_update_recovery exampleBusError rfl (by decide)
      (fun r => by cases r <;> decide)).2.2.2 Mapping.mb_mapping_write (by decide),
    ((kbus_update_recovery exampleBusError rfl (by decide)
      (fun r => by cases r <;> decide)).2.1 _ (by simp)).2⟩

/-- C20, evaluated on the code: in operation mode 0 `kbus_forceUpdate` returns with the state
unchanged, so no driver call, no timer call, no change to the process image or to any
storage.  In any other operation mode (1 is the coupler mode) its calls are one
`timer_settime` with interval 0 on `&kbus_timerID`, the calls of exactly one `kbus_update`,
and one `timer_settime` with the configured cycle period on `&kbus_timerID`; none of them
names the timer handle that `timer_create` stored.  The calls of the `kbus_update` are
none when the mutex is held, those of one cycle body when the cycle can run at once, the
status poll and the push when the push fails, and those of the recovery when the bus
reports an error. -/
theorem kbus_forceUpdate_calls (g : Globals) :
    (g.conf_operation_mode = 0 → kbus_forceUpdate g = g) ∧
    (g.conf_operation_mode ≠ 0 →
      ∃ es : List Event,
        (kbus_forceUpdate g).trace =
            g.trace ++ [Event.timer_settime TimerArg.addressOfHandle 0] ++ es ++
              [Event.timer_settime TimerArg.addressOfHandle g.conf_kbus_cycle_ms] ∧
          (∀ e ∈ [Event.timer_settime TimerArg.addressOfHandle 0] ++ es ++
              [Event.timer_settime TimerArg.addressOfHandle g.conf_kbus_cycle_ms],
            e.namesTimerHandle = false) ∧
          (g.kbus_update_mutex = true → es = []) ∧
          (busReady g → es = cycleEvents g) ∧
          (g.kbus_update_mutex = false → g.bus.errorCodes.headD 0 = 0 →
            ¬ ((g.bus.pushes.headD ⟨true, true⟩).callSuccess = true ∧
              (g.bus.pushes.headD ⟨true, true⟩).retvalSuccess = true) →
            es = [Event.KbusInfo_GetStatus, Event.libpackbus_Push]) ∧
          (g.kbus_update_mutex = false → g.bus.errorCodes.headD 0 ≠ 0 →
            es = [Event.KbusInfo_GetStatus, Event.timer_settime TimerArg.addressOfHandle 0] ++
              recoveryEvents g.bus.errorCodes.tail ++
              [Event.kbus_close, Event.kbus_setup,
                Event.timer_settime TimerArg.addressOfHandle g.conf_kbus_cycle_ms])) := by
  refine ⟨?_, ?_⟩
  · intro h
    unfold kbus_forceUpdate
    rw [if_neg (by rw [h]; decide)]
  · intro h
    have hc : (kbus_update (kbus_timerSetTime g TimerArg.addressOfHandle 0)).conf_kbus_cycle_ms =
        g.conf_kbus_cycle_ms :=
      (sameControl_trans (timerSetTime_sameControl g TimerArg.addressOfHandle 0)
        (kbus_update_sameControl _)).2.2.2.2.2.2.2
    have hfu : kbus_forceUpdate g =
        kbus_timerSetTime (kbus_update (kbus_timerSetTime g TimerArg.addressOfHandle 0))
          TimerArg.addressOfHandle g.conf_kbus_cycle_ms := by
      unfold kbus_forceUpdate
      rw [if_pos h]
      dsimp only
      rw [hc]
    obtain ⟨es, h1, h2, h3, h4, h5, h6⟩ :=
      kbus_update_trace_cases (kbus_timerSetTime g TimerArg.addressOfHandle 0)
    refine ⟨es, ?_, ?_, h3, ?_, h5, h6⟩
    · rw [hfu]
      show (kbus_update (kbus_timerSetTime g TimerArg.addressOfHandle 0)).trace ++ _ = _
      rw [h1]
      rfl
    · intro e hmem
      rcases List.mem_append.mp hmem with h | h
      · rcases List.mem_append.mp h with h | h
        · rw [List.mem_singleton.mp h]
          rfl
        · exact h2 e h
      · rw [List.mem_singleton.mp h]
        rfl
    · intro hb
      rw [h4 (busReady_timerSetTime g _ _ hb), cycleEvents_timerSetTime]

/-- Witness of C20: at start-up (operation mode 0) a forced update changes nothing; on
the example coupler (operation mode 1) it calls `timer_settime` with 0 on `&kbus_timerID`,
polls the status, pushes, triggers the driver watchdog, writes two bytes, reads two bytes
and calls `timer_settime` with 50 ms on `&kbus_timerID`; no call names the timer handle. -/
theorem kbus_forceUpdate_calls_witness :
    kbus_forceUpdate modbus_task_globals = modbus_task_globals ∧
      exampleCoupler.conf_operation_mode ≠ 0 ∧
      (kbus_forceUpdate exampleCoupler).trace =
        [Event.timer_settime TimerArg.addressOfHandle 0, Event.KbusInfo_GetStatus,
          Event.libpackbus_Push, Event.WatchdogTrigger, Event.WriteStart,
          Event.WriteBytes 0 2 [0, 0], Event.WriteEnd, Event.ReadStart, Event.ReadBytes 0 2,
          Event.ReadEnd, Event.timer_settime TimerArg.addressOfHandle 50] ∧
      (∀ e ∈ (kbus_forceUpdate exampleCoupler).trace, e.namesTimerHandle = false) := by
  obtain ⟨es, h1, -, -, h4, -, -⟩ := (kbus_forceUpdate_calls exampleCoupler).2 (by decide)
  have hes : es = [Event.KbusInfo_GetStatus, Event.libpackbus_Push, Event.WatchdogTrigger,
      Event.WriteStart, Event.WriteBytes 0 2 [0, 0], Event.WriteEnd, Event.ReadStart,
      Event.ReadBytes 0 2, Event.ReadEnd] := (h4 (by decide)).trans (by decide)
  subst hes
  have ht : (kbus_forceUpdate exampleCoupler).trace =
      [Event.timer_settime TimerArg.addressOfHandle 0, Event.KbusInfo_GetStatus,
        Event.libpackbus_Push, Event.WatchdogTrigger, Event.WriteStart,
        Event.WriteBytes 0 2 [0, 0], Event.WriteEnd, Event.ReadStart, Event.ReadBytes 0 2,
        Event.ReadEnd, Event.timer_settime TimerArg.addressOfHandle 50] := h1.trans (by decide)
  refine ⟨(kbus_forceUpdate_calls modbus_task_globals).1 (by decide), by decide, ht, ?_⟩
  rw [ht]
  decide

end KbusModbus
